import Mathlib

/-!
# Service contract catalogue

The repository declares its services as pure-virtual interfaces.  The enumerations,
records, constants and the inline type() and isA() members below are transcribed from the
headers.  The bodies of the pure-virtual methods are not part of the headers; each one is
modelled from the specification and the documented contract of its declaration, and is
marked as such.
-/

namespace Stla
namespace AppFwk

/-! ## ILifecycleMonitorTypes.h -/

/-- Return codes of the lifecycle monitor (ELCM_ErrorType), in declaration order. -/
inductive ELCM_ErrorType where
  | E_LCM_RET_SUCCESS
  | E_LCM_RET_FAILURE
  | E_LCM_RET_INVALID_ARG
  | E_LCM_RET_DUPLICATE_REG
  | E_LCM_RET_NOT_REGISTERED
  | E_LCM_RET_INTERNAL_ERR
  | E_LCM_RET_NO_PERM
  | E_LCM_RET_BUSY
  | E_LCM_NO_ERROR
  deriving DecidableEq, Repr

/-- Application states (ELCM_AppState). -/
inductive ELCM_AppState where
  | E_LCM_AppState_INITIALIZING
  | E_LCM_AppState_IDLE
  | E_LCM_AppState_NORMAL
  deriving DecidableEq, Repr

/-- Reasons attached to an application state (ELCM_Reason). -/
inductive ELCM_Reason where
  | E_LCM_REASON_NONE
  | E_LCM_REASON_SHUTDOWN
  | E_LCM_REASON_SUSPEND_RAM
  | E_LCM_REASON_REBOOT
  | E_LCM_REASON_SERVICES_READY
  | E_LCM_REASON_SERVICES_NOT_READY
  deriving DecidableEq, Repr

/-- The record SLCM_AppState_t: the state to enter and the reason for it. -/
structure SLCM_AppState_t where
  state : ELCM_AppState
  reason : ELCM_Reason
  deriving DecidableEq, Repr

/-- Service states (ELCM_SrvState_t). -/
inductive ELCM_SrvState_t where
  | E_LCM_SRV_UNAVAILABLE
  | E_LCM_SRV_INITIALIZING
  | E_LCM_SRV_AVAILABLE
  deriving DecidableEq, Repr

/-- The record SLCM_SrvState_t, sent by a service that entered a new state. -/
structure SLCM_SrvState_t where
  state : ELCM_SrvState_t
  serviceName : String
  deriving DecidableEq, Repr

/-- The map type TServiceList (std::map from service name to service state), kept as an
association list with at most one entry per name. -/
abbrev TServiceList := List (String × ELCM_SrvState_t)

/-- The handle type lcm_RtcAlarmHandle_t (a C int). -/
abbrev lcm_RtcAlarmHandle_t := Int

/-- Lifecycle states of the control unit (lcm_LifecycleState_t). -/
inductive lcm_LifecycleState_t where
  | E_LCM_ST_EMERGENCY
  | E_LCM_ST_NOMINAL
  | E_LCM_ST_UPDATE
  | E_LCM_ST_BEFORE_SLEEP
  | E_LCM_ST_LAST
  deriving DecidableEq, Repr

/-- CAN network states (lcm_CANNetworkState_t). -/
inductive lcm_CANNetworkState_t where
  | E_LCM_CAN_OFF
  | E_LCM_CAN_ON
  | E_LCM_CAN_OFF_TO_CAUSE
  | E_LCM_CAN_LAST
  deriving DecidableEq, Repr

/-- Park mode states (lcm_ParkModeState_t). -/
inductive lcm_ParkModeState_t where
  | E_LCM_PARK_MODE_OFF
  | E_LCM_PARK_MODE_ON
  | E_LCM_PARK_MODE_LAST
  deriving DecidableEq, Repr

/-- The record lcm_RtcAlarmCreated_t: the global handle paired with the local index. -/
structure lcm_RtcAlarmCreated_t where
  alarmHandle : lcm_RtcAlarmHandle_t
  index : Nat
  deriving DecidableEq, Repr

/-- Backup battery status (lcm_BackupBatteryStatus_t). -/
inductive lcm_BackupBatteryStatus_t where
  | E_LCM_BUB_ABSENT
  | E_LCM_BUB_BROKEN
  | E_LCM_BUB_INACTIVE_CHARGING
  | E_LCM_BACKUP_BATTERY_INACTIVE
  | E_LCM_BACKUP_BATTERY_ACTIVE
  | E_LCM_BACKUP_BATTERY_LAST
  deriving DecidableEq, Repr

/-- Backup battery state of charge (lcm_BuBSOC_t). -/
inductive lcm_BuBSOC_t where
  | E_LCM_BUB_SOC_ABSENT_OR_BROKEN
  | E_LCM_BUB_SOC_VERY_LOW
  | E_LCM_BUB_SOC_LOW
  | E_LCM_BUB_SOC_HIGH
  | E_LCM_BUB_SOC_FULL
  | E_LCM_SOC_BUB_INVALID_LAST
  deriving DecidableEq, Repr

/-- Backup battery state of health (lcm_BuBSOH_t). -/
inductive lcm_BuBSOH_t where
  | E_LCM_SOH_BUB_ABSENT
  | E_LCM_SOH_BUB_BROKEN
  | E_LCM_SOH_BUB_OPERATIONAL
  | E_LCM_SOH_BUB_IN_PROGRESS
  | E_LCM_SOH_BUB_LAST
  deriving DecidableEq, Repr

/-- Wakeup reasons (lcm_WakeupReason_t). -/
inductive lcm_WakeupReason_t where
  | E_LCM_WAKEUP_CAN
  | E_LCM_WAKEUP_ECALL
  | E_LCM_WAKEUP_BCALL
  | E_LCM_WAKEUP_POWER_SUPPLY_LOST
  | E_LCM_WAKEUP_SMS
  | E_LCM_WAKEUP_DATA
  | E_LCM_WAKEUP_RTC
  | E_LCM_WAKEUP_VEHICLE_MOVEMENT
  | E_LCM_WAKEUP_VOICE_CALL
  | E_LCM_WAKEUP_GPT
  | E_LCM_WAKEUP_GENERIC
  | E_LCM_WAKEUP_RTC_APP
  | E_LCM_WAKEUP_RTC_SWM
  | E_LCM_WAKEUP_UNDEFINED
  | E_LCM_WAKEUP_LAST
  deriving DecidableEq, Repr

/-! ## ILifecycleMonitor.h: the notification channels -/

/-- One notification on one of the Poco::BasicEvent members of ILifecycleMonitor.  The
constructor is the member's name, the argument its payload. -/
inductive LcmEvent where
  | AppStateEvent (st : SLCM_AppState_t)
  | OptServiceAvailable (name : String)
  | OptServiceUnavailable (name : String)
  | LifecycleStateEvent (st : lcm_LifecycleState_t)
  | CanNetworkStateEvent (st : lcm_CANNetworkState_t)
  | ParkModeStateEvent (st : lcm_ParkModeState_t)
  | RtcAlarmExpiredEvent (h : lcm_RtcAlarmHandle_t)
  | RtcAlarmDeletedEvent (h : lcm_RtcAlarmHandle_t)
  | RtcAlarmCreatedEvent (c : lcm_RtcAlarmCreated_t)
  | BackupBatteryStatusEvent (st : lcm_BackupBatteryStatus_t)
  | BackupBatteryVoltageEvent (mv : Nat)
  | BackupBatteryTemperatureEvent (deg : Int)
  | BackupBatterySOHEvent (soh : lcm_BuBSOH_t)
  | BackupBatteryChargeLevelEvent (soc : lcm_BuBSOC_t)
  | WakeupReasonEvent (r : lcm_WakeupReason_t)
  | ackAppStateEvent (st : SLCM_AppState_t)
  deriving DecidableEq, Repr

/-! ## The lifecycle monitor object -/

/-- Maximum number of alarms one application can hold ("an application can create maximum
5 alarms"). -/
def LCM_MAX_RTC_ALARMS : Nat := 5

/-- Maximum number of cycles of an alarm ("maximum number of cycles is 255"). -/
def LCM_MAX_RTC_CYCLES : Nat := 255

/-- Minimum period of an alarm in minutes ("minimum time is 5 minutes"). -/
def LCM_MIN_RTC_PERIOD : Nat := 5

/-- Maximum period of an alarm in minutes ("maximum time is 65535 minutes"). -/
def LCM_MAX_RTC_PERIOD : Nat := 65535

/-- Modelled from the spec: the bookkeeping record of one RTC alarm, which the headers do
not declare.  It carries the process-local index assigned by the creation request, the
global handle once the "created" notification has delivered it, the remaining cycles, the
period, and whether the alarm has expired and awaits acknowledgement. -/
structure RtcAlarm where
  index : Nat
  alarmHandle : Option lcm_RtcAlarmHandle_t
  cycles : Nat
  period : Nat
  expired : Bool
  deriving DecidableEq, Repr

/-- Modelled from the spec: the state of the object behind ILifecycleMonitor (named
CLifecycleMonitor in the message sequence charts of the headers), whose class is not part
of the headers.  It holds the declared dependencies, the service dependency map, the last
requested application state, whether the application is registered with the state
manager, the last known telemetry values and the alarm bookkeeping. -/
structure CLifecycleMonitor where
  mandatoryServices : List String
  optionalServices : List String
  m_services : TServiceList
  m_appState : SLCM_AppState_t
  registered : Bool
  lifecycleState : lcm_LifecycleState_t
  canState : lcm_CANNetworkState_t
  parkModeState : lcm_ParkModeState_t
  batteryStatus : lcm_BackupBatteryStatus_t
  bubVoltage : Nat
  bubTemperature : Int
  bubSoh : lcm_BuBSOH_t
  bubChargeLevel : lcm_BuBSOC_t
  wakeupReason : lcm_WakeupReason_t
  wakeSourcesValidated : Bool
  cdnoActive : Bool
  alarms : List RtcAlarm
  nextIndex : Nat
  deriving DecidableEq, Repr

/-- Look a service name up in a TServiceList (std::map::find). -/
def TServiceList.find : TServiceList → String → Option ELCM_SrvState_t
  | [], _ => none
  | (k, v) :: rest, name => if k = name then some v else TServiceList.find rest name

/-- Insert a name with a state unless the name is already a key (std::map::insert). -/
def TServiceList.insert : TServiceList → String → ELCM_SrvState_t → TServiceList
  | [], name, st => [(name, st)]
  | (k, v) :: rest, name, st =>
    if k = name then (k, v) :: rest else (k, v) :: TServiceList.insert rest name st

/-- Overwrite the state of a name that is a key; other entries are untouched. -/
def TServiceList.assign : TServiceList → String → ELCM_SrvState_t → TServiceList
  | [], _, _ => []
  | (k, v) :: rest, name, st =>
    if k = name then (k, st) :: rest else (k, v) :: TServiceList.assign rest name st

/-- The dependency map built from a list of names, each in the initial state of a service
(E_LCM_SRV_INITIALIZING, "Initial state of a service"). -/
def TServiceList.ofNames (names : List String) : TServiceList :=
  names.foldl (fun m n => TServiceList.insert m n ELCM_SrvState_t.E_LCM_SRV_INITIALIZING) []

/-- The values the platform reports when the monitor object is created. -/
structure LcmPlatform where
  registered : Bool
  lifecycleState : lcm_LifecycleState_t
  canState : lcm_CANNetworkState_t
  parkModeState : lcm_ParkModeState_t
  batteryStatus : lcm_BackupBatteryStatus_t
  bubVoltage : Nat
  bubTemperature : Int
  bubSoh : lcm_BuBSOH_t
  bubChargeLevel : lcm_BuBSOC_t
  wakeupReason : lcm_WakeupReason_t
  wakeSourcesValidated : Bool
  cdnoActive : Bool
  deriving DecidableEq, Repr

/-- Modelled from the spec: IEarlyInitService::getLCM_Obj is pure virtual.  It creates the
monitor of one application from its mandatory and optional services; every declared
dependency starts as E_LCM_SRV_INITIALIZING, the application state as
(Initializing, None), and no alarm is outstanding. -/
def getLCM_Obj (p : LcmPlatform) (mandatoryServices optionalServices : List String) :
    CLifecycleMonitor :=
  { mandatoryServices := mandatoryServices
    optionalServices := optionalServices
    m_services := TServiceList.ofNames (mandatoryServices ++ optionalServices)
    m_appState := ⟨ELCM_AppState.E_LCM_AppState_INITIALIZING, ELCM_Reason.E_LCM_REASON_NONE⟩
    registered := p.registered
    lifecycleState := p.lifecycleState
    canState := p.canState
    parkModeState := p.parkModeState
    batteryStatus := p.batteryStatus
    bubVoltage := p.bubVoltage
    bubTemperature := p.bubTemperature
    bubSoh := p.bubSoh
    bubChargeLevel := p.bubChargeLevel
    wakeupReason := p.wakeupReason
    wakeSourcesValidated := p.wakeSourcesValidated
    cdnoActive := p.cdnoActive
    alarms := []
    nextIndex := 0 }

/-- What a call on the monitor yields: the return code, the content of the output
parameter after the call, the monitor afterwards, and the notifications raised. -/
structure LcmResult (α : Type) where
  ret : ELCM_ErrorType
  out : α
  state : CLifecycleMonitor
  events : List LcmEvent

/-- Modelled from the spec: ILifecycleMonitor::getServiceAvailability is pure virtual.
Documented contract: E_LCM_RET_INVALID_ARG if there is no service associated to the
input, otherwise E_LCM_RET_SUCCESS with available set to TRUE if the service is
available.  The output is the content of the reference parameter after the call; it is
left as it was when the call fails. -/
def getServiceAvailability (s : CLifecycleMonitor) (symbolicName : String)
    (available : Bool) : LcmResult Bool :=
  match TServiceList.find s.m_services symbolicName with
  | none => ⟨ELCM_ErrorType.E_LCM_RET_INVALID_ARG, available, s, []⟩
  | some st =>
    ⟨ELCM_ErrorType.E_LCM_RET_SUCCESS,
      decide (st = ELCM_SrvState_t.E_LCM_SRV_AVAILABLE), s, []⟩

/-- Modelled from the spec: ILifecycleMonitor::ackAppState is pure virtual.  The
acknowledgement is forwarded to the coordinator (ackAppStateEvent in the message sequence
chart) and does not change the monitor's own record of the requested state. -/
def ackAppState (s : CLifecycleMonitor) (state : SLCM_AppState_t) :
    CLifecycleMonitor × List LcmEvent :=
  (s, [LcmEvent.ackAppStateEvent state])

/-! ### RTC alarms -/

/-- The first alarm that carries the given global handle. -/
def findAlarm (alarms : List RtcAlarm) (h : lcm_RtcAlarmHandle_t) : Option RtcAlarm :=
  alarms.find? (fun a => decide (a.alarmHandle = some h))

/-- Remove the alarms that carry the given global handle. -/
def eraseAlarm (alarms : List RtcAlarm) (h : lcm_RtcAlarmHandle_t) : List RtcAlarm :=
  alarms.filter (fun a => !decide (a.alarmHandle = some h))

/-- Apply a change to the alarms that carry the given global handle. -/
def updateAlarm (alarms : List RtcAlarm) (h : lcm_RtcAlarmHandle_t)
    (f : RtcAlarm → RtcAlarm) : List RtcAlarm :=
  alarms.map (fun a => if a.alarmHandle = some h then f a else a)

/-- Give the handle to the first alarm that has the given local index and no handle yet. -/
def assignHandle : List RtcAlarm → Nat → lcm_RtcAlarmHandle_t → List RtcAlarm
  | [], _, _ => []
  | a :: rest, idx, h =>
    if a.index = idx ∧ a.alarmHandle = none then { a with alarmHandle := some h } :: rest
    else a :: assignHandle rest idx h

/-- Modelled from the spec: ILifecycleMonitor::lcm_createRTCAlarm is pure virtual.
An application holds at most 5 alarms, and a request made while 5 are held fails with
Failure: this is the specification's sentence on the 6th concurrent request (the comment
of the declaration lists E_LCM_RET_NO_PERM for a reached maximum; the model follows the
specification).  The remaining codes are those of the declaration, checked in the order
of its list: E_LCM_RET_FAILURE if index is NULL or on a generic failure like a memory
allocation error; E_LCM_RET_INVALID_ARG if cycles is 0 or exceeds the maximum or the
period is out of range; E_LCM_RET_NOT_REGISTERED if the application is not registered;
E_LCM_RET_NO_PERM if the system state is not BEFORE_SLEEP; otherwise E_LCM_RET_SUCCESS,
the alarm is recorded as requested and its local index is written to index.  A NULL
index is none; genericFailure tells whether the platform meets a generic failure during
this call. -/
def lcm_createRTCAlarm (s : CLifecycleMonitor) (cycles period : Nat) (index : Option Nat)
    (genericFailure : Bool) : LcmResult (Option Nat) :=
  if index = none ∨ genericFailure = true ∨ LCM_MAX_RTC_ALARMS ≤ s.alarms.length then
    ⟨ELCM_ErrorType.E_LCM_RET_FAILURE, index, s, []⟩
  else if cycles = 0 ∨ LCM_MAX_RTC_CYCLES < cycles ∨ period < LCM_MIN_RTC_PERIOD
      ∨ LCM_MAX_RTC_PERIOD < period then
    ⟨ELCM_ErrorType.E_LCM_RET_INVALID_ARG, index, s, []⟩
  else if s.registered = false then
    ⟨ELCM_ErrorType.E_LCM_RET_NOT_REGISTERED, index, s, []⟩
  else if s.lifecycleState ≠ lcm_LifecycleState_t.E_LCM_ST_BEFORE_SLEEP then
    ⟨ELCM_ErrorType.E_LCM_RET_NO_PERM, index, s, []⟩
  else
    ⟨ELCM_ErrorType.E_LCM_RET_SUCCESS, some s.nextIndex,
      { s with
        alarms := s.alarms ++ [⟨s.nextIndex, none, cycles, period, false⟩]
        nextIndex := s.nextIndex + 1 }, []⟩

/-- Modelled from the spec: ILifecycleMonitor::lcm_deleteRTCAlarm is pure virtual.
Documented return codes: E_LCM_RET_NOT_REGISTERED if the application is not registered;
E_LCM_RET_INVALID_ARG if the handle is invalid (no alarm of this application carries it);
E_LCM_RET_NO_PERM if the alarm is expired (it has to be acknowledged first); otherwise
E_LCM_RET_SUCCESS, the alarm is removed and RtcAlarmDeletedEvent is raised. -/
def lcm_deleteRTCAlarm (s : CLifecycleMonitor) (alarmHandle : lcm_RtcAlarmHandle_t) :
    LcmResult Unit :=
  if s.registered = false then
    ⟨ELCM_ErrorType.E_LCM_RET_NOT_REGISTERED, (), s, []⟩
  else
    match findAlarm s.alarms alarmHandle with
    | none => ⟨ELCM_ErrorType.E_LCM_RET_INVALID_ARG, (), s, []⟩
    | some a =>
      if a.expired = true then ⟨ELCM_ErrorType.E_LCM_RET_NO_PERM, (), s, []⟩
      else
        ⟨ELCM_ErrorType.E_LCM_RET_SUCCESS, (),
          { s with alarms := eraseAlarm s.alarms alarmHandle },
          [LcmEvent.RtcAlarmDeletedEvent alarmHandle]⟩

/-- Modelled from the spec: ILifecycleMonitor::lcm_acknowledgeRTCAlarm is pure virtual.
Documented return codes: E_LCM_RET_NOT_REGISTERED if the application is not registered;
E_LCM_RET_INVALID_ARG if the handle is invalid; E_LCM_RET_NO_PERM if the alarm is not
expired; otherwise E_LCM_RET_SUCCESS: the alarm no longer awaits acknowledgement, and an
alarm whose cycles reached 0 is deleted with RtcAlarmDeletedEvent. -/
def lcm_acknowledgeRTCAlarm (s : CLifecycleMonitor) (alarmHandle : lcm_RtcAlarmHandle_t) :
    LcmResult Unit :=
  if s.registered = false then
    ⟨ELCM_ErrorType.E_LCM_RET_NOT_REGISTERED, (), s, []⟩
  else
    match findAlarm s.alarms alarmHandle with
    | none => ⟨ELCM_ErrorType.E_LCM_RET_INVALID_ARG, (), s, []⟩
    | some a =>
      if a.expired = false then ⟨ELCM_ErrorType.E_LCM_RET_NO_PERM, (), s, []⟩
      else if a.cycles = 0 then
        ⟨ELCM_ErrorType.E_LCM_RET_SUCCESS, (),
          { s with alarms := eraseAlarm s.alarms alarmHandle },
          [LcmEvent.RtcAlarmDeletedEvent alarmHandle]⟩
      else
        ⟨ELCM_ErrorType.E_LCM_RET_SUCCESS, (),
          { s with
            alarms := updateAlarm s.alarms alarmHandle (fun x => { x with expired := false }) },
          []⟩

/-! ### Getters with an output pointer

A pointer argument is an Option: none is NULL, some v is a valid pointer whose target
holds v.  The output of the result is the target after the call. -/

/-- Modelled from the spec: lcm_getCANState is pure virtual.  Documented contract:
E_LCM_RET_FAILURE if CANState is NULL, otherwise the current CAN network state. -/
def lcm_getCANState (s : CLifecycleMonitor) (CANState : Option lcm_CANNetworkState_t) :
    LcmResult (Option lcm_CANNetworkState_t) :=
  match CANState with
  | none => ⟨ELCM_ErrorType.E_LCM_RET_FAILURE, none, s, []⟩
  | some _ => ⟨ELCM_ErrorType.E_LCM_RET_SUCCESS, some s.canState, s, []⟩

/-- Modelled from the spec: lcm_getParkModeState is pure virtual.  Documented contract:
E_LCM_RET_FAILURE if ParkModeState is NULL, otherwise the current park mode state. -/
def lcm_getParkModeState (s : CLifecycleMonitor) (ParkModeState : Option lcm_ParkModeState_t) :
    LcmResult (Option lcm_ParkModeState_t) :=
  match ParkModeState with
  | none => ⟨ELCM_ErrorType.E_LCM_RET_FAILURE, none, s, []⟩
  | some _ => ⟨ELCM_ErrorType.E_LCM_RET_SUCCESS, some s.parkModeState, s, []⟩

/-- Modelled from the spec: lcm_getBackupBatteryStatus is pure virtual.  Documented
contract: E_LCM_RET_FAILURE if batteryStatus is NULL, otherwise the current status. -/
def lcm_getBackupBatteryStatus (s : CLifecycleMonitor)
    (batteryStatus : Option lcm_BackupBatteryStatus_t) :
    LcmResult (Option lcm_BackupBatteryStatus_t) :=
  match batteryStatus with
  | none => ⟨ELCM_ErrorType.E_LCM_RET_FAILURE, none, s, []⟩
  | some _ => ⟨ELCM_ErrorType.E_LCM_RET_SUCCESS, some s.batteryStatus, s, []⟩

/-- Modelled from the spec: lcm_getBackupBatteryVoltage is pure virtual.  Documented
contract: E_LCM_RET_FAILURE if bubVoltage is NULL, otherwise the voltage in mV. -/
def lcm_getBackupBatteryVoltage (s : CLifecycleMonitor) (bubVoltage : Option Nat) :
    LcmResult (Option Nat) :=
  match bubVoltage with
  | none => ⟨ELCM_ErrorType.E_LCM_RET_FAILURE, none, s, []⟩
  | some _ => ⟨ELCM_ErrorType.E_LCM_RET_SUCCESS, some s.bubVoltage, s, []⟩

/-- Modelled from the spec: lcm_getBackupBatteryTemperature is pure virtual.  Documented
contract: E_LCM_RET_FAILURE if bubTemperature is NULL, otherwise the temperature. -/
def lcm_getBackupBatteryTemperature (s : CLifecycleMonitor) (bubTemperature : Option Int) :
    LcmResult (Option Int) :=
  match bubTemperature with
  | none => ⟨ELCM_ErrorType.E_LCM_RET_FAILURE, none, s, []⟩
  | some _ => ⟨ELCM_ErrorType.E_LCM_RET_SUCCESS, some s.bubTemperature, s, []⟩

/-- Modelled from the spec: lcm_getBackupBatterySOH is pure virtual.  Documented
contract: E_LCM_RET_FAILURE if bubSoh is NULL, otherwise the state of health. -/
def lcm_getBackupBatterySOH (s : CLifecycleMonitor) (bubSoh : Option lcm_BuBSOH_t) :
    LcmResult (Option lcm_BuBSOH_t) :=
  match bubSoh with
  | none => ⟨ELCM_ErrorType.E_LCM_RET_FAILURE, none, s, []⟩
  | some _ => ⟨ELCM_ErrorType.E_LCM_RET_SUCCESS, some s.bubSoh, s, []⟩

/-- Modelled from the spec: lcm_getBackupBatteryChargeLevel is pure virtual.  Documented
contract: E_LCM_RET_FAILURE if bubChargeLevel is NULL, otherwise the charge level. -/
def lcm_getBackupBatteryChargeLevel (s : CLifecycleMonitor)
    (bubChargeLevel : Option lcm_BuBSOC_t) : LcmResult (Option lcm_BuBSOC_t) :=
  match bubChargeLevel with
  | none => ⟨ELCM_ErrorType.E_LCM_RET_FAILURE, none, s, []⟩
  | some _ => ⟨ELCM_ErrorType.E_LCM_RET_SUCCESS, some s.bubChargeLevel, s, []⟩

/-- Modelled from the spec: lcm_getWakeupReason is pure virtual.  Documented contract:
E_LCM_RET_FAILURE if wakeupReason is NULL, E_LCM_RET_BUSY if not all wake sources are
validated, otherwise the wakeup reason. -/
def lcm_getWakeupReason (s : CLifecycleMonitor) (wakeupReason : Option lcm_WakeupReason_t) :
    LcmResult (Option lcm_WakeupReason_t) :=
  match wakeupReason with
  | none => ⟨ELCM_ErrorType.E_LCM_RET_FAILURE, none, s, []⟩
  | some old =>
    if s.wakeSourcesValidated = false then ⟨ELCM_ErrorType.E_LCM_RET_BUSY, some old, s, []⟩
    else ⟨ELCM_ErrorType.E_LCM_RET_SUCCESS, some s.wakeupReason, s, []⟩

/-- Modelled from the spec: lcm_getLifecycleState is pure virtual.  Documented contract:
E_LCM_RET_FAILURE if state is NULL, otherwise the current lifecycle state. -/
def lcm_getLifecycleState (s : CLifecycleMonitor) (state : Option lcm_LifecycleState_t) :
    LcmResult (Option lcm_LifecycleState_t) :=
  match state with
  | none => ⟨ELCM_ErrorType.E_LCM_RET_FAILURE, none, s, []⟩
  | some _ => ⟨ELCM_ErrorType.E_LCM_RET_SUCCESS, some s.lifecycleState, s, []⟩

/-- Modelled from the spec: lcm_isCDNOActive is pure virtual.  Like every getter of the
specification it fails with Failure if the output pointer bCDNOActive is NULL (the
comment of the declaration lists E_LCM_RET_INVALID_ARG for this case; the model follows
the specification), otherwise it gives TRUE if CDNO is active. -/
def lcm_isCDNOActive (s : CLifecycleMonitor) (bCDNOActive : Option Bool) :
    LcmResult (Option Bool) :=
  match bCDNOActive with
  | none => ⟨ELCM_ErrorType.E_LCM_RET_FAILURE, none, s, []⟩
  | some _ => ⟨ELCM_ErrorType.E_LCM_RET_SUCCESS, some s.cdnoActive, s, []⟩

/-! ### Notifications from the platform -/

/-- Whether every mandatory service is tracked as E_LCM_SRV_AVAILABLE. -/
def allMandatoryAvailable (s : CLifecycleMonitor) : Bool :=
  s.mandatoryServices.all (fun n =>
    decide (TServiceList.find s.m_services n = some ELCM_SrvState_t.E_LCM_SRV_AVAILABLE))

/-- Modelled from the spec: the monitor's reaction to a dependency-resolution notification
(a service reporting SLCM_SrvState_t), which the headers only describe.  A name that is
not a declared dependency is ignored.  For a mandatory service the readiness of the
application is re-evaluated: when all mandatory services have become available the
application is asked to enter (Normal, ServicesReady), when readiness is lost it is asked
to enter (Idle, ServicesNotReady).  For a service that is only optional, one
OptServiceAvailable or OptServiceUnavailable notification with the service's name is
raised when its availability changes. -/
def notifySrvState (s : CLifecycleMonitor) (ev : SLCM_SrvState_t) :
    CLifecycleMonitor × List LcmEvent :=
  match TServiceList.find s.m_services ev.serviceName with
  | none => (s, [])
  | some old =>
    let s1 := { s with m_services := TServiceList.assign s.m_services ev.serviceName ev.state }
    if ev.serviceName ∈ s.mandatoryServices then
      if allMandatoryAvailable s = false ∧ allMandatoryAvailable s1 = true then
        let st : SLCM_AppState_t :=
          ⟨ELCM_AppState.E_LCM_AppState_NORMAL, ELCM_Reason.E_LCM_REASON_SERVICES_READY⟩
        ({ s1 with m_appState := st }, [LcmEvent.AppStateEvent st])
      else if allMandatoryAvailable s = true ∧ allMandatoryAvailable s1 = false then
        let st : SLCM_AppState_t :=
          ⟨ELCM_AppState.E_LCM_AppState_IDLE, ELCM_Reason.E_LCM_REASON_SERVICES_NOT_READY⟩
        ({ s1 with m_appState := st }, [LcmEvent.AppStateEvent st])
      else (s1, [])
    else if old ≠ ELCM_SrvState_t.E_LCM_SRV_AVAILABLE
        ∧ ev.state = ELCM_SrvState_t.E_LCM_SRV_AVAILABLE then
      (s1, [LcmEvent.OptServiceAvailable ev.serviceName])
    else if old = ELCM_SrvState_t.E_LCM_SRV_AVAILABLE
        ∧ ev.state ≠ ELCM_SrvState_t.E_LCM_SRV_AVAILABLE then
      (s1, [LcmEvent.OptServiceUnavailable ev.serviceName])
    else (s1, [])

/-- Modelled from the spec: the monitor's reaction to a state request of the lifecycle
coordinator.  Shutdown, suspend-to-RAM and reboot ask the application to enter Idle with
that reason; the other reasons are raised by the monitor itself and are ignored here. -/
def requestAppState (s : CLifecycleMonitor) (reason : ELCM_Reason) :
    CLifecycleMonitor × List LcmEvent :=
  if reason = ELCM_Reason.E_LCM_REASON_SHUTDOWN ∨ reason = ELCM_Reason.E_LCM_REASON_SUSPEND_RAM
      ∨ reason = ELCM_Reason.E_LCM_REASON_REBOOT then
    let st : SLCM_AppState_t := ⟨ELCM_AppState.E_LCM_AppState_IDLE, reason⟩
    ({ s with m_appState := st }, [LcmEvent.AppStateEvent st])
  else (s, [])

/-- Modelled from the spec: the "created" notification of the state manager.  The handle
is given to the requested alarm with that local index, unless the handle is already in
use, and RtcAlarmCreatedEvent is raised for it. -/
def onRtcAlarmCreated (s : CLifecycleMonitor) (c : lcm_RtcAlarmCreated_t) :
    CLifecycleMonitor × List LcmEvent :=
  if (findAlarm s.alarms c.alarmHandle).isSome then (s, [])
  else if s.alarms.any (fun a => decide (a.index = c.index ∧ a.alarmHandle = none)) then
    ({ s with alarms := assignHandle s.alarms c.index c.alarmHandle },
      [LcmEvent.RtcAlarmCreatedEvent c])
  else (s, [])

/-- Modelled from the spec: the expiry of an alarm.  A created alarm that is not already
awaiting acknowledgement becomes expired, one cycle is consumed, and
RtcAlarmExpiredEvent is raised. -/
def onRtcAlarmExpired (s : CLifecycleMonitor) (h : lcm_RtcAlarmHandle_t) :
    CLifecycleMonitor × List LcmEvent :=
  match findAlarm s.alarms h with
  | none => (s, [])
  | some a =>
    if a.expired = true then (s, [])
    else
      ({ s with
         alarms := updateAlarm s.alarms h
           (fun x => { x with expired := true, cycles := x.cycles - 1 }) },
        [LcmEvent.RtcAlarmExpiredEvent h])

/-- A notification that reaches the monitor from the platform. -/
inductive LcmNotification where
  | srvState (ev : SLCM_SrvState_t)
  | appStateRequest (reason : ELCM_Reason)
  | lifecycleState (st : lcm_LifecycleState_t)
  | canNetworkState (st : lcm_CANNetworkState_t)
  | parkModeState (st : lcm_ParkModeState_t)
  | rtcAlarmCreated (c : lcm_RtcAlarmCreated_t)
  | rtcAlarmExpired (h : lcm_RtcAlarmHandle_t)
  | backupBatteryStatus (st : lcm_BackupBatteryStatus_t)
  | backupBatteryVoltage (mv : Nat)
  | backupBatteryTemperature (deg : Int)
  | backupBatterySOH (soh : lcm_BuBSOH_t)
  | backupBatteryChargeLevel (soc : lcm_BuBSOC_t)
  | wakeupReason (r : lcm_WakeupReason_t)
  | cdno (active : Bool)
  deriving DecidableEq, Repr

/-- Modelled from the spec: the monitor caches the last value of every telemetry
notification and forwards it on the matching channel; service, application-state and
alarm notifications are handled by the functions above. -/
def onNotification (s : CLifecycleMonitor) : LcmNotification → CLifecycleMonitor × List LcmEvent
  | .srvState ev => notifySrvState s ev
  | .appStateRequest reason => requestAppState s reason
  | .lifecycleState st => ({ s with lifecycleState := st }, [LcmEvent.LifecycleStateEvent st])
  | .canNetworkState st => ({ s with canState := st }, [LcmEvent.CanNetworkStateEvent st])
  | .parkModeState st => ({ s with parkModeState := st }, [LcmEvent.ParkModeStateEvent st])
  | .rtcAlarmCreated c => onRtcAlarmCreated s c
  | .rtcAlarmExpired h => onRtcAlarmExpired s h
  | .backupBatteryStatus st =>
    ({ s with batteryStatus := st }, [LcmEvent.BackupBatteryStatusEvent st])
  | .backupBatteryVoltage mv =>
    ({ s with bubVoltage := mv }, [LcmEvent.BackupBatteryVoltageEvent mv])
  | .backupBatteryTemperature deg =>
    ({ s with bubTemperature := deg }, [LcmEvent.BackupBatteryTemperatureEvent deg])
  | .backupBatterySOH soh => ({ s with bubSoh := soh }, [LcmEvent.BackupBatterySOHEvent soh])
  | .backupBatteryChargeLevel soc =>
    ({ s with bubChargeLevel := soc }, [LcmEvent.BackupBatteryChargeLevelEvent soc])
  | .wakeupReason r =>
    ({ s with wakeupReason := r, wakeSourcesValidated := true }, [LcmEvent.WakeupReasonEvent r])
  | .cdno active => ({ s with cdnoActive := active }, [])

/-- A call of the owning application on its monitor, with its arguments; a request for an
alarm also carries whether the platform meets a generic failure while serving it. -/
inductive LcmCall where
  | ackAppState (state : SLCM_AppState_t)
  | getServiceAvailability (symbolicName : String) (available : Bool)
  | lcm_getCANState (p : Option lcm_CANNetworkState_t)
  | lcm_getParkModeState (p : Option lcm_ParkModeState_t)
  | lcm_createRTCAlarm (cycles period : Nat) (index : Option Nat) (genericFailure : Bool)
  | lcm_deleteRTCAlarm (alarmHandle : lcm_RtcAlarmHandle_t)
  | lcm_acknowledgeRTCAlarm (alarmHandle : lcm_RtcAlarmHandle_t)
  | lcm_getBackupBatteryStatus (p : Option lcm_BackupBatteryStatus_t)
  | lcm_getBackupBatteryVoltage (p : Option Nat)
  | lcm_getBackupBatteryTemperature (p : Option Int)
  | lcm_getBackupBatterySOH (p : Option lcm_BuBSOH_t)
  | lcm_getBackupBatteryChargeLevel (p : Option lcm_BuBSOC_t)
  | lcm_getWakeupReason (p : Option lcm_WakeupReason_t)
  | lcm_getLifecycleState (p : Option lcm_LifecycleState_t)
  | lcm_isCDNOActive (p : Option Bool)
  deriving DecidableEq, Repr

/-- The monitor and the notifications after one call of the application. -/
def onCall (s : CLifecycleMonitor) : LcmCall → CLifecycleMonitor × List LcmEvent
  | .ackAppState st => ackAppState s st
  | .getServiceAvailability n a =>
    ((getServiceAvailability s n a).state, (getServiceAvailability s n a).events)
  | .lcm_getCANState p => ((lcm_getCANState s p).state, (lcm_getCANState s p).events)
  | .lcm_getParkModeState p =>
    ((lcm_getParkModeState s p).state, (lcm_getParkModeState s p).events)
  | .lcm_createRTCAlarm c p i g =>
    ((lcm_createRTCAlarm s c p i g).state, (lcm_createRTCAlarm s c p i g).events)
  | .lcm_deleteRTCAlarm h => ((lcm_deleteRTCAlarm s h).state, (lcm_deleteRTCAlarm s h).events)
  | .lcm_acknowledgeRTCAlarm h =>
    ((lcm_acknowledgeRTCAlarm s h).state, (lcm_acknowledgeRTCAlarm s h).events)
  | .lcm_getBackupBatteryStatus p =>
    ((lcm_getBackupBatteryStatus s p).state, (lcm_getBackupBatteryStatus s p).events)
  | .lcm_getBackupBatteryVoltage p =>
    ((lcm_getBackupBatteryVoltage s p).state, (lcm_getBackupBatteryVoltage s p).events)
  | .lcm_getBackupBatteryTemperature p =>
    ((lcm_getBackupBatteryTemperature s p).state, (lcm_getBackupBatteryTemperature s p).events)
  | .lcm_getBackupBatterySOH p =>
    ((lcm_getBackupBatterySOH s p).state, (lcm_getBackupBatterySOH s p).events)
  | .lcm_getBackupBatteryChargeLevel p =>
    ((lcm_getBackupBatteryChargeLevel s p).state, (lcm_getBackupBatteryChargeLevel s p).events)
  | .lcm_getWakeupReason p =>
    ((lcm_getWakeupReason s p).state, (lcm_getWakeupReason s p).events)
  | .lcm_getLifecycleState p =>
    ((lcm_getLifecycleState s p).state, (lcm_getLifecycleState s p).events)
  | .lcm_isCDNOActive p => ((lcm_isCDNOActive s p).state, (lcm_isCDNOActive s p).events)

/-- One input of the monitor: a call of the application or a platform notification. -/
inductive LcmInput where
  | call (c : LcmCall)
  | notification (n : LcmNotification)
  deriving DecidableEq, Repr

/-- One step of the monitor. -/
def lcmStep (s : CLifecycleMonitor) : LcmInput → CLifecycleMonitor × List LcmEvent
  | .call c => onCall s c
  | .notification n => onNotification s n

/-- The monitor after a sequence of inputs. -/
def lcmRun (s : CLifecycleMonitor) (inputs : List LcmInput) : CLifecycleMonitor :=
  inputs.foldl (fun st i => (lcmStep st i).1) s

/-- The states a monitor can be in: the one returned by getLCM_Obj, and every state one
step after a reachable one. -/
inductive LcmReachable : CLifecycleMonitor → Prop where
  | init (p : LcmPlatform) (mandatoryServices optionalServices : List String) :
      LcmReachable (getLCM_Obj p mandatoryServices optionalServices)
  | step (s : CLifecycleMonitor) (i : LcmInput) :
      LcmReachable s → LcmReachable (lcmStep s i).1


/-! ### Well-formedness of a monitor -/

/-- The global handles carried by the alarms that already have one. -/
def alarmHandles (alarms : List RtcAlarm) : List lcm_RtcAlarmHandle_t :=
  alarms.filterMap (fun a => a.alarmHandle)

/-- Well-formedness of a monitor: the dependency map has exactly the declared
dependencies as keys, an application that holds alarms is registered, no two alarms carry
the same global handle, and no more than the maximum number of alarms are held. -/
def LcmInv (s : CLifecycleMonitor) : Prop :=
  (∀ k, (TServiceList.find s.m_services k).isSome = true
      ↔ (k ∈ s.mandatoryServices ∨ k ∈ s.optionalServices))
  ∧ (s.alarms ≠ [] → s.registered = true)
  ∧ (alarmHandles s.alarms).Nodup
  ∧ s.alarms.length ≤ LCM_MAX_RTC_ALARMS

/-! ### Concrete monitors used as examples -/

/-- A platform with a registered application, about to sleep. -/
def examplePlatform : LcmPlatform :=
  { registered := true
    lifecycleState := lcm_LifecycleState_t.E_LCM_ST_BEFORE_SLEEP
    canState := lcm_CANNetworkState_t.E_LCM_CAN_OFF
    parkModeState := lcm_ParkModeState_t.E_LCM_PARK_MODE_OFF
    batteryStatus := lcm_BackupBatteryStatus_t.E_LCM_BACKUP_BATTERY_INACTIVE
    bubVoltage := 3600
    bubTemperature := 20
    bubSoh := lcm_BuBSOH_t.E_LCM_SOH_BUB_OPERATIONAL
    bubChargeLevel := lcm_BuBSOC_t.E_LCM_BUB_SOC_FULL
    wakeupReason := lcm_WakeupReason_t.E_LCM_WAKEUP_CAN
    wakeSourcesValidated := true
    cdnoActive := false }

/-- The request of an alarm of one cycle and five minutes, with a valid index pointer and
no generic failure of the platform. -/
def exampleCreate : LcmInput :=
  LcmInput.call (LcmCall.lcm_createRTCAlarm 1 5 (some 0) false)

/-- The inputs that request five alarms. -/
def fiveCreates : List LcmInput := List.replicate 5 exampleCreate

/-- The inputs that request an alarm and deliver handle 7 for it. -/
def createdInputs : List LcmInput :=
  [exampleCreate, LcmInput.notification (LcmNotification.rtcAlarmCreated ⟨7, 0⟩)]

/-- The inputs that request an alarm, deliver handle 7 for it and let it expire. -/
def expiredInputs : List LcmInput :=
  createdInputs ++ [LcmInput.notification (LcmNotification.rtcAlarmExpired 7)]

/-- The notification that a service entered a state. -/
def srvNotification (name : String) (st : ELCM_SrvState_t) : LcmInput :=
  LcmInput.notification (LcmNotification.srvState ⟨st, name⟩)

/-- The scenario inputs: "Radio" and then "Diag" report E_LCM_SRV_AVAILABLE. -/
def diagRadioAvailable : List LcmInput :=
  [srvNotification "Radio" ELCM_SrvState_t.E_LCM_SRV_AVAILABLE,
   srvNotification "Diag" ELCM_SrvState_t.E_LCM_SRV_AVAILABLE]

end AppFwk
end Stla

namespace Stla
namespace Connectivity

/-! ## IMqttConfService.hpp -/

/-- Error codes of the MQTT configuration interface (mqtt_conf_err_code_t). -/
inductive mqtt_conf_err_code_t where
  | OK
  | METHOD_NOT_ALLOWED
  | OUT_OF_MEMORY
  | ID_INVALID
  | ID_UNUSED
  | BROKER_ALREADY_CONFIGURED
  | BROKER_NOT_AVAILABLE
  | UNKNOWN_ERROR
  deriving DecidableEq, Repr

/-- Maximum number of configuration items; all items are indexed 0..MAX-1. -/
def MAX_CONF_ITEM : Nat := 10

/-- The broker behind the handler, an external collaborator: its verdict on applying a
configuration string at an index (OK, or the error the handler reports), and the maximum
size of the total configuration in bytes. -/
structure MqttBroker where
  apply : Nat → String → mqtt_conf_err_code_t
  maxSize : Nat

/-- Modelled from the spec: the state of the object behind IMqttConfHandler, whose class
is not part of the headers: the current mode and the MAX_CONF_ITEM configuration slots,
each empty or holding a configuration string. -/
structure CMqttConfHandler where
  adk_mode : Bool
  items : List (Option String)
  deriving DecidableEq, Repr

/-- What a call on the handler yields: the status, the output parameter after the call
and the handler afterwards. -/
structure MqttResult (α : Type) where
  ret : mqtt_conf_err_code_t
  out : α
  state : CMqttConfHandler

/-- The handler of an application before any item is set. -/
def getMqttConfHandler (adk_mode : Bool) : CMqttConfHandler :=
  { adk_mode := adk_mode, items := List.replicate MAX_CONF_ITEM none }

/-- The content of a slot; a position outside the table is empty. -/
def slot (s : CMqttConfHandler) (index : Nat) : Option String :=
  s.items.getD index none

/-- Total size in bytes of the configuration strings of a slot table. -/
def totalSize (items : List (Option String)) : Nat :=
  (items.map (fun o => match o with
    | none => 0
    | some cfg => cfg.utf8ByteSize)).sum

/-- Modelled from the spec: IMqttConfHandler::getAdkMode is pure virtual.  It reports the
current mode. -/
def getAdkMode (s : CMqttConfHandler) (_adk_mode_out : Bool) : MqttResult Bool :=
  ⟨mqtt_conf_err_code_t.OK, s.adk_mode, s⟩

/-- Modelled from the spec: IMqttConfHandler::setAdkMode is pure virtual.  Documented
contract: changing the mode resets the current configuration; no reset is applied if the
current mode is the mode to be set. -/
def setAdkMode (s : CMqttConfHandler) (adk_mode : Bool) : MqttResult Unit :=
  if adk_mode = s.adk_mode then ⟨mqtt_conf_err_code_t.OK, (), s⟩
  else
    ⟨mqtt_conf_err_code_t.OK, (),
      { adk_mode := adk_mode, items := List.replicate MAX_CONF_ITEM none }⟩

/-- Modelled from the spec: IMqttConfHandler::getIndexList is pure virtual.  It reports
the indexes of the slots that hold an item, walking the table from its first slot. -/
def getIndexList (s : CMqttConfHandler) (_indexes_out : List Nat) : MqttResult (List Nat) :=
  ⟨mqtt_conf_err_code_t.OK,
    (List.range s.items.length).filter (fun i => (slot s i).isSome), s⟩

/-- Modelled from the spec: IMqttConfHandler::getItem is pure virtual.  ID_INVALID for an
index that is not below MAX_CONF_ITEM, ID_UNUSED for an index that is not set, otherwise
OK with the stored configuration; the output is left as it was on failure. -/
def getItem (s : CMqttConfHandler) (index : Nat) (config_out : String) : MqttResult String :=
  if MAX_CONF_ITEM ≤ index then ⟨mqtt_conf_err_code_t.ID_INVALID, config_out, s⟩
  else
    match slot s index with
    | none => ⟨mqtt_conf_err_code_t.ID_UNUSED, config_out, s⟩
    | some cfg => ⟨mqtt_conf_err_code_t.OK, cfg, s⟩

/-- Modelled from the spec: IMqttConfHandler::setItem is pure virtual.  Documented
contract: the item is created if not set or overwritten; if the total configuration would
exceed the maximum size, or the broker cannot apply the configuration, the operation
fails and the previous configuration is kept.  ID_INVALID for an index that is not below
MAX_CONF_ITEM, OUT_OF_MEMORY for the size, the broker's own code for its refusal. -/
def setItem (b : MqttBroker) (s : CMqttConfHandler) (index : Nat) (config : String) :
    MqttResult Unit :=
  if MAX_CONF_ITEM ≤ index then ⟨mqtt_conf_err_code_t.ID_INVALID, (), s⟩
  else if b.maxSize < totalSize (s.items.set index (some config)) then
    ⟨mqtt_conf_err_code_t.OUT_OF_MEMORY, (), s⟩
  else if b.apply index config ≠ mqtt_conf_err_code_t.OK then ⟨b.apply index config, (), s⟩
  else ⟨mqtt_conf_err_code_t.OK, (), { s with items := s.items.set index (some config) }⟩

/-- Modelled from the spec: IMqttConfHandler::deleteItem is pure virtual.  ID_INVALID for
an index that is not below MAX_CONF_ITEM, ID_UNUSED for an index that is not set,
otherwise the item is removed, irrespectively of the broker status. -/
def deleteItem (s : CMqttConfHandler) (index : Nat) : MqttResult Unit :=
  if MAX_CONF_ITEM ≤ index then ⟨mqtt_conf_err_code_t.ID_INVALID, (), s⟩
  else
    match slot s index with
    | none => ⟨mqtt_conf_err_code_t.ID_UNUSED, (), s⟩
    | some _ => ⟨mqtt_conf_err_code_t.OK, (), { s with items := s.items.set index none }⟩

/-- A call on the handler, with its input arguments. -/
inductive MqttCall where
  | getAdkMode
  | setAdkMode (adk_mode : Bool)
  | getIndexList
  | getItem (index : Nat)
  | setItem (index : Nat) (config : String)
  | deleteItem (index : Nat)
  deriving DecidableEq, Repr

/-- The handler after one call. -/
def mqttStep (b : MqttBroker) (s : CMqttConfHandler) : MqttCall → CMqttConfHandler
  | .getAdkMode => (getAdkMode s false).state
  | .setAdkMode m => (setAdkMode s m).state
  | .getIndexList => (getIndexList s []).state
  | .getItem i => (getItem s i "").state
  | .setItem i cfg => (setItem b s i cfg).state
  | .deleteItem i => (deleteItem s i).state

/-- The handler after a sequence of calls. -/
def mqttRun (b : MqttBroker) (s : CMqttConfHandler) (calls : List MqttCall) :
    CMqttConfHandler :=
  calls.foldl (mqttStep b) s

/-- The states a handler can be in: the fresh handler and every state one call later. -/
inductive MqttReachable (b : MqttBroker) : CMqttConfHandler → Prop where
  | init (adk_mode : Bool) : MqttReachable b (getMqttConfHandler adk_mode)
  | step (s : CMqttConfHandler) (c : MqttCall) :
      MqttReachable b s → MqttReachable b (mqttStep b s c)

/-- A call that leaves the item at the given index alone, in the state where it is made:
no setItem or deleteItem on that index and no setAdkMode that changes the mode. -/
def leavesItem (index : Nat) (s : CMqttConfHandler) : MqttCall → Bool
  | .setItem i _ => decide (i ≠ index)
  | .deleteItem i => decide (i ≠ index)
  | .setAdkMode m => decide (m = s.adk_mode)
  | _ => true

/-- Every call of a sequence leaves the item at the given index alone, each judged in the
state it is made in. -/
def leavesItemAll (b : MqttBroker) (index : Nat) : CMqttConfHandler → List MqttCall → Bool
  | _, [] => true
  | s, c :: rest => leavesItem index s c && leavesItemAll b index (mqttStep b s c) rest


/-! ### Concrete handlers used as examples -/

/-- A broker that refuses the configuration string "bad" with UNKNOWN_ERROR, applies
every other one, and holds at most 16 bytes of configuration. -/
def exampleBroker : MqttBroker :=
  { apply := fun _ config =>
      if config = "bad" then mqtt_conf_err_code_t.UNKNOWN_ERROR else mqtt_conf_err_code_t.OK
    maxSize := 16 }

/-- The calls that set items 7 and 2 on a fresh handler. -/
def exampleCalls : List MqttCall :=
  [MqttCall.setItem 7 "port 1", MqttCall.setItem 2 "a b"]

/-- The handler in ADK mode after items 7 and 2 have been set. -/
def exampleHandler : CMqttConfHandler :=
  mqttRun exampleBroker (getMqttConfHandler true) exampleCalls

/-- Calls that do not touch item 3 of a handler in ADK mode: another item is set and
deleted, the mode is set to the mode it already has, and the index list is read. -/
def otherCalls : List MqttCall :=
  [MqttCall.setItem 4 "y", MqttCall.deleteItem 4, MqttCall.setAdkMode true,
   MqttCall.getIndexList]

end Connectivity
end Stla

/-! ## Numeric values and identifiers of the lifecycle enumerations -/

namespace Stla
namespace AppFwk

/-- The service name macro AFWK_EARLY_INIT_SERVICE of ILifecycleMonitorTypes.h. -/
def AFWK_EARLY_INIT_SERVICE : String := "stla.appfwk.einitbundle.service"

/-- The value of each enumerator of ELCM_ErrorType: none has an initialiser, so they count
from 0 in declaration order. -/
def ELCM_ErrorType.toNat : ELCM_ErrorType → Nat
  | .E_LCM_RET_SUCCESS => 0
  | .E_LCM_RET_FAILURE => 1
  | .E_LCM_RET_INVALID_ARG => 2
  | .E_LCM_RET_DUPLICATE_REG => 3
  | .E_LCM_RET_NOT_REGISTERED => 4
  | .E_LCM_RET_INTERNAL_ERR => 5
  | .E_LCM_RET_NO_PERM => 6
  | .E_LCM_RET_BUSY => 7
  | .E_LCM_NO_ERROR => 8

/-- The identifier of each enumerator of ELCM_ErrorType, as written in the header. -/
def ELCM_ErrorType.identifier : ELCM_ErrorType → String
  | .E_LCM_RET_SUCCESS => "E_LCM_RET_SUCCESS"
  | .E_LCM_RET_FAILURE => "E_LCM_RET_FAILURE"
  | .E_LCM_RET_INVALID_ARG => "E_LCM_RET_INVALID_ARG"
  | .E_LCM_RET_DUPLICATE_REG => "E_LCM_RET_DUPLICATE_REG"
  | .E_LCM_RET_NOT_REGISTERED => "E_LCM_RET_NOT_REGISTERED"
  | .E_LCM_RET_INTERNAL_ERR => "E_LCM_RET_INTERNAL_ERR"
  | .E_LCM_RET_NO_PERM => "E_LCM_RET_NO_PERM"
  | .E_LCM_RET_BUSY => "E_LCM_RET_BUSY"
  | .E_LCM_NO_ERROR => "E_LCM_NO_ERROR"

/-- The enumerators of ELCM_ErrorType in declaration order. -/
def ELCM_ErrorType.all : List ELCM_ErrorType :=
  [.E_LCM_RET_SUCCESS, .E_LCM_RET_FAILURE, .E_LCM_RET_INVALID_ARG, .E_LCM_RET_DUPLICATE_REG,
   .E_LCM_RET_NOT_REGISTERED, .E_LCM_RET_INTERNAL_ERR, .E_LCM_RET_NO_PERM, .E_LCM_RET_BUSY,
   .E_LCM_NO_ERROR]

/-- Whether an identifier is one of the E_LCM_RET_* names. -/
def isLcmRetName (identifier : String) : Bool :=
  "E_LCM_RET_".toList.isPrefixOf identifier.toList

/-- The value of each enumerator of ELCM_AppState (declaration order, from 0). -/
def ELCM_AppState.toNat : ELCM_AppState → Nat
  | .E_LCM_AppState_INITIALIZING => 0
  | .E_LCM_AppState_IDLE => 1
  | .E_LCM_AppState_NORMAL => 2

/-- The enumerators of ELCM_AppState in declaration order. -/
def ELCM_AppState.all : List ELCM_AppState :=
  [.E_LCM_AppState_INITIALIZING, .E_LCM_AppState_IDLE, .E_LCM_AppState_NORMAL]

/-- The value of each enumerator of ELCM_Reason (declaration order, from 0). -/
def ELCM_Reason.toNat : ELCM_Reason → Nat
  | .E_LCM_REASON_NONE => 0
  | .E_LCM_REASON_SHUTDOWN => 1
  | .E_LCM_REASON_SUSPEND_RAM => 2
  | .E_LCM_REASON_REBOOT => 3
  | .E_LCM_REASON_SERVICES_READY => 4
  | .E_LCM_REASON_SERVICES_NOT_READY => 5

/-- The enumerators of ELCM_Reason in declaration order. -/
def ELCM_Reason.all : List ELCM_Reason :=
  [.E_LCM_REASON_NONE, .E_LCM_REASON_SHUTDOWN, .E_LCM_REASON_SUSPEND_RAM,
   .E_LCM_REASON_REBOOT, .E_LCM_REASON_SERVICES_READY, .E_LCM_REASON_SERVICES_NOT_READY]

/-- Every record SLCM_AppState_t built from an application state and a reason. -/
def SLCM_AppState_t.all : List SLCM_AppState_t :=
  ELCM_AppState.all.flatMap (fun st => ELCM_Reason.all.map (fun r => ⟨st, r⟩))

end AppFwk

namespace Connectivity

/-- The service name constant MQTT_CONF_SERVICE_NAME of IMqttConfService.hpp. -/
def MQTT_CONF_SERVICE_NAME : String := "stla.connectivity.mqttconf.service.base"

end Connectivity

namespace Persistence

/-- The service name macro DATA_STORAGE_SERVICE_NAME of IDataStorageService_appfwk.h. -/
def DATA_STORAGE_SERVICE_NAME : String := "stla.persistence.datastorage.service"

end Persistence

namespace Xcall

/-- The macro AUDIO_SRV_ROUTER_REMOTE_SERVICE_ADDRESS of PublicAudio.h. -/
def AUDIO_SRV_ROUTER_REMOTE_SERVICE_ADDRESS : String := "127.0.0.1"

/-- The macro AUDIO_SRV_ROUTER_REMOTE_SERVICE_PORT of PublicAudio.h. -/
def AUDIO_SRV_ROUTER_REMOTE_SERVICE_PORT : String := "835"

/-- The macro ECALL_SRV_ROUTER_REMOTE_SERVICE_ADDRESS of PublicXcall.h. -/
def ECALL_SRV_ROUTER_REMOTE_SERVICE_ADDRESS : String := "127.0.0.1"

/-- The macro ECALL_SRV_ROUTER_REMOTE_SERVICE_PORT of PublicXcall.h. -/
def ECALL_SRV_ROUTER_REMOTE_SERVICE_PORT : String := "834"

/-- The decimal number a port macro spells, if it is a sequence of decimal digits. -/
def portNumber (port : String) : Option Nat :=
  if port.toList ≠ [] ∧ port.toList.all Char.isDigit then
    some (port.toList.foldl (fun n c => 10 * n + (c.toNat - 48)) 0)
  else none

end Xcall
end Stla

/-! ## Type identification: type() and isA() of the service interfaces -/

namespace std

/-- The part of std::type_info the interfaces observe: the implementation-defined name
returned by name(). -/
structure type_info where
  name : String
  deriving DecidableEq, Repr

end std

namespace Stla

/-- The classes that take part in the type identification of the catalogue: the library
base class Poco::OSP::Service and the service interfaces that define type() and isA(). -/
inductive CppClass where
  | Service
  | IMqttConfService
  | ILwM2MAppFwkService
  | ISMSServiceMgrProvider
  | IWifiServiceProvider
  | ISupervision3rd
  | ILoggingService
  | IRemoteAccessService
  | ITCUInfoService
  deriving DecidableEq, Repr

/-- The operator typeid applied to a class.  The name is implementation-defined; it is
represented by the qualified name of the class, so that different classes have different
names, which is all the code relies on. -/
def typeid : CppClass → std.type_info
  | .Service => ⟨"Poco::OSP::Service"⟩
  | .IMqttConfService => ⟨"Stla::Connectivity::IMqttConfService"⟩
  | .ILwM2MAppFwkService => ⟨"Stla::Connectivity::ILwM2MAppFwkService"⟩
  | .ISMSServiceMgrProvider => ⟨"Stla::Connectivity::ISMSServiceMgrProvider"⟩
  | .IWifiServiceProvider => ⟨"Stla::Connectivity::IWifiServiceProvider"⟩
  | .ISupervision3rd => ⟨"Stla::AppFwk::ISupervision3rd"⟩
  | .ILoggingService => ⟨"Stla::LoggingService::ILoggingService"⟩
  | .IRemoteAccessService => ⟨"Stla::RemoteAccessService::IRemoteAccessService"⟩
  | .ITCUInfoService => ⟨"Stla::TCUInfoService::ITCUInfoService"⟩

/-- The base classes named in the head of each class declaration of the headers
(every interface is declared "public Poco::OSP::Service"). -/
def directBases : CppClass → List CppClass
  | .Service => []
  | _ => [.Service]

/-- Whether the first class is the second class or is derived from it, by the class
declarations of the headers. -/
def isSubclassOf (c t : CppClass) : Bool :=
  decide (c = t) || (directBases c).contains t

/-- The library's Poco::OSP::Service::isA, which accepts the type Service itself; used to
instantiate the base-class call in examples. -/
def serviceIsA (otherType : std.type_info) : Bool :=
  decide ((typeid CppClass.Service).name = otherType.name)

/-- An object of a class derived from Poco::OSP::Service, as far as type identification
observes it.  Service declares type() virtual, so a call of type() on an object runs the
final overrider of the object's class; the field is the type_info that overrider
returns. -/
structure ServiceObject where
  type : std.type_info
  deriving DecidableEq, Repr

namespace Connectivity

/-- IMqttConfService::type(): return typeid(IMqttConfService). -/
def IMqttConfService.type : std.type_info := typeid CppClass.IMqttConfService

/-- An object whose class takes type() from IMqttConfService: an implementation that does
not override type(). -/
def IMqttConfService.object : ServiceObject := ⟨IMqttConfService.type⟩

/-- IMqttConfService::isA(obj): std::string name(type().name());
return name == obj.name().  The call type() is a virtual call on this: it is the type()
of the object the member function is called on. -/
def IMqttConfService.isA (self : ServiceObject) (obj : std.type_info) : Bool :=
  decide (self.type.name = obj.name)

/-- ILwM2MAppFwkService::type(): return typeid(ILwM2MAppFwkService). -/
def ILwM2MAppFwkService.type : std.type_info := typeid CppClass.ILwM2MAppFwkService

/-- An object whose class takes type() from ILwM2MAppFwkService: an implementation that does
not override type(). -/
def ILwM2MAppFwkService.object : ServiceObject := ⟨ILwM2MAppFwkService.type⟩

/-- ILwM2MAppFwkService::isA(obj): std::string name(type().name());
return name == obj.name().  The call type() is a virtual call on this: it is the type()
of the object the member function is called on. -/
def ILwM2MAppFwkService.isA (self : ServiceObject) (obj : std.type_info) : Bool :=
  decide (self.type.name = obj.name)

/-- ISMSServiceMgrProvider::type(): return typeid(ISMSServiceMgrProvider). -/
def ISMSServiceMgrProvider.type : std.type_info := typeid CppClass.ISMSServiceMgrProvider

/-- An object whose class takes type() from ISMSServiceMgrProvider: an implementation that does
not override type(). -/
def ISMSServiceMgrProvider.object : ServiceObject := ⟨ISMSServiceMgrProvider.type⟩

/-- ISMSServiceMgrProvider::isA(obj): std::string name(type().name());
return name == obj.name().  The call type() is a virtual call on this: it is the type()
of the object the member function is called on. -/
def ISMSServiceMgrProvider.isA (self : ServiceObject) (obj : std.type_info) : Bool :=
  decide (self.type.name = obj.name)

/-- IWifiServiceProvider::type(): return typeid(IWifiServiceProvider). -/
def IWifiServiceProvider.type : std.type_info := typeid CppClass.IWifiServiceProvider

/-- An object whose class takes type() from IWifiServiceProvider: an implementation that does
not override type(). -/
def IWifiServiceProvider.object : ServiceObject := ⟨IWifiServiceProvider.type⟩

/-- IWifiServiceProvider::isA(obj): std::string name(type().name());
return name == obj.name().  The call type() is a virtual call on this: it is the type()
of the object the member function is called on. -/
def IWifiServiceProvider.isA (self : ServiceObject) (obj : std.type_info) : Bool :=
  decide (self.type.name = obj.name)

end Connectivity

namespace AppFwk

/-- ISupervision3rd::type(): return typeid(ISupervision3rd). -/
def ISupervision3rd.type : std.type_info := typeid CppClass.ISupervision3rd

/-- An object whose class takes type() from ISupervision3rd: an implementation that does
not override type(). -/
def ISupervision3rd.object : ServiceObject := ⟨ISupervision3rd.type⟩

/-- ISupervision3rd::isA(otherType): std::string name(type().name());
return name == otherType.name().  The call type() is a virtual call on this: it is the type()
of the object the member function is called on. -/
def ISupervision3rd.isA (self : ServiceObject) (otherType : std.type_info) : Bool :=
  decide (self.type.name = otherType.name)

end AppFwk

namespace LoggingService

/-- ILoggingService::type(): return typeid(ILoggingService). -/
def ILoggingService.type : std.type_info := typeid CppClass.ILoggingService

/-- ILoggingService::isA(otherType): std::string name(typeid(ILoggingService).name());
return name == otherType.name() || Service::isA(otherType).  The library function
Service::isA is a parameter. -/
def ILoggingService.isA (Service_isA : std.type_info → Bool) (otherType : std.type_info) :
    Bool :=
  decide ((typeid CppClass.ILoggingService).name = otherType.name) || Service_isA otherType

end LoggingService

namespace RemoteAccessService

/-- IRemoteAccessService::type(): return typeid(IRemoteAccessService). -/
def IRemoteAccessService.type : std.type_info := typeid CppClass.IRemoteAccessService

/-- IRemoteAccessService::isA(otherType):
std::string name(typeid(IRemoteAccessService).name());
return name == otherType.name() || Service::isA(otherType).  The library function
Service::isA is a parameter. -/
def IRemoteAccessService.isA (Service_isA : std.type_info → Bool)
    (otherType : std.type_info) : Bool :=
  decide ((typeid CppClass.IRemoteAccessService).name = otherType.name)
    || Service_isA otherType

end RemoteAccessService

namespace TCUInfoService

/-- ITCUInfoService::type(): return typeid(ITCUInfoService). -/
def ITCUInfoService.type : std.type_info := typeid CppClass.ITCUInfoService

/-- ITCUInfoService::isA(otherType): std::string name(typeid(ITCUInfoService).name());
return name == otherType.name() || Service::isA(otherType).  The library function
Service::isA is a parameter. -/
def ITCUInfoService.isA (Service_isA : std.type_info → Bool) (otherType : std.type_info) :
    Bool :=
  decide ((typeid CppClass.ITCUInfoService).name = otherType.name) || Service_isA otherType

end TCUInfoService
end Stla

/-! ## IPersistence_Services_AppFwk.h -/

namespace Stla
namespace Persistence

/-- Error codes of the persistence client library (PCL_Error_t). -/
inductive PCL_Error_t where
  | PCL_ERROR_NONE
  | PCL_ERROR_GENERIC
  | PCL_ERROR_INVALID_ARG
  | PCL_ERROR_INTERNAL
  | PCL_ERROR_ACCESS_DENIED
  | PCL_ERROR_NO_QUOTA
  | PCL_ERROR_KEY_EXISTS
  | PCL_ERROR_SERVICE_DISABLED
  | PCL_ERROR_KEY_NOT_FOUND
  deriving DecidableEq, Repr

/-- The value of each enumerator of PCL_Error_t: PCL_ERROR_NONE = 0, PCL_ERROR_GENERIC =
-99, and the following ones count up from there. -/
def PCL_Error_t.toInt : PCL_Error_t → Int
  | .PCL_ERROR_NONE => 0
  | .PCL_ERROR_GENERIC => -99
  | .PCL_ERROR_INVALID_ARG => -98
  | .PCL_ERROR_INTERNAL => -97
  | .PCL_ERROR_ACCESS_DENIED => -96
  | .PCL_ERROR_NO_QUOTA => -95
  | .PCL_ERROR_KEY_EXISTS => -94
  | .PCL_ERROR_SERVICE_DISABLED => -93
  | .PCL_ERROR_KEY_NOT_FOUND => -92

/-- The size limits of the persistence service.  The header leaves their macros
(PERSISTENCE_SERVICE_NAME_MAX_SZ, PERSISTENCE_SERVICES_KEYNAME_MAX_SZ,
PERSISTENCE_SERVICES_KEY_MAX_SZ, PERSISTENCE_SERVICES_SECURED_KEY_MAX_SZ,
PERSISTENCE_SERVICES_QUOTA_MAX) commented out as "yet to be defined", so they are
parameters. -/
structure PclLimits where
  serviceNameMax : Nat
  keyNameMax : Nat
  keyMax : Nat
  securedKeyMax : Nat
  quotaMax : Nat
  deriving DecidableEq, Repr

/-- The type a key was created with: int, or byte array of a maximum size. -/
inductive PclKeyType where
  | intKey
  | byteArrayKey (max_size : Nat)
  deriving DecidableEq, Repr

/-- The content of a key: nothing written yet, an int, or bytes. -/
inductive PclData where
  | unwritten
  | intValue (value : Nat)
  | bytes (buffer : List Nat)
  deriving DecidableEq, Repr

/-- Modelled from the spec: one key/value persistence entry, identified by the namespace
scope (bundle_symbolic_name, NULL meaning shared) and the key name, typed as byte array
or integer. -/
structure PclEntry where
  bundle_symbolic_name : Option String
  key_id : String
  critical : Bool
  keyType : PclKeyType
  data : PclData
  deriving DecidableEq, Repr

/-- Modelled from the spec: the state of the service behind
IPersistence_Services_AppFwk, whose class is not part of the headers: whether the service
is disabled, and the entries of the database. -/
structure CPersistence where
  disabled : Bool
  entries : List PclEntry
  deriving DecidableEq, Repr

/-- What a call on the persistence service yields: the error code, the output parameter
after the call and the service afterwards. -/
structure PclResult (α : Type) where
  ret : PCL_Error_t
  out : α
  state : CPersistence

/-- The database before any key has been created. -/
def emptyDatabase (disabled : Bool) : CPersistence :=
  { disabled := disabled, entries := [] }

/-- Whether an entry is the one named by a namespace and a key name (a NULL key names
nothing). -/
def PclEntry.isKey (e : PclEntry) (bundle_symbolic_name key_id : Option String) : Bool :=
  decide (e.bundle_symbolic_name = bundle_symbolic_name) && decide (some e.key_id = key_id)

/-- The entry of a namespace and key name, if the key exists. -/
def findKey (entries : List PclEntry) (bundle_symbolic_name key_id : Option String) :
    Option PclEntry :=
  entries.find? (fun e => e.isKey bundle_symbolic_name key_id)

/-- A bundle name is acceptable when it is NULL (shared data) or is non-empty and within
the size limit. -/
def validBundleName (l : PclLimits) (bundle_symbolic_name : Option String) : Bool :=
  match bundle_symbolic_name with
  | none => true
  | some n => decide (0 < n.utf8ByteSize ∧ n.utf8ByteSize ≤ l.serviceNameMax)

/-- A key name is acceptable when it is not NULL, non-empty and within the size limit. -/
def validKeyName (l : PclLimits) (key_id : Option String) : Bool :=
  match key_id with
  | none => false
  | some k => decide (0 < k.utf8ByteSize ∧ k.utf8ByteSize ≤ l.keyNameMax)

/-- The space an entry takes from the quota: the size of an unsigned int, or the maximum
size of the byte array. -/
def PclEntry.space (e : PclEntry) : Nat :=
  match e.keyType with
  | .intKey => 4
  | .byteArrayKey max_size => max_size

/-- The space the entries take from the quota. -/
def usedSpace (entries : List PclEntry) : Nat :=
  (entries.map PclEntry.space).sum

/-- The maximum size of a key: PERSISTENCE_SERVICES_SECURED_KEY_MAX_SZ for a critical key,
PERSISTENCE_SERVICES_KEY_MAX_SZ otherwise. -/
def keySizeLimit (l : PclLimits) (critical : Bool) : Nat :=
  if critical = true then l.securedKeyMax else l.keyMax

/-- Modelled from the spec: the common body of the four key creation functions, which are
pure virtual.  Documented return codes, checked in the order of the declarations' lists:
PCL_ERROR_INVALID_ARG if key_id is NULL or a parameter has an invalid size;
PCL_ERROR_INTERNAL if max_size is 0; PCL_ERROR_NO_QUOTA if there is not enough space;
PCL_ERROR_KEY_EXISTS if a key with the same name already exists;
PCL_ERROR_SERVICE_DISABLED if the service is disabled; otherwise PCL_ERROR_NONE and the
empty key is created. -/
def createKey (l : PclLimits) (s : CPersistence) (bundle_symbolic_name key_id : Option String)
    (critical : Bool) (keyType : PclKeyType) : PclResult Unit :=
  match key_id with
  | none => ⟨PCL_Error_t.PCL_ERROR_INVALID_ARG, (), s⟩
  | some k =>
    let e : PclEntry := ⟨bundle_symbolic_name, k, critical, keyType, PclData.unwritten⟩
    if validBundleName l bundle_symbolic_name = false ∨ validKeyName l key_id = false
        ∨ keySizeLimit l critical < e.space then
      ⟨PCL_Error_t.PCL_ERROR_INVALID_ARG, (), s⟩
    else if e.space = 0 then ⟨PCL_Error_t.PCL_ERROR_INTERNAL, (), s⟩
    else if l.quotaMax < usedSpace s.entries + e.space then
      ⟨PCL_Error_t.PCL_ERROR_NO_QUOTA, (), s⟩
    else if (findKey s.entries bundle_symbolic_name key_id).isSome = true then
      ⟨PCL_Error_t.PCL_ERROR_KEY_EXISTS, (), s⟩
    else if s.disabled = true then ⟨PCL_Error_t.PCL_ERROR_SERVICE_DISABLED, (), s⟩
    else ⟨PCL_Error_t.PCL_ERROR_NONE, (), { s with entries := s.entries ++ [e] }⟩

/-- Modelled from the spec: pcl_keyCreateInt (pure virtual) creates an empty key of type
int. -/
def pcl_keyCreateInt (l : PclLimits) (s : CPersistence)
    (bundle_symbolic_name key_id : Option String) : PclResult Unit :=
  createKey l s bundle_symbolic_name key_id false PclKeyType.intKey

/-- Modelled from the spec: pcl_keyCreateIntCritical (pure virtual) creates an empty
critical key of type int. -/
def pcl_keyCreateIntCritical (l : PclLimits) (s : CPersistence)
    (bundle_symbolic_name key_id : Option String) : PclResult Unit :=
  createKey l s bundle_symbolic_name key_id true PclKeyType.intKey

/-- Modelled from the spec: pcl_keyCreateByteArray (pure virtual) creates an empty key of
type byte array with a maximum size. -/
def pcl_keyCreateByteArray (l : PclLimits) (s : CPersistence)
    (bundle_symbolic_name key_id : Option String) (max_size : Nat) : PclResult Unit :=
  createKey l s bundle_symbolic_name key_id false (PclKeyType.byteArrayKey max_size)

/-- Modelled from the spec: pcl_keyCreateByteArrayCritical (pure virtual) creates an
empty critical key of type byte array with a maximum size. -/
def pcl_keyCreateByteArrayCritical (l : PclLimits) (s : CPersistence)
    (bundle_symbolic_name key_id : Option String) (max_size : Nat) : PclResult Unit :=
  createKey l s bundle_symbolic_name key_id true (PclKeyType.byteArrayKey max_size)

/-- Modelled from the spec: the common body of pcl_keyDelete and pcl_keyDeleteCritical,
which are pure virtual.  Documented return codes, checked in the order of the
declarations' lists: PCL_ERROR_KEY_NOT_FOUND if the key was not found (among the keys of
that criticality); PCL_ERROR_INVALID_ARG if a parameter has an invalid size;
PCL_ERROR_SERVICE_DISABLED if the service is disabled; otherwise PCL_ERROR_NONE and the
key is removed. -/
def deleteKey (l : PclLimits) (s : CPersistence) (bundle_symbolic_name key_id : Option String)
    (critical : Bool) : PclResult Unit :=
  match findKey s.entries bundle_symbolic_name key_id with
  | none => ⟨PCL_Error_t.PCL_ERROR_KEY_NOT_FOUND, (), s⟩
  | some e =>
    if e.critical ≠ critical then ⟨PCL_Error_t.PCL_ERROR_KEY_NOT_FOUND, (), s⟩
    else if validBundleName l bundle_symbolic_name = false ∨ validKeyName l key_id = false then
      ⟨PCL_Error_t.PCL_ERROR_INVALID_ARG, (), s⟩
    else if s.disabled = true then ⟨PCL_Error_t.PCL_ERROR_SERVICE_DISABLED, (), s⟩
    else
      ⟨PCL_Error_t.PCL_ERROR_NONE, (),
        { s with entries :=
            s.entries.filter (fun x => !x.isKey bundle_symbolic_name key_id) }⟩

/-- Modelled from the spec: pcl_keyDelete (pure virtual) deletes a key. -/
def pcl_keyDelete (l : PclLimits) (s : CPersistence)
    (bundle_symbolic_name key_id : Option String) : PclResult Unit :=
  deleteKey l s bundle_symbolic_name key_id false

/-- Modelled from the spec: pcl_keyDeleteCritical (pure virtual) deletes a critical
key. -/
def pcl_keyDeleteCritical (l : PclLimits) (s : CPersistence)
    (bundle_symbolic_name key_id : Option String) : PclResult Unit :=
  deleteKey l s bundle_symbolic_name key_id true

/-- Modelled from the spec: pcl_removeAppKeys (pure virtual) removes the keys of a bundle.
PCL_ERROR_INVALID_ARG if the name is NULL or has length 0 or exceeds the limit,
PCL_ERROR_SERVICE_DISABLED if the service is disabled. -/
def pcl_removeAppKeys (l : PclLimits) (s : CPersistence) (bundle_symbolic_name : Option String) :
    PclResult Unit :=
  if bundle_symbolic_name = none ∨ validBundleName l bundle_symbolic_name = false then
    ⟨PCL_Error_t.PCL_ERROR_INVALID_ARG, (), s⟩
  else if s.disabled = true then ⟨PCL_Error_t.PCL_ERROR_SERVICE_DISABLED, (), s⟩
  else
    ⟨PCL_Error_t.PCL_ERROR_NONE, (),
      { s with entries :=
          s.entries.filter (fun x => decide (x.bundle_symbolic_name ≠ bundle_symbolic_name)) }⟩

/-- Replace the content of the entries named by a namespace and a key name. -/
def storeData (entries : List PclEntry) (bundle_symbolic_name key_id : Option String)
    (d : PclData) : List PclEntry :=
  entries.map (fun e => if e.isKey bundle_symbolic_name key_id = true then
    { e with data := d } else e)

/-- Modelled from the spec: pcl_KeyReadInt is pure virtual.  Documented return codes,
checked in the order of the declaration's list: PCL_ERROR_KEY_NOT_FOUND if the key was
not found; PCL_ERROR_GENERIC if the read of the stored data fails (the key is not an int
that has been written); PCL_ERROR_INVALID_ARG if value is NULL;
PCL_ERROR_SERVICE_DISABLED if the service is disabled; otherwise PCL_ERROR_NONE with the
stored int in value.  A NULL value is none. -/
def pcl_KeyReadInt (_l : PclLimits) (s : CPersistence)
    (bundle_symbolic_name key_id : Option String) (value : Option Nat) :
    PclResult (Option Nat) :=
  match findKey s.entries bundle_symbolic_name key_id with
  | none => ⟨PCL_Error_t.PCL_ERROR_KEY_NOT_FOUND, value, s⟩
  | some e =>
    match e.data with
    | .intValue v =>
      if value = none then ⟨PCL_Error_t.PCL_ERROR_INVALID_ARG, value, s⟩
      else if s.disabled = true then ⟨PCL_Error_t.PCL_ERROR_SERVICE_DISABLED, value, s⟩
      else ⟨PCL_Error_t.PCL_ERROR_NONE, some v, s⟩
    | _ => ⟨PCL_Error_t.PCL_ERROR_GENERIC, value, s⟩

/-- Modelled from the spec: pcl_KeyWriteInt is pure virtual.  Documented return codes,
checked in the order of the declaration's list: PCL_ERROR_KEY_NOT_FOUND if the key was
not found; PCL_ERROR_GENERIC if the write fails (the key is not of type int);
PCL_ERROR_SERVICE_DISABLED if the service is disabled; otherwise PCL_ERROR_NONE and the
value is stored. -/
def pcl_KeyWriteInt (_l : PclLimits) (s : CPersistence)
    (bundle_symbolic_name key_id : Option String) (value : Nat) : PclResult Unit :=
  match findKey s.entries bundle_symbolic_name key_id with
  | none => ⟨PCL_Error_t.PCL_ERROR_KEY_NOT_FOUND, (), s⟩
  | some e =>
    if e.keyType ≠ PclKeyType.intKey then ⟨PCL_Error_t.PCL_ERROR_GENERIC, (), s⟩
    else if s.disabled = true then ⟨PCL_Error_t.PCL_ERROR_SERVICE_DISABLED, (), s⟩
    else
      ⟨PCL_Error_t.PCL_ERROR_NONE, (),
        { s with entries :=
            storeData s.entries bundle_symbolic_name key_id (PclData.intValue value) }⟩

/-- Modelled from the spec: pcl_KeyWriteByteArray is pure virtual.  Documented return
codes, checked in the order of the declaration's list: PCL_ERROR_KEY_NOT_FOUND if the key
was not found; PCL_ERROR_GENERIC if the write fails (the key is not a byte array that can
hold size bytes); PCL_ERROR_INVALID_ARG if buffer is NULL or size is invalid;
PCL_ERROR_SERVICE_DISABLED if the service is disabled; otherwise PCL_ERROR_NONE and the
first size bytes of the buffer are stored.  A NULL buffer is none. -/
def pcl_KeyWriteByteArray (_l : PclLimits) (s : CPersistence)
    (bundle_symbolic_name key_id : Option String) (size : Int) (buffer : Option (List Nat)) :
    PclResult Unit :=
  match findKey s.entries bundle_symbolic_name key_id with
  | none => ⟨PCL_Error_t.PCL_ERROR_KEY_NOT_FOUND, (), s⟩
  | some e =>
    match e.keyType, buffer with
    | .byteArrayKey max_size, some b =>
      if (max_size : Int) < size then ⟨PCL_Error_t.PCL_ERROR_GENERIC, (), s⟩
      else if size < 0 ∨ (b.length : Int) < size then ⟨PCL_Error_t.PCL_ERROR_INVALID_ARG, (), s⟩
      else if s.disabled = true then ⟨PCL_Error_t.PCL_ERROR_SERVICE_DISABLED, (), s⟩
      else
        ⟨PCL_Error_t.PCL_ERROR_NONE, (),
          { s with entries :=
              (storeData s.entries bundle_symbolic_name key_id
                (PclData.bytes (b.take size.toNat))) }⟩
    | .byteArrayKey _, none => ⟨PCL_Error_t.PCL_ERROR_INVALID_ARG, (), s⟩
    | .intKey, _ => ⟨PCL_Error_t.PCL_ERROR_GENERIC, (), s⟩

/-- Modelled from the spec: pcl_KeyReadByteArray is pure virtual.  Documented return
codes, checked in the order of the declaration's list: PCL_ERROR_KEY_NOT_FOUND if the key
was not found; PCL_ERROR_GENERIC if the read fails (the key holds no written bytes);
PCL_ERROR_INVALID_ARG if buffer is NULL or too small; PCL_ERROR_SERVICE_DISABLED if the
service is disabled; otherwise PCL_ERROR_NONE with the stored bytes in the buffer. -/
def pcl_KeyReadByteArray (_l : PclLimits) (s : CPersistence)
    (bundle_symbolic_name key_id : Option String) (size : Int) (buffer : Option (List Nat)) :
    PclResult (Option (List Nat)) :=
  match findKey s.entries bundle_symbolic_name key_id with
  | none => ⟨PCL_Error_t.PCL_ERROR_KEY_NOT_FOUND, buffer, s⟩
  | some e =>
    match e.data with
    | .bytes stored =>
      if buffer = none ∨ size < (stored.length : Int) then
        ⟨PCL_Error_t.PCL_ERROR_INVALID_ARG, buffer, s⟩
      else if s.disabled = true then ⟨PCL_Error_t.PCL_ERROR_SERVICE_DISABLED, buffer, s⟩
      else ⟨PCL_Error_t.PCL_ERROR_NONE, some stored, s⟩
    | _ => ⟨PCL_Error_t.PCL_ERROR_GENERIC, buffer, s⟩

/-- An input of the persistence service: a call with its arguments, or the platform
disabling or enabling the service. -/
inductive PclInput where
  | pcl_keyCreateInt (bundle_symbolic_name key_id : Option String)
  | pcl_keyCreateIntCritical (bundle_symbolic_name key_id : Option String)
  | pcl_keyCreateByteArray (bundle_symbolic_name key_id : Option String) (max_size : Nat)
  | pcl_keyCreateByteArrayCritical (bundle_symbolic_name key_id : Option String)
      (max_size : Nat)
  | pcl_keyDelete (bundle_symbolic_name key_id : Option String)
  | pcl_keyDeleteCritical (bundle_symbolic_name key_id : Option String)
  | pcl_removeAppKeys (bundle_symbolic_name : Option String)
  | pcl_KeyReadInt (bundle_symbolic_name key_id : Option String) (value : Option Nat)
  | pcl_KeyWriteInt (bundle_symbolic_name key_id : Option String) (value : Nat)
  | pcl_KeyReadByteArray (bundle_symbolic_name key_id : Option String) (size : Int)
      (buffer : Option (List Nat))
  | pcl_KeyWriteByteArray (bundle_symbolic_name key_id : Option String) (size : Int)
      (buffer : Option (List Nat))
  | setDisabled (disabled : Bool)
  deriving DecidableEq, Repr

/-- The error code and the service after one input. -/
def pclStep (l : PclLimits) (s : CPersistence) : PclInput → PCL_Error_t × CPersistence
  | .pcl_keyCreateInt ns k => ((pcl_keyCreateInt l s ns k).ret, (pcl_keyCreateInt l s ns k).state)
  | .pcl_keyCreateIntCritical ns k =>
    ((pcl_keyCreateIntCritical l s ns k).ret, (pcl_keyCreateIntCritical l s ns k).state)
  | .pcl_keyCreateByteArray ns k m =>
    ((pcl_keyCreateByteArray l s ns k m).ret, (pcl_keyCreateByteArray l s ns k m).state)
  | .pcl_keyCreateByteArrayCritical ns k m =>
    ((pcl_keyCreateByteArrayCritical l s ns k m).ret,
      (pcl_keyCreateByteArrayCritical l s ns k m).state)
  | .pcl_keyDelete ns k => ((pcl_keyDelete l s ns k).ret, (pcl_keyDelete l s ns k).state)
  | .pcl_keyDeleteCritical ns k =>
    ((pcl_keyDeleteCritical l s ns k).ret, (pcl_keyDeleteCritical l s ns k).state)
  | .pcl_removeAppKeys ns => ((pcl_removeAppKeys l s ns).ret, (pcl_removeAppKeys l s ns).state)
  | .pcl_KeyReadInt ns k v => ((pcl_KeyReadInt l s ns k v).ret, (pcl_KeyReadInt l s ns k v).state)
  | .pcl_KeyWriteInt ns k v =>
    ((pcl_KeyWriteInt l s ns k v).ret, (pcl_KeyWriteInt l s ns k v).state)
  | .pcl_KeyReadByteArray ns k n b =>
    ((pcl_KeyReadByteArray l s ns k n b).ret, (pcl_KeyReadByteArray l s ns k n b).state)
  | .pcl_KeyWriteByteArray ns k n b =>
    ((pcl_KeyWriteByteArray l s ns k n b).ret, (pcl_KeyWriteByteArray l s ns k n b).state)
  | .setDisabled d => (PCL_Error_t.PCL_ERROR_NONE, { s with disabled := d })

/-- The service after a sequence of inputs. -/
def pclRun (l : PclLimits) (s : CPersistence) (inputs : List PclInput) : CPersistence :=
  inputs.foldl (fun st i => (pclStep l st i).2) s

/-- Whether an input is one of the four creation calls for the given namespace and key
name. -/
def PclInput.creates (bundle_symbolic_name : Option String) (key_id : String) :
    PclInput → Bool
  | .pcl_keyCreateInt ns k => decide (ns = bundle_symbolic_name ∧ k = some key_id)
  | .pcl_keyCreateIntCritical ns k => decide (ns = bundle_symbolic_name ∧ k = some key_id)
  | .pcl_keyCreateByteArray ns k _ => decide (ns = bundle_symbolic_name ∧ k = some key_id)
  | .pcl_keyCreateByteArrayCritical ns k _ =>
    decide (ns = bundle_symbolic_name ∧ k = some key_id)
  | _ => false

/-- The key of a namespace and key name is never created by a sequence of inputs that
starts in the given state: every creation call for it in the sequence fails. -/
def neverCreated (l : PclLimits) (bundle_symbolic_name : Option String) (key_id : String) :
    CPersistence → List PclInput → Bool
  | _, [] => true
  | s, i :: rest =>
    (!(i.creates bundle_symbolic_name key_id)
        || decide ((pclStep l s i).1 ≠ PCL_Error_t.PCL_ERROR_NONE))
      && neverCreated l bundle_symbolic_name key_id (pclStep l s i).2 rest

/-- The limits the header gives as an example in its commented-out macros. -/
def exampleLimits : PclLimits :=
  { serviceNameMax := 100
    keyNameMax := 100
    keyMax := 5 * 1024 * 1024
    securedKeyMax := 25 * 1024
    quotaMax := 5 * 1024 * 1024 }

end Persistence
end Stla

/-! ## IPositioningService.h -/

namespace Stla
namespace Positioning

/-- Modelled from the spec: the fix status of a GNSS position.  The enumeration
EGNSSFixStatus comes from genivi/gnss.h, which is not part of the headers; the interface
only distinguishes "NO FIX" and "3D fix" among its values. -/
inductive EGNSSFixStatus where
  | GNSS_FIX_STATUS_NO
  | GNSS_FIX_STATUS_TIME
  | GNSS_FIX_STATUS_2D
  | GNSS_FIX_STATUS_3D
  deriving DecidableEq, Repr

/-- Modelled from the spec: the record TGNSSPosition of genivi/gnss.h, which is not part of
the headers: the timestamp, the fix status, and the remaining measured fields, whose type
is a parameter. -/
structure TGNSSPosition (α : Type) where
  timestamp : Nat
  fixStatus : EGNSSFixStatus
  fields : α
  deriving DecidableEq, Repr

/-- A valid GNSS position is a position which has 3D fix. -/
def TGNSSPosition.isValid {α : Type} (p : TGNSSPosition α) : Bool :=
  decide (p.fixStatus = EGNSSFixStatus.GNSS_FIX_STATUS_3D)

/-- One update from the GNSS engine: the new position and the time in seconds since the
start of the life cycle at which it arrives. -/
structure GnssUpdate (α : Type) where
  position : TGNSSPosition α
  uptime : Nat
  deriving DecidableEq, Repr

/-- Modelled from the spec: the state of the service behind IPositioningService, whose
class is not part of the headers: the last updated position, the last valid position,
whether a 3D fix was acquired in this life cycle, and the time to first fix. -/
structure CPositioningService (α : Type) where
  m_gnssPosition : TGNSSPosition α
  m_lastValidGnssPosition : TGNSSPosition α
  m_fixAcquired : Bool
  m_timeToFirstFix : Nat
  deriving DecidableEq, Repr

/-- The service at the start of a life cycle: no position yet, status NO FIX, time to
first fix 0.  The argument is the content of the measured fields of an empty position. -/
def startPositioning {α : Type} (blank : α) : CPositioningService α :=
  { m_gnssPosition := ⟨0, EGNSSFixStatus.GNSS_FIX_STATUS_NO, blank⟩
    m_lastValidGnssPosition := ⟨0, EGNSSFixStatus.GNSS_FIX_STATUS_NO, blank⟩
    m_fixAcquired := false
    m_timeToFirstFix := 0 }

/-- Modelled from the spec: the reaction of the service to a position update.  The update
becomes the last updated position; an update with 3D fix also becomes the last valid
position, and the first of them fixes the time to first fix (a uint32_t, in seconds). -/
def onGnssPosition {α : Type} (s : CPositioningService α) (u : GnssUpdate α) :
    CPositioningService α :=
  if u.position.isValid = true then
    { m_gnssPosition := u.position
      m_lastValidGnssPosition := u.position
      m_fixAcquired := true
      m_timeToFirstFix :=
        if s.m_fixAcquired = true then s.m_timeToFirstFix else u.uptime % 2 ^ 32 }
  else { s with m_gnssPosition := u.position }

/-- The service after a sequence of position updates. -/
def positioningRun {α : Type} (s : CPositioningService α) (updates : List (GnssUpdate α)) :
    CPositioningService α :=
  updates.foldl onGnssPosition s

/-- Modelled from the spec: getGNSSPosition (pure virtual) returns the last updated GNSS
position. -/
def getGNSSPosition {α : Type} (s : CPositioningService α) : TGNSSPosition α :=
  s.m_gnssPosition

/-- Modelled from the spec: getLastValidGNSSPosition (pure virtual) returns the last valid
GNSS position; if no valid position was acquired during the life cycle, the status is
NO FIX. -/
def getLastValidGNSSPosition {α : Type} (s : CPositioningService α) : TGNSSPosition α :=
  s.m_lastValidGnssPosition

/-- Modelled from the spec: getTimeToFirstFix (pure virtual) returns the time to first 3D
fix in seconds, 0 if no 3D fix was acquired during the life cycle. -/
def getTimeToFirstFix {α : Type} (s : CPositioningService α) : Nat :=
  s.m_timeToFirstFix

/-- An example update: the fix status, with the timestamp also used as the single
measured field and as the arrival time. -/
def exampleUpdate (t : Nat) (st : EGNSSFixStatus) : GnssUpdate Nat :=
  ⟨⟨t, st, t⟩, t⟩

end Positioning
end Stla

/-! ## Numeric values of further enumerations -/

namespace Stla
namespace AppFwk

/-- The value of each enumerator of lcm_LifecycleState_t: EMERGENCY = 0, NOMINAL = 1,
UPDATE = 3, BEFORE_SLEEP = 4, and E_LCM_ST_LAST, which has no initialiser, one more than
its predecessor. -/
def lcm_LifecycleState_t.toNat : lcm_LifecycleState_t → Nat
  | .E_LCM_ST_EMERGENCY => 0
  | .E_LCM_ST_NOMINAL => 1
  | .E_LCM_ST_UPDATE => 3
  | .E_LCM_ST_BEFORE_SLEEP => 4
  | .E_LCM_ST_LAST => 4 + 1

/-- The declared lifecycle states: the enumerators other than the sentinel E_LCM_ST_LAST. -/
def lcm_LifecycleState_t.declaredStates : List lcm_LifecycleState_t :=
  [.E_LCM_ST_EMERGENCY, .E_LCM_ST_NOMINAL, .E_LCM_ST_UPDATE, .E_LCM_ST_BEFORE_SLEEP]

/-- The range check 0 <= v < E_LCM_ST_LAST on an integer value. -/
def lifecycleStateInRange (v : Int) : Bool :=
  decide (0 ≤ v ∧ v < (lcm_LifecycleState_t.E_LCM_ST_LAST.toNat : Int))

end AppFwk

namespace Connectivity

/-- The value of each enumerator of mqtt_conf_err_code_t: OK = 0 and the following ones
count up in declaration order. -/
def mqtt_conf_err_code_t.toNat : mqtt_conf_err_code_t → Nat
  | .OK => 0
  | .METHOD_NOT_ALLOWED => 1
  | .OUT_OF_MEMORY => 2
  | .ID_INVALID => 3
  | .ID_UNUSED => 4
  | .BROKER_ALREADY_CONFIGURED => 5
  | .BROKER_NOT_AVAILABLE => 6
  | .UNKNOWN_ERROR => 7

/-- The identifier of each enumerator of mqtt_conf_err_code_t, as written in the header. -/
def mqtt_conf_err_code_t.identifier : mqtt_conf_err_code_t → String
  | .OK => "OK"
  | .METHOD_NOT_ALLOWED => "METHOD_NOT_ALLOWED"
  | .OUT_OF_MEMORY => "OUT_OF_MEMORY"
  | .ID_INVALID => "ID_INVALID"
  | .ID_UNUSED => "ID_UNUSED"
  | .BROKER_ALREADY_CONFIGURED => "BROKER_ALREADY_CONFIGURED"
  | .BROKER_NOT_AVAILABLE => "BROKER_NOT_AVAILABLE"
  | .UNKNOWN_ERROR => "UNKNOWN_ERROR"

/-- Error codes of the LwM2M interface (e_lwm2m_appfwk_itf_err_code_t of
ILwM2MAppFwkTypes.hpp). -/
inductive e_lwm2m_appfwk_itf_err_code_t where
  | OK
  | NOT_FOUND
  | METHOD_NOT_ALLOWED
  | OUT_OF_MEMORY
  | OUT_OF_INSTANCE
  | INVALID_RID
  | BROKEN_LINK
  | COMM_NOT_AVAILABLE
  | ALREADY_CREATED
  | ID_INVALID
  | UNKNOWN_ERROR
  deriving DecidableEq, Repr

/-- The value of each enumerator of e_lwm2m_appfwk_itf_err_code_t: OK = 0 and the
following ones count up in declaration order. -/
def e_lwm2m_appfwk_itf_err_code_t.toNat : e_lwm2m_appfwk_itf_err_code_t → Nat
  | .OK => 0
  | .NOT_FOUND => 1
  | .METHOD_NOT_ALLOWED => 2
  | .OUT_OF_MEMORY => 3
  | .OUT_OF_INSTANCE => 4
  | .INVALID_RID => 5
  | .BROKEN_LINK => 6
  | .COMM_NOT_AVAILABLE => 7
  | .ALREADY_CREATED => 8
  | .ID_INVALID => 9
  | .UNKNOWN_ERROR => 10

/-- The identifier of each enumerator of e_lwm2m_appfwk_itf_err_code_t, as written in the
header. -/
def e_lwm2m_appfwk_itf_err_code_t.identifier : e_lwm2m_appfwk_itf_err_code_t → String
  | .OK => "OK"
  | .NOT_FOUND => "NOT_FOUND"
  | .METHOD_NOT_ALLOWED => "METHOD_NOT_ALLOWED"
  | .OUT_OF_MEMORY => "OUT_OF_MEMORY"
  | .OUT_OF_INSTANCE => "OUT_OF_INSTANCE"
  | .INVALID_RID => "INVALID_RID"
  | .BROKEN_LINK => "BROKEN_LINK"
  | .COMM_NOT_AVAILABLE => "COMM_NOT_AVAILABLE"
  | .ALREADY_CREATED => "ALREADY_CREATED"
  | .ID_INVALID => "ID_INVALID"
  | .UNKNOWN_ERROR => "UNKNOWN_ERROR"

/-- Service types of SMS messages (enServiceSMS_t of ISMSServiceMgrTypes.h). -/
inductive enServiceSMS_t where
  | SMS_MGR_SRV_GENERIC
  | SMS_MGR_SRV_ACALL
  | SMS_MGR_SRV_ECALL
  | SMS_MGR_SRV_LC
  | SMS_MGR_SRV_DM
  | SMS_MGR_SRV_APPFWK
  | SMS_MGR_SRV_RMS
  | SMS_MGR_SRV_UNKNOWN
  | SMS_MGR_SRV_LAST
  deriving DecidableEq, Repr

/-- The enumerator names of enObjTypeSMS_t (ISMSServiceMgrTypes.h).  Several names
denote the same value, so the names are kept apart from the values. -/
inductive enObjTypeSMS_t where
  | SMS_MGR_OT_WU
  | SMS_MGR_OT_GP
  | SMS_MGR_OT_RU
  | SMS_MGR_OT_MSG_REQ
  | SMS_MGR_OT_MSG1
  | SMS_MGR_OT_MSG2
  | SMS_MGR_OT_STOP
  | SMS_MGR_OT_UNKNOWN
  | SMS_MGR_OT_LAST
  deriving DecidableEq, Repr

/-- The value each enumerator name of enObjTypeSMS_t is given in the header; this is what
the field objType of stSMSDataRec_t holds. -/
def enObjTypeSMS_t.toNat : enObjTypeSMS_t → Nat
  | .SMS_MGR_OT_WU => 0
  | .SMS_MGR_OT_GP => 0
  | .SMS_MGR_OT_RU => 0
  | .SMS_MGR_OT_MSG_REQ => 0
  | .SMS_MGR_OT_MSG1 => 1
  | .SMS_MGR_OT_MSG2 => 2
  | .SMS_MGR_OT_STOP => 3
  | .SMS_MGR_OT_UNKNOWN => 4
  | .SMS_MGR_OT_LAST => 5

/-- The enumerator names of enObjTypeSMS_t in declaration order. -/
def enObjTypeSMS_t.all : List enObjTypeSMS_t :=
  [.SMS_MGR_OT_WU, .SMS_MGR_OT_GP, .SMS_MGR_OT_RU, .SMS_MGR_OT_MSG_REQ, .SMS_MGR_OT_MSG1,
   .SMS_MGR_OT_MSG2, .SMS_MGR_OT_STOP, .SMS_MGR_OT_UNKNOWN, .SMS_MGR_OT_LAST]

/-- The service types the comments of enObjTypeSMS_t give for each object type: "LC",
"AppFrmk", "Dev Management Service", "ACall & ECall", "ACall"; none for UNKNOWN and
LAST. -/
def enObjTypeSMS_t.services : enObjTypeSMS_t → List enServiceSMS_t
  | .SMS_MGR_OT_WU => [.SMS_MGR_SRV_LC]
  | .SMS_MGR_OT_GP => [.SMS_MGR_SRV_APPFWK]
  | .SMS_MGR_OT_RU => [.SMS_MGR_SRV_DM]
  | .SMS_MGR_OT_MSG_REQ => [.SMS_MGR_SRV_ACALL, .SMS_MGR_SRV_ECALL]
  | .SMS_MGR_OT_MSG1 => [.SMS_MGR_SRV_ACALL, .SMS_MGR_SRV_ECALL]
  | .SMS_MGR_OT_MSG2 => [.SMS_MGR_SRV_ACALL, .SMS_MGR_SRV_ECALL]
  | .SMS_MGR_OT_STOP => [.SMS_MGR_SRV_ACALL]
  | .SMS_MGR_OT_UNKNOWN => []
  | .SMS_MGR_OT_LAST => []

/-- The enumerator names a received objType value can stand for when only the value is
known. -/
def objTypeNamesOf (objType : Nat) : List enObjTypeSMS_t :=
  enObjTypeSMS_t.all.filter (fun n => decide (n.toNat = objType))

/-- The enumerator names a received objType value can stand for when the service type of
the message is known as well. -/
def objTypeNamesFor (serviceType : enServiceSMS_t) (objType : Nat) : List enObjTypeSMS_t :=
  (objTypeNamesOf objType).filter (fun n => n.services.contains serviceType)

end Connectivity

namespace Persistence

/-- Error codes of the data storage service (dss_ErrorCode_t of
IDataStorageService_appfwk.h). -/
inductive dss_ErrorCode_t where
  | DSS_SERVICE_DISABLE
  | DSS_ECONNREFUSED
  | DSS_ENAMETOOLONG
  | DSS_EINVAL
  | DSS_EEXIST
  | DSS_EBUSY
  | DSS_ENOMEM
  | DSS_ENOENT
  | DSS_EGENERIC
  deriving DecidableEq, Repr

/-- The value the header gives each enumerator of dss_ErrorCode_t. -/
def dss_ErrorCode_t.toInt : dss_ErrorCode_t → Int
  | .DSS_SERVICE_DISABLE => -656
  | .DSS_ECONNREFUSED => -111
  | .DSS_ENAMETOOLONG => -32
  | .DSS_EINVAL => -22
  | .DSS_EEXIST => -17
  | .DSS_EBUSY => -16
  | .DSS_ENOMEM => -12
  | .DSS_ENOENT => -2
  | .DSS_EGENERIC => -1

/-- The enumerators of dss_ErrorCode_t in declaration order. -/
def dss_ErrorCode_t.all : List dss_ErrorCode_t :=
  [.DSS_SERVICE_DISABLE, .DSS_ECONNREFUSED, .DSS_ENAMETOOLONG, .DSS_EINVAL, .DSS_EEXIST,
   .DSS_EBUSY, .DSS_ENOMEM, .DSS_ENOENT, .DSS_EGENERIC]

/-- Whether an int32_t result of a data storage operation is one of the error codes. -/
def isDssError (r : Int) : Bool :=
  dss_ErrorCode_t.all.any (fun e => decide (e.toInt = r))

end Persistence
end Stla

/-! ## PublicXcall.h: the default Ecall description -/

namespace Stla
namespace Xcall

/-- Reasons of an emergency call (EcallReason). -/
inductive EcallReason where
  | UnknownReason
  | NotTriggered
  | ManualTriggered
  | AutomaticTriggered
  deriving DecidableEq, Repr

/-- The value of each enumerator of EcallReason: UnknownReason = -1 and the following
ones count up from there. -/
def EcallReason.toInt : EcallReason → Int
  | .UnknownReason => -1
  | .NotTriggered => 0
  | .ManualTriggered => 1
  | .AutomaticTriggered => 2

/-- The conversion of an int to std::uint32_t: the value modulo 2^32. -/
def toUInt32 (i : Int) : Nat := (i % 2 ^ 32).toNat

/-- The reinterpretation of a std::uint32_t as a signed 32-bit value. -/
def toInt32 (n : Nat) : Int :=
  if n % 2 ^ 32 < 2 ^ 31 then ((n % 2 ^ 32 : Nat) : Int) else ((n % 2 ^ 32 : Nat) : Int) - 2 ^ 32

/-- The bytes a program sees at the address of the string literal "": the terminating
NUL, followed by whatever the memory holds behind the literal. -/
def emptyLiteral (beyond : Nat → Nat) (i : Nat) : Nat :=
  if i = 0 then 0 else beyond (i - 1)

/-- The constructor std::string(const char* s, size_type n): the n bytes starting at
s. -/
def stringOfBuffer (s : Nat → Nat) (n : Nat) : List Nat :=
  (List.range n).map s

/-- The record EcallDescription: start time, reason (a std::uint32_t) and VIN (the bytes
of a std::string). -/
structure EcallDescription where
  startedAt : Int
  reason : Nat
  VIN : List Nat
  deriving DecidableEq, Repr

set_option linter.dupNamespace false in
/-- The default constructor EcallDescription(): startedAt ( 0 ), reason ( -1 ),
VIN ( "", 17 ).  The argument is the memory behind the string literal, which the VIN
initialiser reads. -/
def EcallDescription.EcallDescription (beyond : Nat → Nat) : EcallDescription :=
  { startedAt := 0
    reason := toUInt32 (-1)
    VIN := stringOfBuffer (emptyLiteral beyond) 17 }

end Xcall

/-! ## IPositioningServiceTypes.h: validity bits of the enhanced position -/

namespace Positioning

/-- The validity flags of the enhanced position (EEnhancedPositionValidityBits). -/
inductive EEnhancedPositionValidityBits where
  | ENH_POSITION_HPOS_VALID
  | ENH_POSITION_SHPOS_VALID
  | ENH_POSITION_HSPEED_VALID
  | ENH_POSITION_HEADING_VALID
  | ENH_POSITION_DR_INFO_VALID
  | ENH_POSITION_FIX_TYPE_VALID
  deriving DecidableEq, Repr

/-- The value the header gives each validity flag. -/
def EEnhancedPositionValidityBits.toNat : EEnhancedPositionValidityBits → Nat
  | .ENH_POSITION_HPOS_VALID => 0x00000001
  | .ENH_POSITION_SHPOS_VALID => 0x00000002
  | .ENH_POSITION_HSPEED_VALID => 0x00000010
  | .ENH_POSITION_HEADING_VALID => 0x00000040
  | .ENH_POSITION_DR_INFO_VALID => 0x40000000
  | .ENH_POSITION_FIX_TYPE_VALID => 0x80000000

/-- The position of the bit of each validity flag. -/
def EEnhancedPositionValidityBits.bitIndex : EEnhancedPositionValidityBits → Nat
  | .ENH_POSITION_HPOS_VALID => 0
  | .ENH_POSITION_SHPOS_VALID => 1
  | .ENH_POSITION_HSPEED_VALID => 4
  | .ENH_POSITION_HEADING_VALID => 6
  | .ENH_POSITION_DR_INFO_VALID => 30
  | .ENH_POSITION_FIX_TYPE_VALID => 31

/-- The validity flags in declaration order. -/
def EEnhancedPositionValidityBits.all : List EEnhancedPositionValidityBits :=
  [.ENH_POSITION_HPOS_VALID, .ENH_POSITION_SHPOS_VALID, .ENH_POSITION_HSPEED_VALID,
   .ENH_POSITION_HEADING_VALID, .ENH_POSITION_DR_INFO_VALID, .ENH_POSITION_FIX_TYPE_VALID]

/-- The content of TEnhancedPosition::validityBits for a collection of flags: their
bitwise or. -/
def validityMask (flags : List EEnhancedPositionValidityBits) : Nat :=
  flags.foldl (fun m f => m ||| f.toNat) 0

/-- The check a reader makes before using a field: validityBits & flag is non-zero. -/
def isValidityBitSet (validityBits : Nat) (f : EEnhancedPositionValidityBits) : Bool :=
  decide (validityBits &&& f.toNat ≠ 0)

/-- The flags a mask decodes to: those whose check succeeds. -/
def decodeValidity (validityBits : Nat) : List EEnhancedPositionValidityBits :=
  EEnhancedPositionValidityBits.all.filter (isValidityBitSet validityBits)

end Positioning
end Stla

/-! ## The member functions declared in the headers -/

namespace Stla
namespace Catalogue

/-- How a member function is declared in a header. -/
inductive MemberKind where
  | pureVirtual
  | emptyBody
  | defaulted
  | initialisesMembers
  | returnsValue
  | declaredOnly
  deriving DecidableEq, Repr

/-- One member function declaration: its class, its name, the line of the header on which
its name stands, and how it is declared: pure virtual ("= 0"); with an empty body and no
member initialiser; defaulted ("= default"); with an empty body after member
initialisers; with a body that returns a value; or without "= 0" and without a body. -/
structure MemberFunction where
  className : String
  name : String
  line : Nat
  kind : MemberKind
  deriving DecidableEq, Repr

/-- The member functions declared in Audio/include/IAudioService.h. -/
def members_IAudioService : List MemberFunction :=
  [⟨"IAudioService", "IAudioService", 45, .emptyBody⟩,
   ⟨"IAudioService", "~IAudioService", 50, .emptyBody⟩]

/-- The member functions declared in Audio/include/PublicAudio.h. -/
def members_PublicAudio : List MemberFunction :=
  [⟨"PublicAudio", "playAudioFile", 45, .pureVirtual⟩,
   ⟨"PublicAudio", "~PublicAudio", 47, .emptyBody⟩]

/-- The member functions declared in Diagnosis/include/IDiagManagerClient.h. -/
def members_IDiagManagerClient : List MemberFunction :=
  [⟨"Diagnosis_IF", "Diagnosis_IF", 82, .emptyBody⟩,
   ⟨"Diagnosis_IF", "~Diagnosis_IF", 89, .emptyBody⟩,
   ⟨"Diagnosis_IF", "diagClientQueryDtcStatus", 102, .pureVirtual⟩,
   ⟨"Diagnosis_IF", "diagClientQueryAllConfirmedPresentDtcs", 108, .pureVirtual⟩,
   ⟨"DiagClientDtcConfirmationNotify", "DiagClientDtcConfirmationNotify", 145, .initialisesMembers⟩,
   ⟨"DiagClientDtcConfirmationNotify", "data", 149, .returnsValue⟩]

/-- The member functions declared in Lifecycle/include/IEarlyInitService.h. -/
def members_IEarlyInitService : List MemberFunction :=
  [⟨"IEarlyInitService", "getInstanceID", 50, .pureVirtual⟩,
   ⟨"IEarlyInitService", "getLCM_Obj", 88, .pureVirtual⟩,
   ⟨"IEarlyInitService", "~IEarlyInitService", 94, .emptyBody⟩]

/-- The member functions declared in Lifecycle/include/ILifecycleMonitor.h. -/
def members_ILifecycleMonitor : List MemberFunction :=
  [⟨"ILifecycleMonitor", "ackAppState", 63, .pureVirtual⟩,
   ⟨"ILifecycleMonitor", "getServiceAvailability", 91, .pureVirtual⟩,
   ⟨"ILifecycleMonitor", "lcm_keepAwakeReq", 176, .pureVirtual⟩,
   ⟨"ILifecycleMonitor", "lcm_requestCANWakeup", 187, .pureVirtual⟩,
   ⟨"ILifecycleMonitor", "lcm_getCANState", 195, .pureVirtual⟩,
   ⟨"ILifecycleMonitor", "lcm_getParkModeState", 203, .pureVirtual⟩,
   ⟨"ILifecycleMonitor", "lcm_createRTCAlarm", 218, .pureVirtual⟩,
   ⟨"ILifecycleMonitor", "lcm_deleteRTCAlarm", 232, .pureVirtual⟩,
   ⟨"ILifecycleMonitor", "lcm_acknowledgeRTCAlarm", 245, .pureVirtual⟩,
   ⟨"ILifecycleMonitor", "lcm_getBackupBatteryStatus", 253, .pureVirtual⟩,
   ⟨"ILifecycleMonitor", "lcm_getBackupBatteryVoltage", 261, .pureVirtual⟩,
   ⟨"ILifecycleMonitor", "lcm_getBackupBatteryTemperature", 269, .pureVirtual⟩,
   ⟨"ILifecycleMonitor", "lcm_getBackupBatterySOH", 277, .pureVirtual⟩,
   ⟨"ILifecycleMonitor", "lcm_getBackupBatteryChargeLevel", 285, .pureVirtual⟩,
   ⟨"ILifecycleMonitor", "lcm_getWakeupReason", 294, .pureVirtual⟩,
   ⟨"ILifecycleMonitor", "lcm_getLifecycleState", 302, .pureVirtual⟩,
   ⟨"ILifecycleMonitor", "lcm_isCDNOActive", 310, .pureVirtual⟩,
   ⟨"ILifecycleMonitor", "~ILifecycleMonitor", 315, .emptyBody⟩]

/-- The member functions declared in Lifecycle/include/ISupervision3rd.h. -/
def members_ISupervision3rd : List MemberFunction :=
  [⟨"ISupervision3rd", "ISupervision3rd", 44, .emptyBody⟩,
   ⟨"ISupervision3rd", "~ISupervision3rd", 49, .emptyBody⟩,
   ⟨"ISupervision3rd", "type", 54, .returnsValue⟩,
   ⟨"ISupervision3rd", "isA", 61, .returnsValue⟩,
   ⟨"ISupervision3rd", "getMch3CpuInfo", 71, .pureVirtual⟩,
   ⟨"ISupervision3rd", "getMch3MemInfo", 78, .pureVirtual⟩]

/-- The member functions declared in Logging/include/ILoggingService.h. -/
def members_ILoggingService : List MemberFunction :=
  [⟨"ILoggingService", "~ILoggingService", 69, .emptyBody⟩,
   ⟨"ILoggingService", "startLogStorage", 82, .pureVirtual⟩,
   ⟨"ILoggingService", "stopLogStorage", 91, .pureVirtual⟩,
   ⟨"ILoggingService", "getStoredLogs", 100, .pureVirtual⟩,
   ⟨"ILoggingService", "clearLogStorage", 112, .pureVirtual⟩,
   ⟨"ILoggingService", "type", 117, .returnsValue⟩,
   ⟨"ILoggingService", "isA", 124, .returnsValue⟩]

/-- The member functions declared in Lwm2m/include/ILwM2MAppFwkService.hpp. -/
def members_ILwM2MAppFwkService : List MemberFunction :=
  [⟨"ILwM2MInstanceHandler", "~ILwM2MInstanceHandler", 51, .emptyBody⟩,
   ⟨"ILwM2MInstanceHandler", "getInstanceId", 105, .pureVirtual⟩,
   ⟨"ILwM2MInstanceHandler", "getInstance", 116, .pureVirtual⟩,
   ⟨"ILwM2MInstanceHandler", "getInstanceResourceIds", 128, .pureVirtual⟩,
   ⟨"ILwM2MInstanceHandler", "getSymbolicNameResourceValue", 142, .pureVirtual⟩,
   ⟨"ILwM2MInstanceHandler", "getStringResourceValue", 157, .pureVirtual⟩,
   ⟨"ILwM2MInstanceHandler", "getIntegerResourceValue", 172, .pureVirtual⟩,
   ⟨"ILwM2MInstanceHandler", "getFloatResourceValue", 186, .pureVirtual⟩,
   ⟨"ILwM2MInstanceHandler", "getBooleanResourceValue", 200, .pureVirtual⟩,
   ⟨"ILwM2MInstanceHandler", "getOpaqueResourceValue", 214, .pureVirtual⟩,
   ⟨"ILwM2MInstanceHandler", "getTimeResourceValue", 228, .pureVirtual⟩,
   ⟨"ILwM2MInstanceHandler", "getObjlnkResourceValue", 242, .pureVirtual⟩,
   ⟨"ILwM2MInstanceHandler", "setStringResourceValue", 256, .pureVirtual⟩,
   ⟨"ILwM2MInstanceHandler", "setIntegerResourceValue", 269, .pureVirtual⟩,
   ⟨"ILwM2MInstanceHandler", "setFloatResourceValue", 282, .pureVirtual⟩,
   ⟨"ILwM2MInstanceHandler", "setBooleanResourceValue", 295, .pureVirtual⟩,
   ⟨"ILwM2MInstanceHandler", "setOpaqueResourceValue", 308, .pureVirtual⟩,
   ⟨"ILwM2MInstanceHandler", "setTimeResourceValue", 321, .pureVirtual⟩,
   ⟨"ILwM2MInstanceHandler", "setObjlnkResourceValue", 332, .pureVirtual⟩,
   ⟨"ILwM2MInstanceHandler", "deleteResource", 348, .pureVirtual⟩,
   ⟨"ILwM2MInstanceHandler", "registerExecuteOpHandler", 363, .pureVirtual⟩,
   ⟨"ILwM2MInstanceHandler", "setExecuteResult", 387, .pureVirtual⟩,
   ⟨"ILwM2MObjectHandler", "~ILwM2MObjectHandler", 409, .emptyBody⟩,
   ⟨"ILwM2MObjectHandler", "getLwM2MAppFwkObjectInstanceList", 421, .pureVirtual⟩,
   ⟨"ILwM2MObjectHandler", "getLwM2MAppFwkObjectInstance", 431, .pureVirtual⟩,
   ⟨"ILwM2MObjectHandler", "createNewInstance", 450, .pureVirtual⟩,
   ⟨"ILwM2MObjectHandler", "deleteInstance", 464, .pureVirtual⟩,
   ⟨"ILwM2MAppFwkService", "ILwM2MAppFwkService", 521, .emptyBody⟩,
   ⟨"ILwM2MAppFwkService", "~ILwM2MAppFwkService", 528, .emptyBody⟩,
   ⟨"ILwM2MAppFwkService", "isServiceReady", 540, .pureVirtual⟩,
   ⟨"ILwM2MAppFwkService", "getObjectHandler", 555, .pureVirtual⟩,
   ⟨"ILwM2MAppFwkService", "type", 561, .returnsValue⟩,
   ⟨"ILwM2MAppFwkService", "isA", 569, .returnsValue⟩]

/-- The member functions declared in Mqtt/include/IMqttConfService.hpp. -/
def members_IMqttConfService : List MemberFunction :=
  [⟨"IMqttConfHandler", "~IMqttConfHandler", 72, .emptyBody⟩,
   ⟨"IMqttConfHandler", "getAdkMode", 82, .pureVirtual⟩,
   ⟨"IMqttConfHandler", "setAdkMode", 94, .pureVirtual⟩,
   ⟨"IMqttConfHandler", "getIndexList", 103, .pureVirtual⟩,
   ⟨"IMqttConfHandler", "getItem", 113, .pureVirtual⟩,
   ⟨"IMqttConfHandler", "setItem", 165, .pureVirtual⟩,
   ⟨"IMqttConfHandler", "deleteItem", 176, .pureVirtual⟩,
   ⟨"IMqttConfService", "IMqttConfService", 209, .emptyBody⟩,
   ⟨"IMqttConfService", "~IMqttConfService", 214, .emptyBody⟩,
   ⟨"IMqttConfService", "getMqttConfHandler", 225, .pureVirtual⟩,
   ⟨"IMqttConfService", "isServiceReady", 232, .pureVirtual⟩,
   ⟨"IMqttConfService", "type", 237, .returnsValue⟩,
   ⟨"IMqttConfService", "isA", 245, .returnsValue⟩]

/-- The member functions declared in Positioning/include/IPosDataProvider.h. -/
def members_IPosDataProvider : List MemberFunction :=
  [⟨"IPosDataProvider", "~IPosDataProvider", 49, .defaulted⟩,
   ⟨"IPosDataProvider", "posDataRequest", 84, .pureVirtual⟩,
   ⟨"IPosDataProvider", "cancel", 91, .pureVirtual⟩]

/-- The member functions declared in Positioning/include/IPositioningService.h. -/
def members_IPositioningService : List MemberFunction :=
  [⟨"IPositioningService", "~IPositioningService", 89, .pureVirtual⟩,
   ⟨"IPositioningService", "getGNSSPosition", 135, .pureVirtual⟩,
   ⟨"IPositioningService", "getLastValidGNSSPosition", 185, .pureVirtual⟩,
   ⟨"IPositioningService", "getGNSSTime", 282, .pureVirtual⟩,
   ⟨"IPositioningService", "getGNSSSatelliteDetails", 352, .pureVirtual⟩,
   ⟨"IPositioningService", "getTimeToFirstFix", 414, .pureVirtual⟩,
   ⟨"IPositioningService", "getEnhancedPosition", 427, .pureVirtual⟩,
   ⟨"IPositioningService", "getLastValidEnhancedPosition", 441, .pureVirtual⟩,
   ⟨"IPositioningService", "getTraveledDistance", 498, .pureVirtual⟩,
   ⟨"IPositioningService", "~IPositioningService", 538, .emptyBody⟩]

/-- The member functions declared in Radio/include/IBroadcastReceiverService.h. -/
def members_IBroadcastReceiverService : List MemberFunction :=
  [⟨"IBroadcastReceiverService", "getProgramInfo", 74, .pureVirtual⟩,
   ⟨"IBroadcastReceiverService", "getAvailableBands", 80, .pureVirtual⟩,
   ⟨"IBroadcastReceiverService", "getAnnouncementInfo", 86, .pureVirtual⟩,
   ⟨"IBroadcastReceiverService", "getPresetList", 92, .pureVirtual⟩,
   ⟨"IBroadcastReceiverService", "getUserSettings", 98, .pureVirtual⟩,
   ⟨"IBroadcastReceiverService", "~IBroadcastReceiverService", 103, .emptyBody⟩]

/-- The member functions declared in RemoteAccess/include/IRemoteAccessService.h. -/
def members_IRemoteAccessService : List MemberFunction :=
  [⟨"IRemoteAccessService", "~IRemoteAccessService", 61, .emptyBody⟩,
   ⟨"IRemoteAccessService", "RequestLockAllDoors", 72, .pureVirtual⟩,
   ⟨"IRemoteAccessService", "RequestLockAllDoorsConfirmed", 80, .pureVirtual⟩,
   ⟨"IRemoteAccessService", "RequestUnlockAllDoors", 88, .pureVirtual⟩,
   ⟨"IRemoteAccessService", "RequestUnlockDriverDoor", 96, .pureVirtual⟩,
   ⟨"IRemoteAccessService", "RequestUnlockTrunk", 104, .pureVirtual⟩,
   ⟨"IRemoteAccessService", "RequestRemoteHornOff", 112, .pureVirtual⟩,
   ⟨"IRemoteAccessService", "RequestRemoteHornOn", 120, .pureVirtual⟩,
   ⟨"IRemoteAccessService", "RequestTurnLightsOff", 128, .pureVirtual⟩,
   ⟨"IRemoteAccessService", "RequestTurnLightsOn", 136, .pureVirtual⟩,
   ⟨"IRemoteAccessService", "SendEcranInfoPrgRtabRem", 144, .pureVirtual⟩,
   ⟨"IRemoteAccessService", "SendEcranInfoPgrClimRem", 152, .pureVirtual⟩,
   ⟨"IRemoteAccessService", "SendEcranInfoPgrClimRem2", 160, .pureVirtual⟩,
   ⟨"IRemoteAccessService", "RequestChargeData", 168, .pureVirtual⟩,
   ⟨"IRemoteAccessService", "RemoteChargeLimitationDaily", 175, .pureVirtual⟩,
   ⟨"IRemoteAccessService", "RemoteChargeLimitationTrip", 182, .pureVirtual⟩,
   ⟨"IRemoteAccessService", "SendInfoLocationWeb", 193, .pureVirtual⟩,
   ⟨"IRemoteAccessService", "SendNo2WebValue", 204, .pureVirtual⟩,
   ⟨"IRemoteAccessService", "SendO3WebValue", 215, .pureVirtual⟩,
   ⟨"IRemoteAccessService", "SendPM25WebValue", 226, .pureVirtual⟩,
   ⟨"IRemoteAccessService", "SendSo2WebValue", 237, .pureVirtual⟩,
   ⟨"IRemoteAccessService", "RemoteAccessRequestImmoOff", 247, .pureVirtual⟩,
   ⟨"IRemoteAccessService", "RemoteAccessRequestImmoOn", 257, .pureVirtual⟩,
   ⟨"IRemoteAccessService", "type", 267, .returnsValue⟩,
   ⟨"IRemoteAccessService", "isA", 274, .returnsValue⟩]

/-- The member functions declared in Sms/include/ISMSServiceMgr.h. -/
def members_ISMSServiceMgr : List MemberFunction :=
  [⟨"ISMSServiceMgr", "SMSGetMsg", 81, .pureVirtual⟩,
   ⟨"ISMSServiceMgr", "SMSSend", 125, .pureVirtual⟩,
   ⟨"ISMSServiceMgr", "SMSAckMsg", 174, .pureVirtual⟩]

/-- The member functions declared in Sms/include/ISMSServiceMgrProvider.h. -/
def members_ISMSServiceMgrProvider : List MemberFunction :=
  [⟨"ISMSServiceMgrProvider", "type", 54, .returnsValue⟩,
   ⟨"ISMSServiceMgrProvider", "isA", 62, .returnsValue⟩,
   ⟨"ISMSServiceMgrProvider", "SMSRegister", 107, .pureVirtual⟩,
   ⟨"ISMSServiceMgrProvider", "SMSUnregister", 136, .pureVirtual⟩]

/-- The member functions declared in Storage/include/IDataStorageService_appfwk.h. -/
def members_IDataStorageService_appfwk : List MemberFunction :=
  [⟨"IDataStorageService", "IDataStorageService", 85, .emptyBody⟩,
   ⟨"IDataStorageService", "~IDataStorageService", 90, .emptyBody⟩,
   ⟨"IDataStorageService", "dss_NamespaceOpen", 121, .pureVirtual⟩,
   ⟨"IDataStorageService", "dss_NamespaceGetQuota", 132, .pureVirtual⟩,
   ⟨"IDataStorageService", "dss_NamespaceGetFreeSpace", 143, .pureVirtual⟩,
   ⟨"IDataStorageService", "dss_GetTotalUsedSpace", 153, .pureVirtual⟩,
   ⟨"IDataStorageService", "dss_GetTotalFreeSpace", 163, .pureVirtual⟩,
   ⟨"IDataStorageService", "dss_NamespaceRemoveAllFiles", 175, .pureVirtual⟩,
   ⟨"IDataStorageService", "dss_NamespaceRemove", 186, .pureVirtual⟩,
   ⟨"IDataStorageService", "dss_FileOpen", 201, .pureVirtual⟩,
   ⟨"IDataStorageService", "dss_FileClose", 210, .pureVirtual⟩,
   ⟨"IDataStorageService", "dss_FileSave", 224, .pureVirtual⟩,
   ⟨"IDataStorageService", "dss_FileRemove", 238, .pureVirtual⟩,
   ⟨"IDataStorageService", "dss_FileGetSize", 248, .pureVirtual⟩,
   ⟨"IDataStorageService", "dss_FileRead", 264, .pureVirtual⟩,
   ⟨"IDataStorageService", "dss_FileWrite", 279, .pureVirtual⟩,
   ⟨"IDataStorageService", "dss_FileSeek", 292, .pureVirtual⟩]

/-- The member functions declared in Storage/include/IPersistence_Services_AppFwk.h. -/
def members_IPersistence_Services_AppFwk : List MemberFunction :=
  [⟨"IPersistence_Services_AppFwk", "IPersistence_Services_AppFwk", 123, .emptyBody⟩,
   ⟨"IPersistence_Services_AppFwk", "~IPersistence_Services_AppFwk", 131, .emptyBody⟩,
   ⟨"IPersistence_Services_AppFwk", "pcl_keyCreateByteArrayCritical", 164, .pureVirtual⟩,
   ⟨"IPersistence_Services_AppFwk", "pcl_removeAppKeys", 176, .pureVirtual⟩,
   ⟨"IPersistence_Services_AppFwk", "pcl_keyCreateIntCritical", 191, .pureVirtual⟩,
   ⟨"IPersistence_Services_AppFwk", "pcl_keyDeleteCritical", 206, .pureVirtual⟩,
   ⟨"IPersistence_Services_AppFwk", "pcl_keyCreateByteArray", 222, .pureVirtual⟩,
   ⟨"IPersistence_Services_AppFwk", "pcl_keyCreateInt", 238, .pureVirtual⟩,
   ⟨"IPersistence_Services_AppFwk", "pcl_keyDelete", 253, .pureVirtual⟩,
   ⟨"IPersistence_Services_AppFwk", "pcl_KeyReadByteArray", 271, .pureVirtual⟩,
   ⟨"IPersistence_Services_AppFwk", "pcl_KeyWriteByteArray", 289, .pureVirtual⟩,
   ⟨"IPersistence_Services_AppFwk", "pcl_KeyGetSize", 306, .pureVirtual⟩,
   ⟨"IPersistence_Services_AppFwk", "pcl_KeyReadInt", 323, .pureVirtual⟩,
   ⟨"IPersistence_Services_AppFwk", "pcl_KeyWriteInt", 340, .pureVirtual⟩,
   ⟨"IPersistence_Services_AppFwk", "pcl_keyRegisterNotifyOnChange", 356, .pureVirtual⟩,
   ⟨"IPersistence_Services_AppFwk", "pcl_getUsedSpace", 367, .pureVirtual⟩,
   ⟨"IPersistence_Services_AppFwk", "pcl_getRemainingSpace", 378, .pureVirtual⟩,
   ⟨"IPersistence_Services_AppFwk", "pcl_getDatabaseState", 386, .pureVirtual⟩]

/-- The member functions declared in TCUInfo/include/ITCUInfoService.h. -/
def members_ITCUInfoService : List MemberFunction :=
  [⟨"ITCUInfoService", "~ITCUInfoService", 60, .emptyBody⟩,
   ⟨"ITCUInfoService", "getHWNumber", 71, .pureVirtual⟩,
   ⟨"ITCUInfoService", "getUIN", 78, .pureVirtual⟩,
   ⟨"ITCUInfoService", "getAppsInformation", 85, .pureVirtual⟩,
   ⟨"ITCUInfoService", "getAppFwkInformation", 92, .pureVirtual⟩,
   ⟨"ITCUInfoService", "getFirmwareInformation", 99, .pureVirtual⟩,
   ⟨"ITCUInfoService", "getHardwareInformation", 106, .pureVirtual⟩,
   ⟨"ITCUInfoService", "isTimeSynchronized", 115, .pureVirtual⟩,
   ⟨"ITCUInfoService", "getVehicleEngineTypeValue", 130, .pureVirtual⟩,
   ⟨"ITCUInfoService", "getNADTemperature", 138, .pureVirtual⟩,
   ⟨"ITCUInfoService", "type", 153, .returnsValue⟩,
   ⟨"ITCUInfoService", "isA", 160, .returnsValue⟩]

/-- The member functions declared in Wifi/include/IWifiServiceProvider.h. -/
def members_IWifiServiceProvider : List MemberFunction :=
  [⟨"IWifiServiceProvider", "type", 44, .returnsValue⟩,
   ⟨"IWifiServiceProvider", "isA", 52, .returnsValue⟩,
   ⟨"IWifiServiceProvider", "getWifiServices", 118, .pureVirtual⟩,
   ⟨"IWifiServiceProvider", "getWifiStatus", 159, .pureVirtual⟩]

/-- The member functions declared in Xcall/include/IXcallService.h. -/
def members_IXcallService : List MemberFunction :=
  [⟨"IXcallService", "IXcallService", 44, .emptyBody⟩,
   ⟨"IXcallService", "~IXcallService", 49, .emptyBody⟩]

/-- The member functions declared in Xcall/include/PublicXcall.h. -/
def members_PublicXcall : List MemberFunction :=
  [⟨"EcallDescription", "EcallDescription", 77, .initialisesMembers⟩,
   ⟨"PublicEcall", "getEcallState", 93, .pureVirtual⟩,
   ⟨"PublicEcall", "getEcallReason", 99, .pureVirtual⟩,
   ⟨"PublicEcall", "getLastEcallDescription", 105, .pureVirtual⟩,
   ⟨"PublicEcall", "getEcallButtonState", 111, .pureVirtual⟩,
   ⟨"PublicEcall", "getAcallButtonState", 117, .pureVirtual⟩,
   ⟨"PublicEcall", "~PublicEcall", 119, .emptyBody⟩,
   ⟨"EcallInfoProvider", "getEcallState", 124, .declaredOnly⟩,
   ⟨"EcallInfoProvider", "getEcallReason", 125, .declaredOnly⟩,
   ⟨"EcallInfoProvider", "getLastEcallDescription", 126, .declaredOnly⟩,
   ⟨"EcallInfoProvider", "getEcallButtonState", 127, .declaredOnly⟩,
   ⟨"EcallInfoProvider", "getAcallButtonState", 128, .declaredOnly⟩]

/-- Every member function declared in the headers, file by file. -/
def memberFunctions : List MemberFunction :=
  members_IAudioService
    ++ members_PublicAudio
    ++ members_IDiagManagerClient
    ++ members_IEarlyInitService
    ++ members_ILifecycleMonitor
    ++ members_ISupervision3rd
    ++ members_ILoggingService
    ++ members_ILwM2MAppFwkService
    ++ members_IMqttConfService
    ++ members_IPosDataProvider
    ++ members_IPositioningService
    ++ members_IBroadcastReceiverService
    ++ members_IRemoteAccessService
    ++ members_ISMSServiceMgr
    ++ members_ISMSServiceMgrProvider
    ++ members_IDataStorageService_appfwk
    ++ members_IPersistence_Services_AppFwk
    ++ members_ITCUInfoService
    ++ members_IWifiServiceProvider
    ++ members_IXcallService
    ++ members_PublicXcall

/-- Whether a member function is pure virtual, or a constructor or destructor that does
nothing: one with an empty body and no member initialiser, or a defaulted one. -/
def MemberFunction.isPureOrTrivial (m : MemberFunction) : Bool :=
  decide (m.kind = MemberKind.pureVirtual) || decide (m.kind = MemberKind.emptyBody)
    || decide (m.kind = MemberKind.defaulted)

/-- The member functions that are neither pure virtual nor trivial, in the order of the
catalogue. -/
def nonTrivialMembers : List MemberFunction :=
  [⟨"DiagClientDtcConfirmationNotify", "DiagClientDtcConfirmationNotify", 145,
      .initialisesMembers⟩,
   ⟨"DiagClientDtcConfirmationNotify", "data", 149, .returnsValue⟩,
   ⟨"ISupervision3rd", "type", 54, .returnsValue⟩,
   ⟨"ISupervision3rd", "isA", 61, .returnsValue⟩,
   ⟨"ILoggingService", "type", 117, .returnsValue⟩,
   ⟨"ILoggingService", "isA", 124, .returnsValue⟩,
   ⟨"ILwM2MAppFwkService", "type", 561, .returnsValue⟩,
   ⟨"ILwM2MAppFwkService", "isA", 569, .returnsValue⟩,
   ⟨"IMqttConfService", "type", 237, .returnsValue⟩,
   ⟨"IMqttConfService", "isA", 245, .returnsValue⟩,
   ⟨"IRemoteAccessService", "type", 267, .returnsValue⟩,
   ⟨"IRemoteAccessService", "isA", 274, .returnsValue⟩,
   ⟨"ISMSServiceMgrProvider", "type", 54, .returnsValue⟩,
   ⟨"ISMSServiceMgrProvider", "isA", 62, .returnsValue⟩,
   ⟨"ITCUInfoService", "type", 153, .returnsValue⟩,
   ⟨"ITCUInfoService", "isA", 160, .returnsValue⟩,
   ⟨"IWifiServiceProvider", "type", 44, .returnsValue⟩,
   ⟨"IWifiServiceProvider", "isA", 52, .returnsValue⟩,
   ⟨"EcallDescription", "EcallDescription", 77, .initialisesMembers⟩,
   ⟨"EcallInfoProvider", "getEcallState", 124, .declaredOnly⟩,
   ⟨"EcallInfoProvider", "getEcallReason", 125, .declaredOnly⟩,
   ⟨"EcallInfoProvider", "getLastEcallDescription", 126, .declaredOnly⟩,
   ⟨"EcallInfoProvider", "getEcallButtonState", 127, .declaredOnly⟩,
   ⟨"EcallInfoProvider", "getAcallButtonState", 128, .declaredOnly⟩]

end Catalogue
end Stla

namespace Stla
namespace AppFwk

/-! ## Lemmas on the dependency map -/

theorem find_insert_isSome (m : TServiceList) (n k : String) (st : ELCM_SrvState_t) :
    (TServiceList.find (TServiceList.insert m n st) k).isSome = true
      ↔ ((TServiceList.find m k).isSome = true ∨ k = n) := by
  induction m with
  | nil =>
    simp only [TServiceList.insert, TServiceList.find]
    by_cases h : n = k
    · simp [h]
    · simp [h, Ne.symm h]
  | cons hd tl ih =>
    obtain ⟨a, v⟩ := hd
    simp only [TServiceList.insert]
    by_cases h1 : a = n
    · simp only [h1, if_true, TServiceList.find]
      by_cases h2 : n = k
      · simp [h2]
      · simp [h2, Ne.symm h2]
    · simp only [h1, if_false, TServiceList.find]
      by_cases h2 : a = k
      · simp [h2]
      · simp only [h2, if_false]
        exact ih

theorem find_ofNames_aux (names : List String) (acc : TServiceList) (k : String) :
    (TServiceList.find (names.foldl
        (fun m n => TServiceList.insert m n ELCM_SrvState_t.E_LCM_SRV_INITIALIZING) acc) k).isSome
      = true ↔ ((TServiceList.find acc k).isSome = true ∨ k ∈ names) := by
  induction names generalizing acc with
  | nil => simp
  | cons n rest ih =>
    rw [List.foldl_cons, ih, find_insert_isSome]
    simp only [List.mem_cons]
    tauto

theorem find_ofNames_isSome (names : List String) (k : String) :
    (TServiceList.find (TServiceList.ofNames names) k).isSome = true ↔ k ∈ names := by
  unfold TServiceList.ofNames
  rw [find_ofNames_aux]
  simp [TServiceList.find]

theorem find_assign (m : TServiceList) (n k : String) (st : ELCM_SrvState_t) :
    TServiceList.find (TServiceList.assign m n st) k
      = if k = n then (TServiceList.find m k).map (fun _ => st) else TServiceList.find m k := by
  induction m with
  | nil => simp [TServiceList.assign, TServiceList.find]
  | cons hd tl ih =>
    obtain ⟨a, v⟩ := hd
    simp only [TServiceList.assign]
    by_cases h1 : a = n
    · subst h1
      by_cases h2 : a = k
      · subst h2
        simp [TServiceList.find]
      · simp [TServiceList.find, h2, Ne.symm h2]
    · simp only [h1, if_false, TServiceList.find]
      by_cases h2 : a = k
      · subst h2
        simp [h1]
      · simp only [h2, if_false]
        exact ih

theorem find_assign_isSome (m : TServiceList) (n k : String) (st : ELCM_SrvState_t) :
    (TServiceList.find (TServiceList.assign m n st) k).isSome = (TServiceList.find m k).isSome := by
  rw [find_assign]
  split <;> simp

/-! ## Lemmas on the alarm bookkeeping -/

theorem alarmHandles_cons (a : RtcAlarm) (l : List RtcAlarm) :
    alarmHandles (a :: l)
      = match a.alarmHandle with
        | none => alarmHandles l
        | some h => h :: alarmHandles l := by
  unfold alarmHandles
  cases hh : a.alarmHandle <;> simp [List.filterMap_cons, hh]

theorem mem_alarmHandles (l : List RtcAlarm) (h : lcm_RtcAlarmHandle_t) :
    h ∈ alarmHandles l ↔ ∃ a ∈ l, a.alarmHandle = some h := by
  unfold alarmHandles
  simp [List.mem_filterMap]

theorem findAlarm_eq_none (l : List RtcAlarm) (h : lcm_RtcAlarmHandle_t) :
    findAlarm l h = none ↔ h ∉ alarmHandles l := by
  unfold findAlarm
  rw [List.find?_eq_none, mem_alarmHandles]
  simp

theorem findAlarm_some (l : List RtcAlarm) (h : lcm_RtcAlarmHandle_t) (a : RtcAlarm)
    (hf : findAlarm l h = some a) : a ∈ l ∧ a.alarmHandle = some h := by
  unfold findAlarm at hf
  refine ⟨List.mem_of_find?_eq_some hf, ?_⟩
  have := List.find?_some hf
  simpa using this

/-- With pairwise distinct handles, the alarm found for a handle is the alarm that
carries it. -/
theorem findAlarm_of_mem (l : List RtcAlarm) (h : lcm_RtcAlarmHandle_t) (a : RtcAlarm)
    (hn : (alarmHandles l).Nodup) (ha : a ∈ l) (hh : a.alarmHandle = some h) :
    findAlarm l h = some a := by
  induction l with
  | nil => cases ha
  | cons b rest ih =>
    unfold findAlarm
    rw [List.find?_cons]
    by_cases hb : b.alarmHandle = some h
    · simp only [hb, decide_True]
      rcases List.mem_cons.mp ha with rfl | hmem
      · rfl
      · exfalso
        rw [alarmHandles_cons, hb] at hn
        simp only [List.nodup_cons] at hn
        exact hn.1 ((mem_alarmHandles rest h).mpr ⟨a, hmem, hh⟩)
    · simp only [hb, decide_False]
      rcases List.mem_cons.mp ha with rfl | hmem
      · exact absurd hh hb
      · have hn2 : (alarmHandles rest).Nodup := by
          rw [alarmHandles_cons] at hn
          cases hbh : b.alarmHandle with
          | none => simpa [hbh] using hn
          | some x =>
            rw [hbh] at hn
            exact (List.nodup_cons.mp hn).2
        exact ih hn2 hmem

theorem alarmHandles_erase_sublist (l : List RtcAlarm) (h : lcm_RtcAlarmHandle_t) :
    (alarmHandles (eraseAlarm l h)).Sublist (alarmHandles l) := by
  unfold alarmHandles eraseAlarm
  exact List.Sublist.filterMap _ (List.filter_sublist l)

theorem alarmHandles_update (l : List RtcAlarm) (h : lcm_RtcAlarmHandle_t)
    (f : RtcAlarm → RtcAlarm) (hf : ∀ a, (f a).alarmHandle = a.alarmHandle) :
    alarmHandles (updateAlarm l h f) = alarmHandles l := by
  induction l with
  | nil => rfl
  | cons a rest ih =>
    have hcons : updateAlarm (a :: rest) h f
        = (if a.alarmHandle = some h then f a else a) :: updateAlarm rest h f := rfl
    rw [hcons, alarmHandles_cons, alarmHandles_cons, ih]
    by_cases hc : a.alarmHandle = some h
    · simp only [hc, if_true, hf]
    · simp only [hc, if_false]

theorem alarmHandles_append_requested (l : List RtcAlarm) (i c p : Nat) :
    alarmHandles (l ++ [⟨i, none, c, p, false⟩]) = alarmHandles l := by
  unfold alarmHandles
  simp [List.filterMap_append]

theorem mem_alarmHandles_assign (l : List RtcAlarm) (idx : Nat) (h x : lcm_RtcAlarmHandle_t)
    (hx : x ∈ alarmHandles (assignHandle l idx h)) : x = h ∨ x ∈ alarmHandles l := by
  induction l with
  | nil => simp [assignHandle, alarmHandles] at hx
  | cons a rest ih =>
    unfold assignHandle at hx
    by_cases hc : a.index = idx ∧ a.alarmHandle = none
    · rw [if_pos hc, alarmHandles_cons] at hx
      simp only [List.mem_cons] at hx
      rw [alarmHandles_cons, hc.2]
      exact hx
    · rw [if_neg hc, alarmHandles_cons] at hx
      rw [alarmHandles_cons]
      cases hh : a.alarmHandle with
      | none =>
        rw [hh] at hx
        exact ih hx
      | some y =>
        rw [hh] at hx
        simp only [List.mem_cons] at hx ⊢
        rcases hx with hx | hx
        · exact Or.inr (Or.inl hx)
        · rcases ih hx with h1 | h1
          · exact Or.inl h1
          · exact Or.inr (Or.inr h1)

theorem nodup_alarmHandles_assign (l : List RtcAlarm) (idx : Nat) (h : lcm_RtcAlarmHandle_t)
    (hn : (alarmHandles l).Nodup) (hfresh : h ∉ alarmHandles l) :
    (alarmHandles (assignHandle l idx h)).Nodup := by
  induction l with
  | nil => simp [assignHandle, alarmHandles]
  | cons a rest ih =>
    unfold assignHandle
    by_cases hc : a.index = idx ∧ a.alarmHandle = none
    · rw [if_pos hc, alarmHandles_cons]
      rw [alarmHandles_cons, hc.2] at hn hfresh
      exact List.nodup_cons.mpr ⟨hfresh, hn⟩
    · rw [if_neg hc, alarmHandles_cons]
      rw [alarmHandles_cons] at hn hfresh
      cases hh : a.alarmHandle with
      | none =>
        rw [hh] at hn hfresh
        exact ih hn hfresh
      | some y =>
        rw [hh] at hn hfresh
        simp only [List.mem_cons, not_or] at hfresh
        have hn2 := List.nodup_cons.mp hn
        refine List.nodup_cons.mpr ⟨?_, ih hn2.2 hfresh.2⟩
        intro hy
        rcases mem_alarmHandles_assign rest idx h y hy with h1 | h1
        · exact hfresh.1 h1.symm
        · exact hn2.1 h1

theorem length_assignHandle (l : List RtcAlarm) (idx : Nat) (h : lcm_RtcAlarmHandle_t) :
    (assignHandle l idx h).length = l.length := by
  induction l with
  | nil => rfl
  | cons a rest ih =>
    unfold assignHandle
    split <;> simp [ih]

theorem length_updateAlarm (l : List RtcAlarm) (h : lcm_RtcAlarmHandle_t)
    (f : RtcAlarm → RtcAlarm) : (updateAlarm l h f).length = l.length := by
  unfold updateAlarm
  simp

theorem length_eraseAlarm_le (l : List RtcAlarm) (h : lcm_RtcAlarmHandle_t) :
    (eraseAlarm l h).length ≤ l.length := by
  unfold eraseAlarm
  exact List.length_filter_le _ l

/-! ## Well-formedness is an invariant -/

theorem lcmInv_init (p : LcmPlatform) (mandatoryServices optionalServices : List String) :
    LcmInv (getLCM_Obj p mandatoryServices optionalServices) := by
  refine ⟨?_, ?_, ?_, ?_⟩
  · intro k
    simp only [getLCM_Obj]
    rw [find_ofNames_isSome, List.mem_append]
  · intro h
    exact absurd rfl h
  · simp [getLCM_Obj, alarmHandles]
  · simp [getLCM_Obj]

theorem lcmInv_frame (s t : CLifecycleMonitor) (h : LcmInv s)
    (h1 : t.m_services = s.m_services) (h2 : t.mandatoryServices = s.mandatoryServices)
    (h3 : t.optionalServices = s.optionalServices) (h4 : t.alarms = s.alarms)
    (h5 : t.registered = s.registered) : LcmInv t := by
  unfold LcmInv
  rw [h1, h2, h3, h4, h5]
  exact h

theorem lcmInv_assign (s : CLifecycleMonitor) (h : LcmInv s) (n : String)
    (st : ELCM_SrvState_t) (a : SLCM_AppState_t) :
    LcmInv { s with m_services := TServiceList.assign s.m_services n st, m_appState := a } := by
  refine ⟨?_, h.2.1, h.2.2.1, h.2.2.2⟩
  intro k
  simp only [find_assign_isSome]
  exact h.1 k

theorem lcmInv_notifySrvState (s : CLifecycleMonitor) (h : LcmInv s) (ev : SLCM_SrvState_t) :
    LcmInv (notifySrvState s ev).1 := by
  unfold notifySrvState
  cases hf : TServiceList.find s.m_services ev.serviceName with
  | none => exact h
  | some old =>
    have key := fun a => lcmInv_assign s h ev.serviceName ev.state a
    have key0 := key s.m_appState
    simp only
    split_ifs
    · exact key _
    · exact key _
    · exact key0
    · exact key0
    · exact key0
    · exact key0

theorem lcmInv_requestAppState (s : CLifecycleMonitor) (h : LcmInv s) (r : ELCM_Reason) :
    LcmInv (requestAppState s r).1 := by
  unfold requestAppState
  split_ifs
  · exact lcmInv_frame s _ h rfl rfl rfl rfl rfl
  · exact h

theorem lcmInv_onRtcAlarmCreated (s : CLifecycleMonitor) (h : LcmInv s)
    (c : lcm_RtcAlarmCreated_t) : LcmInv (onRtcAlarmCreated s c).1 := by
  unfold onRtcAlarmCreated
  split_ifs with h1 h2
  · exact h
  · have hfresh : c.alarmHandle ∉ alarmHandles s.alarms := by
      rw [← findAlarm_eq_none]
      cases hf : findAlarm s.alarms c.alarmHandle with
      | none => rfl
      | some a => simp [hf] at h1
    refine ⟨h.1, ?_, nodup_alarmHandles_assign _ _ _ h.2.2.1 hfresh, ?_⟩
    · intro hne
      apply h.2.1
      intro hnil
      simp only [hnil, assignHandle] at hne
      exact hne rfl
    · simp only [length_assignHandle]
      exact h.2.2.2
  · exact h

theorem lcmInv_onRtcAlarmExpired (s : CLifecycleMonitor) (h : LcmInv s)
    (a : lcm_RtcAlarmHandle_t) : LcmInv (onRtcAlarmExpired s a).1 := by
  unfold onRtcAlarmExpired
  cases hf : findAlarm s.alarms a with
  | none => exact h
  | some x =>
    simp only
    split_ifs
    · exact h
    · refine ⟨h.1, ?_, ?_, ?_⟩
      · intro _
        apply h.2.1
        intro hnil
        simp [hnil, findAlarm] at hf
      · simp only
        rw [alarmHandles_update]
        · exact h.2.2.1
        · intro _
          rfl
      · simp only [length_updateAlarm]
        exact h.2.2.2

theorem lcmInv_create (s : CLifecycleMonitor) (h : LcmInv s) (cycles period : Nat)
    (index : Option Nat) (genericFailure : Bool) :
    LcmInv (lcm_createRTCAlarm s cycles period index genericFailure).state := by
  unfold lcm_createRTCAlarm
  split_ifs with h0 h1 h2 h3
  · exact h
  · exact h
  · exact h
  · exact h
  · refine ⟨h.1, ?_, ?_, ?_⟩
    · intro _
      simpa using h2
    · simp only
      rw [alarmHandles_append_requested]
      exact h.2.2.1
    · simp only [List.length_append, List.length_singleton]
      simp only [not_or, not_le] at h0
      exact h0.2.2

theorem lcmInv_erase (s : CLifecycleMonitor) (h : LcmInv s) (a : lcm_RtcAlarmHandle_t)
    (hr : s.registered = true) : LcmInv { s with alarms := eraseAlarm s.alarms a } := by
  refine ⟨h.1, fun _ => hr, ?_, ?_⟩
  · exact List.Nodup.sublist (alarmHandles_erase_sublist _ _) h.2.2.1
  · exact le_trans (length_eraseAlarm_le _ _) h.2.2.2

theorem lcmInv_delete (s : CLifecycleMonitor) (h : LcmInv s) (a : lcm_RtcAlarmHandle_t) :
    LcmInv (lcm_deleteRTCAlarm s a).state := by
  unfold lcm_deleteRTCAlarm
  split_ifs with h1
  · exact h
  · cases hf : findAlarm s.alarms a with
    | none => exact h
    | some x =>
      simp only
      split_ifs
      · exact h
      · exact lcmInv_erase s h a (by simpa using h1)

theorem lcmInv_acknowledge (s : CLifecycleMonitor) (h : LcmInv s) (a : lcm_RtcAlarmHandle_t) :
    LcmInv (lcm_acknowledgeRTCAlarm s a).state := by
  unfold lcm_acknowledgeRTCAlarm
  split_ifs with h1
  · exact h
  · cases hf : findAlarm s.alarms a with
    | none => exact h
    | some x =>
      simp only
      split_ifs
      · exact h
      · exact lcmInv_erase s h a (by simpa using h1)
      · refine ⟨h.1, fun _ => by simpa using h1, ?_, ?_⟩
        · simp only
          rw [alarmHandles_update]
          · exact h.2.2.1
          · intro _
            rfl
        · simp only [length_updateAlarm]
          exact h.2.2.2

theorem lcmInv_onCall (s : CLifecycleMonitor) (h : LcmInv s) (c : LcmCall) :
    LcmInv (onCall s c).1 := by
  cases c with
  | ackAppState st => exact h
  | getServiceAvailability n a =>
    simp only [onCall, getServiceAvailability]
    split <;> exact h
  | lcm_createRTCAlarm cy pe i g => exact lcmInv_create s h cy pe i g
  | lcm_deleteRTCAlarm a => exact lcmInv_delete s h a
  | lcm_acknowledgeRTCAlarm a => exact lcmInv_acknowledge s h a
  | lcm_getCANState p => cases p <;> exact h
  | lcm_getParkModeState p => cases p <;> exact h
  | lcm_getBackupBatteryStatus p => cases p <;> exact h
  | lcm_getBackupBatteryVoltage p => cases p <;> exact h
  | lcm_getBackupBatteryTemperature p => cases p <;> exact h
  | lcm_getBackupBatterySOH p => cases p <;> exact h
  | lcm_getBackupBatteryChargeLevel p => cases p <;> exact h
  | lcm_getWakeupReason p =>
    cases p with
    | none => exact h
    | some old =>
      simp only [onCall, lcm_getWakeupReason]
      split <;> exact h
  | lcm_getLifecycleState p => cases p <;> exact h
  | lcm_isCDNOActive p => cases p <;> exact h

theorem lcmInv_onNotification (s : CLifecycleMonitor) (h : LcmInv s) (n : LcmNotification) :
    LcmInv (onNotification s n).1 := by
  cases n with
  | srvState ev => exact lcmInv_notifySrvState s h ev
  | appStateRequest r => exact lcmInv_requestAppState s h r
  | rtcAlarmCreated c => exact lcmInv_onRtcAlarmCreated s h c
  | rtcAlarmExpired a => exact lcmInv_onRtcAlarmExpired s h a
  | lifecycleState st => exact lcmInv_frame s _ h rfl rfl rfl rfl rfl
  | canNetworkState st => exact lcmInv_frame s _ h rfl rfl rfl rfl rfl
  | parkModeState st => exact lcmInv_frame s _ h rfl rfl rfl rfl rfl
  | backupBatteryStatus st => exact lcmInv_frame s _ h rfl rfl rfl rfl rfl
  | backupBatteryVoltage mv => exact lcmInv_frame s _ h rfl rfl rfl rfl rfl
  | backupBatteryTemperature deg => exact lcmInv_frame s _ h rfl rfl rfl rfl rfl
  | backupBatterySOH soh => exact lcmInv_frame s _ h rfl rfl rfl rfl rfl
  | backupBatteryChargeLevel soc => exact lcmInv_frame s _ h rfl rfl rfl rfl rfl
  | wakeupReason r => exact lcmInv_frame s _ h rfl rfl rfl rfl rfl
  | cdno active => exact lcmInv_frame s _ h rfl rfl rfl rfl rfl

theorem lcmInv_step (s : CLifecycleMonitor) (h : LcmInv s) (i : LcmInput) :
    LcmInv (lcmStep s i).1 := by
  cases i with
  | call c => exact lcmInv_onCall s h c
  | notification n => exact lcmInv_onNotification s h n

theorem lcmInv_of_reachable (s : CLifecycleMonitor) (h : LcmReachable s) : LcmInv s := by
  induction h with
  | init p m o => exact lcmInv_init p m o
  | step s i _ ih => exact lcmInv_step s ih i

theorem lcmRun_reachable (s : CLifecycleMonitor) (h : LcmReachable s) (inputs : List LcmInput) :
    LcmReachable (lcmRun s inputs) := by
  induction inputs generalizing s with
  | nil => exact h
  | cons i rest ih => exact ih _ (LcmReachable.step s i h)

/-! ## The declared dependencies never change -/

theorem lcmStep_deps (s : CLifecycleMonitor) (i : LcmInput) :
    (lcmStep s i).1.mandatoryServices = s.mandatoryServices
      ∧ (lcmStep s i).1.optionalServices = s.optionalServices := by
  cases i with
  | call c =>
    cases c with
    | ackAppState st => exact ⟨rfl, rfl⟩
    | getServiceAvailability n a =>
      simp only [lcmStep, onCall, getServiceAvailability]
      split <;> exact ⟨rfl, rfl⟩
    | lcm_createRTCAlarm cy pe i g =>
      simp only [lcmStep, onCall, lcm_createRTCAlarm]
      split_ifs <;> exact ⟨rfl, rfl⟩
    | lcm_deleteRTCAlarm a =>
      simp only [lcmStep, onCall, lcm_deleteRTCAlarm]
      split_ifs
      · exact ⟨rfl, rfl⟩
      · cases findAlarm s.alarms a with
        | none => exact ⟨rfl, rfl⟩
        | some x =>
          simp only
          split_ifs <;> exact ⟨rfl, rfl⟩
    | lcm_acknowledgeRTCAlarm a =>
      simp only [lcmStep, onCall, lcm_acknowledgeRTCAlarm]
      split_ifs
      · exact ⟨rfl, rfl⟩
      · cases findAlarm s.alarms a with
        | none => exact ⟨rfl, rfl⟩
        | some x =>
          simp only
          split_ifs <;> exact ⟨rfl, rfl⟩
    | lcm_getCANState p => cases p <;> exact ⟨rfl, rfl⟩
    | lcm_getParkModeState p => cases p <;> exact ⟨rfl, rfl⟩
    | lcm_getBackupBatteryStatus p => cases p <;> exact ⟨rfl, rfl⟩
    | lcm_getBackupBatteryVoltage p => cases p <;> exact ⟨rfl, rfl⟩
    | lcm_getBackupBatteryTemperature p => cases p <;> exact ⟨rfl, rfl⟩
    | lcm_getBackupBatterySOH p => cases p <;> exact ⟨rfl, rfl⟩
    | lcm_getBackupBatteryChargeLevel p => cases p <;> exact ⟨rfl, rfl⟩
    | lcm_getWakeupReason p =>
      cases p with
      | none => exact ⟨rfl, rfl⟩
      | some old =>
        simp only [lcmStep, onCall, lcm_getWakeupReason]
        split <;> exact ⟨rfl, rfl⟩
    | lcm_getLifecycleState p => cases p <;> exact ⟨rfl, rfl⟩
    | lcm_isCDNOActive p => cases p <;> exact ⟨rfl, rfl⟩
  | notification n =>
    cases n with
    | srvState ev =>
      simp only [lcmStep, onNotification, notifySrvState]
      cases TServiceList.find s.m_services ev.serviceName with
      | none => exact ⟨rfl, rfl⟩
      | some old =>
        simp only
        split_ifs <;> exact ⟨rfl, rfl⟩
    | appStateRequest r =>
      simp only [lcmStep, onNotification, requestAppState]
      split_ifs <;> exact ⟨rfl, rfl⟩
    | rtcAlarmCreated c =>
      simp only [lcmStep, onNotification, onRtcAlarmCreated]
      split_ifs <;> exact ⟨rfl, rfl⟩
    | rtcAlarmExpired a =>
      simp only [lcmStep, onNotification, onRtcAlarmExpired]
      cases findAlarm s.alarms a with
      | none => exact ⟨rfl, rfl⟩
      | some x =>
        simp only
        split_ifs <;> exact ⟨rfl, rfl⟩
    | lifecycleState st => exact ⟨rfl, rfl⟩
    | canNetworkState st => exact ⟨rfl, rfl⟩
    | parkModeState st => exact ⟨rfl, rfl⟩
    | backupBatteryStatus st => exact ⟨rfl, rfl⟩
    | backupBatteryVoltage mv => exact ⟨rfl, rfl⟩
    | backupBatteryTemperature deg => exact ⟨rfl, rfl⟩
    | backupBatterySOH soh => exact ⟨rfl, rfl⟩
    | backupBatteryChargeLevel soc => exact ⟨rfl, rfl⟩
    | wakeupReason r => exact ⟨rfl, rfl⟩
    | cdno active => exact ⟨rfl, rfl⟩

theorem lcmRun_deps (s : CLifecycleMonitor) (inputs : List LcmInput) :
    (lcmRun s inputs).mandatoryServices = s.mandatoryServices
      ∧ (lcmRun s inputs).optionalServices = s.optionalServices := by
  induction inputs generalizing s with
  | nil => exact ⟨rfl, rfl⟩
  | cons i rest ih =>
    have h1 := ih (lcmStep s i).1
    have h2 := lcmStep_deps s i
    exact ⟨h1.1.trans h2.1, h1.2.trans h2.2⟩

/-! ## Claims on the lifecycle monitor -/

/-- C1: for the monitor created by getLCM_Obj with mandatory and optional services, after
any sequence of calls and platform notifications (whatever the system state),
getServiceAvailability returns E_LCM_RET_INVALID_ARG exactly when the name is not a
declared dependency; for a declared dependency it returns E_LCM_RET_SUCCESS and sets
available to true if and only if the tracked state of the service is
E_LCM_SRV_AVAILABLE. -/
theorem getServiceAvailability_declared (p : LcmPlatform)
    (mandatoryServices optionalServices : List String) (inputs : List LcmInput)
    (name : String) (available : Bool) :
    ((getServiceAvailability
        (lcmRun (getLCM_Obj p mandatoryServices optionalServices) inputs) name available).ret
        = ELCM_ErrorType.E_LCM_RET_INVALID_ARG
      ↔ (name ∉ mandatoryServices ∧ name ∉ optionalServices))
    ∧ ((name ∈ mandatoryServices ∨ name ∈ optionalServices) →
        (getServiceAvailability
          (lcmRun (getLCM_Obj p mandatoryServices optionalServices) inputs) name available).ret
          = ELCM_ErrorType.E_LCM_RET_SUCCESS
        ∧ ((getServiceAvailability
            (lcmRun (getLCM_Obj p mandatoryServices optionalServices) inputs) name available).out
            = true
          ↔ TServiceList.find
              (lcmRun (getLCM_Obj p mandatoryServices optionalServices) inputs).m_services name
            = some ELCM_SrvState_t.E_LCM_SRV_AVAILABLE)) := by
  have hr := lcmRun_reachable _ (LcmReachable.init p mandatoryServices optionalServices) inputs
  have hinv := (lcmInv_of_reachable _ hr).1 name
  have hd := lcmRun_deps (getLCM_Obj p mandatoryServices optionalServices) inputs
  rw [hd.1, hd.2] at hinv
  have hm : (getLCM_Obj p mandatoryServices optionalServices).mandatoryServices
      = mandatoryServices := rfl
  have ho : (getLCM_Obj p mandatoryServices optionalServices).optionalServices
      = optionalServices := rfl
  rw [hm, ho] at hinv
  generalize lcmRun (getLCM_Obj p mandatoryServices optionalServices) inputs = s at hinv ⊢
  unfold getServiceAvailability
  cases hf : TServiceList.find s.m_services name with
  | none =>
    rw [hf] at hinv
    simp only [Option.isSome_none, Bool.false_eq_true, false_iff, not_or] at hinv
    refine ⟨⟨fun _ => hinv, fun _ => rfl⟩, ?_⟩
    intro hdecl
    rcases hdecl with h1 | h1
    · exact absurd h1 hinv.1
    · exact absurd h1 hinv.2
  | some st =>
    rw [hf] at hinv
    simp only [Option.isSome_some, true_iff] at hinv
    refine ⟨⟨fun h => (by cases h), fun h => ?_⟩, fun _ => ⟨rfl, ?_⟩⟩
    · rcases hinv with h1 | h1
      · exact absurd h1 h.1
      · exact absurd h1 h.2
    · simp

/-- C1 (witness): with "Diag" mandatory and "Radio" optional, after "Diag" reported
E_LCM_SRV_AVAILABLE, the query for "Diag" succeeds with available = true, and the query
for the undeclared "Audio" fails with E_LCM_RET_INVALID_ARG. -/
theorem getServiceAvailability_declared_witness :
    ((getServiceAvailability (lcmRun (getLCM_Obj examplePlatform ["Diag"] ["Radio"])
        [LcmInput.notification (LcmNotification.srvState
          ⟨ELCM_SrvState_t.E_LCM_SRV_AVAILABLE, "Diag"⟩)]) "Diag" false).ret
        = ELCM_ErrorType.E_LCM_RET_SUCCESS
      ∧ (getServiceAvailability (lcmRun (getLCM_Obj examplePlatform ["Diag"] ["Radio"])
        [LcmInput.notification (LcmNotification.srvState
          ⟨ELCM_SrvState_t.E_LCM_SRV_AVAILABLE, "Diag"⟩)]) "Diag" false).out = true)
    ∧ (getServiceAvailability (lcmRun (getLCM_Obj examplePlatform ["Diag"] ["Radio"])
        [LcmInput.notification (LcmNotification.srvState
          ⟨ELCM_SrvState_t.E_LCM_SRV_AVAILABLE, "Diag"⟩)]) "Audio" false).ret
        = ELCM_ErrorType.E_LCM_RET_INVALID_ARG :=
  ⟨⟨((getServiceAvailability_declared examplePlatform ["Diag"] ["Radio"] _ "Diag" false).2
        (Or.inl (by decide))).1,
      ((getServiceAvailability_declared examplePlatform ["Diag"] ["Radio"] _ "Diag" false).2
        (Or.inl (by decide))).2.mpr (by decide)⟩,
    (getServiceAvailability_declared examplePlatform ["Diag"] ["Radio"] _ "Audio" false).1.mpr
      ⟨by decide, by decide⟩⟩

/-- C2: in every reachable monitor at most 5 alarms are outstanding, and for every
request lcm_createRTCAlarm(cycles, period, index) with 1 <= cycles <= 255 and
5 <= period <= 65535, whatever the index pointer and whether or not the platform meets a
generic failure: the request is not rejected as an invalid argument; it returns
E_LCM_RET_SUCCESS only if fewer than 5 alarms are outstanding, and then exactly one alarm
is added; a request made while 5 alarms are held is rejected with E_LCM_RET_FAILURE,
raises no notification, writes no index and leaves the monitor unchanged, so no alarm is
created. -/
theorem createRTCAlarm_quota (s : CLifecycleMonitor) (hs : LcmReachable s)
    (cycles period : Nat) (index : Option Nat) (genericFailure : Bool)
    (hc1 : 1 ≤ cycles) (hc2 : cycles ≤ 255) (hp1 : 5 ≤ period) (hp2 : period ≤ 65535) :
    s.alarms.length ≤ 5
    ∧ (lcm_createRTCAlarm s cycles period index genericFailure).ret
        ≠ ELCM_ErrorType.E_LCM_RET_INVALID_ARG
    ∧ ((lcm_createRTCAlarm s cycles period index genericFailure).ret
          = ELCM_ErrorType.E_LCM_RET_SUCCESS
        → s.alarms.length < 5
          ∧ (lcm_createRTCAlarm s cycles period index genericFailure).state.alarms.length
              = s.alarms.length + 1)
    ∧ (s.alarms.length = 5 →
        (lcm_createRTCAlarm s cycles period index genericFailure).ret
            = ELCM_ErrorType.E_LCM_RET_FAILURE
        ∧ (lcm_createRTCAlarm s cycles period index genericFailure).state = s
        ∧ (lcm_createRTCAlarm s cycles period index genericFailure).events = []
        ∧ (lcm_createRTCAlarm s cycles period index genericFailure).out = index) := by
  have hinv := lcmInv_of_reachable s hs
  have hrange : ¬ (cycles = 0 ∨ LCM_MAX_RTC_CYCLES < cycles ∨ period < LCM_MIN_RTC_PERIOD
      ∨ LCM_MAX_RTC_PERIOD < period) := by
    simp only [LCM_MAX_RTC_CYCLES, LCM_MIN_RTC_PERIOD, LCM_MAX_RTC_PERIOD]
    omega
  refine ⟨hinv.2.2.2, ?_, ?_, ?_⟩
  · simp only [lcm_createRTCAlarm, if_neg hrange]
    split_ifs <;> exact fun h => ELCM_ErrorType.noConfusion h
  · intro h
    simp only [lcm_createRTCAlarm, if_neg hrange] at h ⊢
    split_ifs at h ⊢ with h0 h1 h2
    simp only [not_or, not_le, LCM_MAX_RTC_ALARMS] at h0
    exact ⟨h0.2.2, by simp⟩
  · intro h5
    have hfull : index = none ∨ genericFailure = true
        ∨ LCM_MAX_RTC_ALARMS ≤ s.alarms.length := by
      right
      right
      simp [LCM_MAX_RTC_ALARMS, h5]
    have hres : lcm_createRTCAlarm s cycles period index genericFailure
        = ⟨ELCM_ErrorType.E_LCM_RET_FAILURE, index, s, []⟩ := by
      simp only [lcm_createRTCAlarm, if_pos hfull]
    rw [hres]
    exact ⟨rfl, rfl, rfl, rfl⟩

/-- C2 (witness): on the example platform the first request, with cycles 1 and period 5,
succeeds; at the reachable monitor that holds five alarms, the sixth such request returns
E_LCM_RET_FAILURE and leaves the monitor, with its five alarms, unchanged. -/
theorem createRTCAlarm_quota_witness :
    (lcm_createRTCAlarm (getLCM_Obj examplePlatform [] []) 1 5 (some 0) false).ret
        = ELCM_ErrorType.E_LCM_RET_SUCCESS
    ∧ (lcmRun (getLCM_Obj examplePlatform [] []) fiveCreates).alarms.length = 5
    ∧ (lcm_createRTCAlarm (lcmRun (getLCM_Obj examplePlatform [] []) fiveCreates) 1 5
        (some 0) false).ret = ELCM_ErrorType.E_LCM_RET_FAILURE
    ∧ (lcm_createRTCAlarm (lcmRun (getLCM_Obj examplePlatform [] []) fiveCreates) 1 5
        (some 0) false).state = lcmRun (getLCM_Obj examplePlatform [] []) fiveCreates :=
  ⟨by decide, by decide,
    ((createRTCAlarm_quota _
        (lcmRun_reachable _ (LcmReachable.init examplePlatform [] []) fiveCreates)
        1 5 (some 0) false (by decide) (by decide) (by decide) (by decide)).2.2.2
      (by decide)).1,
    ((createRTCAlarm_quota _
        (lcmRun_reachable _ (LcmReachable.init examplePlatform [] []) fiveCreates)
        1 5 (some 0) false (by decide) (by decide) (by decide) (by decide)).2.2.2
      (by decide)).2.1⟩

/-- C3: in every reachable monitor, for every alarm that carries a handle, has expired and
has not been acknowledged, lcm_deleteRTCAlarm on that handle returns E_LCM_RET_NO_PERM,
raises no notification and leaves the monitor unchanged, so the alarm is still held and
still expired. -/
theorem deleteRTCAlarm_expired_no_perm (s : CLifecycleMonitor) (hs : LcmReachable s)
    (a : RtcAlarm) (h : lcm_RtcAlarmHandle_t) (ha : a ∈ s.alarms)
    (hh : a.alarmHandle = some h) (he : a.expired = true) :
    (lcm_deleteRTCAlarm s h).ret = ELCM_ErrorType.E_LCM_RET_NO_PERM
    ∧ (lcm_deleteRTCAlarm s h).state = s
    ∧ (lcm_deleteRTCAlarm s h).events = []
    ∧ a ∈ (lcm_deleteRTCAlarm s h).state.alarms := by
  have hinv := lcmInv_of_reachable s hs
  have hreg : s.registered = true := hinv.2.1 (List.ne_nil_of_mem ha)
  have hf := findAlarm_of_mem s.alarms h a hinv.2.2.1 ha hh
  have hres : lcm_deleteRTCAlarm s h = ⟨ELCM_ErrorType.E_LCM_RET_NO_PERM, (), s, []⟩ := by
    simp [lcm_deleteRTCAlarm, hreg, hf, he]
  rw [hres]
  exact ⟨rfl, rfl, rfl, ha⟩

/-- C3 (witness): the alarm with handle 7 that was requested, created and has expired
cannot be deleted. -/
theorem deleteRTCAlarm_expired_no_perm_witness :
    (lcm_deleteRTCAlarm (lcmRun (getLCM_Obj examplePlatform [] []) expiredInputs) 7).ret
        = ELCM_ErrorType.E_LCM_RET_NO_PERM
    ∧ (⟨0, some 7, 0, 5, true⟩ : RtcAlarm)
        ∈ (lcm_deleteRTCAlarm
            (lcmRun (getLCM_Obj examplePlatform [] []) expiredInputs) 7).state.alarms :=
  ⟨(deleteRTCAlarm_expired_no_perm _
      (lcmRun_reachable _ (LcmReachable.init examplePlatform [] []) expiredInputs)
      ⟨0, some 7, 0, 5, true⟩ 7 (by decide) rfl rfl).1,
    (deleteRTCAlarm_expired_no_perm _
      (lcmRun_reachable _ (LcmReachable.init examplePlatform [] []) expiredInputs)
      ⟨0, some 7, 0, 5, true⟩ 7 (by decide) rfl rfl).2.2.2⟩

/-- C4: in every reachable monitor, for every alarm that carries a handle and has not
expired, lcm_acknowledgeRTCAlarm on that handle returns E_LCM_RET_NO_PERM, raises no
notification and leaves the monitor, and with it the alarm, unchanged. -/
theorem acknowledgeRTCAlarm_pending_no_perm (s : CLifecycleMonitor) (hs : LcmReachable s)
    (a : RtcAlarm) (h : lcm_RtcAlarmHandle_t) (ha : a ∈ s.alarms)
    (hh : a.alarmHandle = some h) (he : a.expired = false) :
    (lcm_acknowledgeRTCAlarm s h).ret = ELCM_ErrorType.E_LCM_RET_NO_PERM
    ∧ (lcm_acknowledgeRTCAlarm s h).state = s
    ∧ (lcm_acknowledgeRTCAlarm s h).events = []
    ∧ a ∈ (lcm_acknowledgeRTCAlarm s h).state.alarms := by
  have hinv := lcmInv_of_reachable s hs
  have hreg : s.registered = true := hinv.2.1 (List.ne_nil_of_mem ha)
  have hf := findAlarm_of_mem s.alarms h a hinv.2.2.1 ha hh
  have hres : lcm_acknowledgeRTCAlarm s h = ⟨ELCM_ErrorType.E_LCM_RET_NO_PERM, (), s, []⟩ := by
    simp [lcm_acknowledgeRTCAlarm, hreg, hf, he]
  rw [hres]
  exact ⟨rfl, rfl, rfl, ha⟩

/-- C4 (witness): the alarm with handle 7 that was requested and created but has not
expired cannot be acknowledged. -/
theorem acknowledgeRTCAlarm_pending_no_perm_witness :
    (lcm_acknowledgeRTCAlarm (lcmRun (getLCM_Obj examplePlatform [] []) createdInputs) 7).ret
        = ELCM_ErrorType.E_LCM_RET_NO_PERM
    ∧ (lcm_acknowledgeRTCAlarm (lcmRun (getLCM_Obj examplePlatform [] []) createdInputs) 7).state
        = lcmRun (getLCM_Obj examplePlatform [] []) createdInputs :=
  ⟨(acknowledgeRTCAlarm_pending_no_perm _
      (lcmRun_reachable _ (LcmReachable.init examplePlatform [] []) createdInputs)
      ⟨0, some 7, 1, 5, false⟩ 7 (by decide) rfl rfl).1,
    (acknowledgeRTCAlarm_pending_no_perm _
      (lcmRun_reachable _ (LcmReachable.init examplePlatform [] []) createdInputs)
      ⟨0, some 7, 1, 5, false⟩ 7 (by decide) rfl rfl).2.1⟩

/-- C5: given a NULL output pointer, each of lcm_getCANState, lcm_getParkModeState,
lcm_getBackupBatteryStatus, lcm_getBackupBatteryVoltage, lcm_getBackupBatteryTemperature,
lcm_getBackupBatterySOH, lcm_getBackupBatteryChargeLevel, lcm_getWakeupReason,
lcm_getLifecycleState and lcm_isCDNOActive returns E_LCM_RET_FAILURE; in every one of
these cases the monitor is unchanged and no notification is raised. -/
theorem getters_null_pointer (s : CLifecycleMonitor) :
    ((lcm_getCANState s none).ret = ELCM_ErrorType.E_LCM_RET_FAILURE
      ∧ (lcm_getCANState s none).state = s ∧ (lcm_getCANState s none).events = [])
    ∧ ((lcm_getParkModeState s none).ret = ELCM_ErrorType.E_LCM_RET_FAILURE
      ∧ (lcm_getParkModeState s none).state = s ∧ (lcm_getParkModeState s none).events = [])
    ∧ ((lcm_getBackupBatteryStatus s none).ret = ELCM_ErrorType.E_LCM_RET_FAILURE
      ∧ (lcm_getBackupBatteryStatus s none).state = s
      ∧ (lcm_getBackupBatteryStatus s none).events = [])
    ∧ ((lcm_getBackupBatteryVoltage s none).ret = ELCM_ErrorType.E_LCM_RET_FAILURE
      ∧ (lcm_getBackupBatteryVoltage s none).state = s
      ∧ (lcm_getBackupBatteryVoltage s none).events = [])
    ∧ ((lcm_getBackupBatteryTemperature s none).ret = ELCM_ErrorType.E_LCM_RET_FAILURE
      ∧ (lcm_getBackupBatteryTemperature s none).state = s
      ∧ (lcm_getBackupBatteryTemperature s none).events = [])
    ∧ ((lcm_getBackupBatterySOH s none).ret = ELCM_ErrorType.E_LCM_RET_FAILURE
      ∧ (lcm_getBackupBatterySOH s none).state = s
      ∧ (lcm_getBackupBatterySOH s none).events = [])
    ∧ ((lcm_getBackupBatteryChargeLevel s none).ret = ELCM_ErrorType.E_LCM_RET_FAILURE
      ∧ (lcm_getBackupBatteryChargeLevel s none).state = s
      ∧ (lcm_getBackupBatteryChargeLevel s none).events = [])
    ∧ ((lcm_getWakeupReason s none).ret = ELCM_ErrorType.E_LCM_RET_FAILURE
      ∧ (lcm_getWakeupReason s none).state = s ∧ (lcm_getWakeupReason s none).events = [])
    ∧ ((lcm_getLifecycleState s none).ret = ELCM_ErrorType.E_LCM_RET_FAILURE
      ∧ (lcm_getLifecycleState s none).state = s
      ∧ (lcm_getLifecycleState s none).events = [])
    ∧ ((lcm_isCDNOActive s none).ret = ELCM_ErrorType.E_LCM_RET_FAILURE
      ∧ (lcm_isCDNOActive s none).state = s ∧ (lcm_isCDNOActive s none).events = []) :=
  ⟨⟨rfl, rfl, rfl⟩, ⟨rfl, rfl, rfl⟩, ⟨rfl, rfl, rfl⟩, ⟨rfl, rfl, rfl⟩, ⟨rfl, rfl, rfl⟩,
    ⟨rfl, rfl, rfl⟩, ⟨rfl, rfl, rfl⟩, ⟨rfl, rfl, rfl⟩, ⟨rfl, rfl, rfl⟩, ⟨rfl, rfl, rfl⟩⟩

/-! ### Readiness -/

theorem allMandatoryAvailable_iff (s : CLifecycleMonitor) :
    allMandatoryAvailable s = true
      ↔ ∀ n ∈ s.mandatoryServices,
          TServiceList.find s.m_services n = some ELCM_SrvState_t.E_LCM_SRV_AVAILABLE := by
  unfold allMandatoryAvailable
  simp [List.all_eq_true]

theorem allMandatoryAvailable_assign_other (s : CLifecycleMonitor) (n : String)
    (st : ELCM_SrvState_t) (a : SLCM_AppState_t) (hn : n ∉ s.mandatoryServices) :
    allMandatoryAvailable
        { s with m_services := TServiceList.assign s.m_services n st, m_appState := a }
      = allMandatoryAvailable s := by
  rw [Bool.eq_iff_iff, allMandatoryAvailable_iff, allMandatoryAvailable_iff]
  constructor
  · intro h k hk
    have hkn : k ≠ n := fun e => hn (e ▸ hk)
    have := h k hk
    simpa only [find_assign, if_neg hkn] using this
  · intro h k hk
    have hkn : k ≠ n := fun e => hn (e ▸ hk)
    simpa only [find_assign, if_neg hkn] using h k hk

/-- An application-state notification raised by a step with reason SERVICES_READY is
raised in a state where all mandatory services are available. -/
theorem ready_event_sound (s : CLifecycleMonitor) (i : LcmInput) (a : SLCM_AppState_t)
    (hmem : LcmEvent.AppStateEvent a ∈ (lcmStep s i).2)
    (hr : a.reason = ELCM_Reason.E_LCM_REASON_SERVICES_READY) :
    allMandatoryAvailable (lcmStep s i).1 = true := by
  cases i with
  | call c =>
    exfalso
    cases c with
    | ackAppState st => simp [lcmStep, onCall, ackAppState] at hmem
    | getServiceAvailability n av =>
      simp only [lcmStep, onCall, getServiceAvailability] at hmem
      split at hmem <;> simp at hmem
    | lcm_createRTCAlarm cy pe idx g =>
      simp only [lcmStep, onCall, lcm_createRTCAlarm] at hmem
      split_ifs at hmem <;> simp at hmem
    | lcm_deleteRTCAlarm h =>
      simp only [lcmStep, onCall, lcm_deleteRTCAlarm] at hmem
      split_ifs at hmem
      · simp at hmem
      · cases hf : findAlarm s.alarms h with
        | none => simp [hf] at hmem
        | some x =>
          simp only [hf] at hmem
          split_ifs at hmem <;> simp at hmem
    | lcm_acknowledgeRTCAlarm h =>
      simp only [lcmStep, onCall, lcm_acknowledgeRTCAlarm] at hmem
      split_ifs at hmem
      · simp at hmem
      · cases hf : findAlarm s.alarms h with
        | none => simp [hf] at hmem
        | some x =>
          simp only [hf] at hmem
          split_ifs at hmem <;> simp at hmem
    | lcm_getCANState p => cases p <;> simp [lcmStep, onCall, lcm_getCANState] at hmem
    | lcm_getParkModeState p =>
      cases p <;> simp [lcmStep, onCall, lcm_getParkModeState] at hmem
    | lcm_getBackupBatteryStatus p =>
      cases p <;> simp [lcmStep, onCall, lcm_getBackupBatteryStatus] at hmem
    | lcm_getBackupBatteryVoltage p =>
      cases p <;> simp [lcmStep, onCall, lcm_getBackupBatteryVoltage] at hmem
    | lcm_getBackupBatteryTemperature p =>
      cases p <;> simp [lcmStep, onCall, lcm_getBackupBatteryTemperature] at hmem
    | lcm_getBackupBatterySOH p =>
      cases p <;> simp [lcmStep, onCall, lcm_getBackupBatterySOH] at hmem
    | lcm_getBackupBatteryChargeLevel p =>
      cases p <;> simp [lcmStep, onCall, lcm_getBackupBatteryChargeLevel] at hmem
    | lcm_getWakeupReason p =>
      cases p with
      | none => simp [lcmStep, onCall, lcm_getWakeupReason] at hmem
      | some old =>
        simp only [lcmStep, onCall, lcm_getWakeupReason] at hmem
        split at hmem <;> simp at hmem
    | lcm_getLifecycleState p =>
      cases p <;> simp [lcmStep, onCall, lcm_getLifecycleState] at hmem
    | lcm_isCDNOActive p => cases p <;> simp [lcmStep, onCall, lcm_isCDNOActive] at hmem
  | notification n =>
    cases n with
    | srvState ev =>
      simp only [lcmStep, onNotification, notifySrvState] at hmem ⊢
      cases hf : TServiceList.find s.m_services ev.serviceName with
      | none => simp [hf] at hmem
      | some old =>
        simp only [hf] at hmem ⊢
        split_ifs at hmem ⊢ with h1 h2 h3 h4 h5
        · exact h2.2
        · simp only [List.mem_singleton, LcmEvent.AppStateEvent.injEq] at hmem
          rw [hmem] at hr
          cases hr
        · simp at hmem
        · simp at hmem
        · simp at hmem
        · simp at hmem
    | appStateRequest r =>
      exfalso
      simp only [lcmStep, onNotification, requestAppState] at hmem
      split_ifs at hmem with h1
      · simp only [List.mem_singleton, LcmEvent.AppStateEvent.injEq] at hmem
        rw [hmem] at hr
        simp only at hr
        rw [hr] at h1
        simp at h1
      · simp at hmem
    | rtcAlarmCreated c =>
      exfalso
      simp only [lcmStep, onNotification, onRtcAlarmCreated] at hmem
      split_ifs at hmem <;> simp at hmem
    | rtcAlarmExpired h =>
      exfalso
      simp only [lcmStep, onNotification, onRtcAlarmExpired] at hmem
      cases hf : findAlarm s.alarms h with
      | none => simp [hf] at hmem
      | some x =>
        simp only [hf] at hmem
        split_ifs at hmem <;> simp at hmem
    | lifecycleState st => simp [lcmStep, onNotification] at hmem
    | canNetworkState st => simp [lcmStep, onNotification] at hmem
    | parkModeState st => simp [lcmStep, onNotification] at hmem
    | backupBatteryStatus st => simp [lcmStep, onNotification] at hmem
    | backupBatteryVoltage mv => simp [lcmStep, onNotification] at hmem
    | backupBatteryTemperature deg => simp [lcmStep, onNotification] at hmem
    | backupBatterySOH soh => simp [lcmStep, onNotification] at hmem
    | backupBatteryChargeLevel soc => simp [lcmStep, onNotification] at hmem
    | wakeupReason r => simp [lcmStep, onNotification] at hmem
    | cdno active => simp [lcmStep, onNotification] at hmem

/-- C6: for the monitor created with mandatory and optional services, after any inputs:
(1) whenever a step raises an application-state notification with reason
E_LCM_REASON_SERVICES_READY, every mandatory service is E_LCM_SRV_AVAILABLE in the state
the step leaves; (2) when a service that is declared optional (and is not mandatory)
reports a state other than available, the notifications raised are only
OptServiceUnavailable with that service's name (exactly one if the service was tracked as
available), readiness is unchanged and the requested application state is unchanged, so
no SERVICES_NOT_READY transition takes place. -/
theorem servicesReady_only_mandatory (p : LcmPlatform)
    (mandatoryServices optionalServices : List String) (inputs : List LcmInput) :
    (∀ (i : LcmInput) (a : SLCM_AppState_t),
        LcmEvent.AppStateEvent a
          ∈ (lcmStep (lcmRun (getLCM_Obj p mandatoryServices optionalServices) inputs) i).2 →
        a.reason = ELCM_Reason.E_LCM_REASON_SERVICES_READY →
        ∀ n ∈ mandatoryServices,
          TServiceList.find
            (lcmStep (lcmRun (getLCM_Obj p mandatoryServices optionalServices) inputs)
              i).1.m_services n
            = some ELCM_SrvState_t.E_LCM_SRV_AVAILABLE)
    ∧ (∀ (name : String) (st : ELCM_SrvState_t),
        name ∈ optionalServices → name ∉ mandatoryServices →
        st ≠ ELCM_SrvState_t.E_LCM_SRV_AVAILABLE →
        (∀ e ∈ (notifySrvState
              (lcmRun (getLCM_Obj p mandatoryServices optionalServices) inputs) ⟨st, name⟩).2,
            e = LcmEvent.OptServiceUnavailable name)
        ∧ (TServiceList.find
              (lcmRun (getLCM_Obj p mandatoryServices optionalServices) inputs).m_services name
              = some ELCM_SrvState_t.E_LCM_SRV_AVAILABLE →
            (notifySrvState
              (lcmRun (getLCM_Obj p mandatoryServices optionalServices) inputs) ⟨st, name⟩).2
              = [LcmEvent.OptServiceUnavailable name])
        ∧ allMandatoryAvailable (notifySrvState
              (lcmRun (getLCM_Obj p mandatoryServices optionalServices) inputs) ⟨st, name⟩).1
            = allMandatoryAvailable
                (lcmRun (getLCM_Obj p mandatoryServices optionalServices) inputs)
        ∧ (notifySrvState
              (lcmRun (getLCM_Obj p mandatoryServices optionalServices) inputs)
              ⟨st, name⟩).1.m_appState
            = (lcmRun (getLCM_Obj p mandatoryServices optionalServices) inputs).m_appState) := by
  have hd := lcmRun_deps (getLCM_Obj p mandatoryServices optionalServices) inputs
  have hm : (lcmRun (getLCM_Obj p mandatoryServices optionalServices) inputs).mandatoryServices
      = mandatoryServices := hd.1
  generalize lcmRun (getLCM_Obj p mandatoryServices optionalServices) inputs = s at hm ⊢
  constructor
  · intro i a hmem hr n hn
    have h1 := ready_event_sound s i a hmem hr
    rw [allMandatoryAvailable_iff, (lcmStep_deps s i).1, hm] at h1
    exact h1 n hn
  · intro name st _ hnm hst
    rw [← hm] at hnm
    unfold notifySrvState
    cases hf : TServiceList.find s.m_services name with
    | none =>
      simp [hf]
    | some old =>
      have hfr := allMandatoryAvailable_assign_other s name st s.m_appState hnm
      simp only [hf, if_neg hnm]
      rw [if_neg (fun h => hst h.2)]
      by_cases hold : old = ELCM_SrvState_t.E_LCM_SRV_AVAILABLE
      · rw [if_pos ⟨hold, hst⟩]
        refine ⟨fun e he => List.mem_singleton.mp he, fun _ => rfl, hfr, rfl⟩
      · rw [if_neg (fun h => hold h.1)]
        refine ⟨fun e he => (by cases he), fun h => ?_, hfr, rfl⟩
        exact absurd (Option.some.inj h) hold

/-- C6 (witness): with "Diag" mandatory and "Radio" optional, the step in which "Diag"
reports available raises (Normal, ServicesReady) and leaves "Diag" available; once both
are available, "Radio" reporting unavailable raises exactly
OptServiceUnavailable "Radio" and leaves the requested state (Normal, ServicesReady). -/
theorem servicesReady_only_mandatory_witness :
    TServiceList.find
        (lcmStep (lcmRun (getLCM_Obj examplePlatform ["Diag"] ["Radio"]) [])
          (srvNotification "Diag" ELCM_SrvState_t.E_LCM_SRV_AVAILABLE)).1.m_services "Diag"
        = some ELCM_SrvState_t.E_LCM_SRV_AVAILABLE
    ∧ (notifySrvState (lcmRun (getLCM_Obj examplePlatform ["Diag"] ["Radio"]) diagRadioAvailable)
        ⟨ELCM_SrvState_t.E_LCM_SRV_UNAVAILABLE, "Radio"⟩).2
        = [LcmEvent.OptServiceUnavailable "Radio"]
    ∧ (notifySrvState (lcmRun (getLCM_Obj examplePlatform ["Diag"] ["Radio"]) diagRadioAvailable)
        ⟨ELCM_SrvState_t.E_LCM_SRV_UNAVAILABLE, "Radio"⟩).1.m_appState
        = ⟨ELCM_AppState.E_LCM_AppState_NORMAL, ELCM_Reason.E_LCM_REASON_SERVICES_READY⟩ :=
  ⟨(servicesReady_only_mandatory examplePlatform ["Diag"] ["Radio"] []).1
      (srvNotification "Diag" ELCM_SrvState_t.E_LCM_SRV_AVAILABLE)
      ⟨ELCM_AppState.E_LCM_AppState_NORMAL, ELCM_Reason.E_LCM_REASON_SERVICES_READY⟩
      (by decide) rfl "Diag" (by decide),
    ((servicesReady_only_mandatory examplePlatform ["Diag"] ["Radio"] diagRadioAvailable).2
      "Radio" ELCM_SrvState_t.E_LCM_SRV_UNAVAILABLE (by decide) (by decide) (by decide)).2.1
      (by decide),
    ((servicesReady_only_mandatory examplePlatform ["Diag"] ["Radio"] diagRadioAvailable).2
      "Radio" ELCM_SrvState_t.E_LCM_SRV_UNAVAILABLE (by decide) (by decide)
      (by decide)).2.2.2.trans (by decide)⟩

end AppFwk
end Stla

namespace Stla
namespace Connectivity

/-! ## Lemmas on the slot table -/

theorem getD_set (l : List (Option String)) (i j : Nat) (v : Option String) :
    (l.set i v).getD j none = if i = j ∧ j < l.length then v else l.getD j none := by
  simp only [List.getD_eq_getElem?_getD, List.getElem?_set]
  by_cases h : i = j
  · subst h
    by_cases h2 : i < l.length
    · simp [h2]
    · simp [h2, List.getElem?_eq_none (not_lt.mp h2)]
  · simp [h]

theorem getD_replicate_none (n j : Nat) :
    (List.replicate n (none : Option String)).getD j none = none := by
  simp only [List.getD_eq_getElem?_getD, List.getElem?_replicate]
  split <;> rfl

theorem mqttRun_reachable (b : MqttBroker) (s : CMqttConfHandler) (h : MqttReachable b s)
    (calls : List MqttCall) : MqttReachable b (mqttRun b s calls) := by
  induction calls generalizing s with
  | nil => exact h
  | cons c rest ih => exact ih _ (MqttReachable.step s c h)

theorem mqttStep_length (b : MqttBroker) (s : CMqttConfHandler) (c : MqttCall)
    (h : s.items.length = MAX_CONF_ITEM) : (mqttStep b s c).items.length = MAX_CONF_ITEM := by
  cases c with
  | getAdkMode => exact h
  | setAdkMode m =>
    simp only [mqttStep, setAdkMode]
    split
    · exact h
    · simp
  | getIndexList => exact h
  | getItem i =>
    simp only [mqttStep, getItem]
    split_ifs
    · exact h
    · split <;> exact h
  | setItem i cfg =>
    simp only [mqttStep, setItem]
    split_ifs
    · exact h
    · exact h
    · exact h
    · simpa using h
  | deleteItem i =>
    simp only [mqttStep, deleteItem]
    split_ifs
    · exact h
    · split
      · exact h
      · simpa using h

/-- Every reachable handler has exactly MAX_CONF_ITEM slots. -/
theorem mqttReachable_length (b : MqttBroker) (s : CMqttConfHandler) (h : MqttReachable b s) :
    s.items.length = MAX_CONF_ITEM := by
  induction h with
  | init m => simp [getMqttConfHandler]
  | step s c _ ih => exact mqttStep_length b s c ih

/-- A call that leaves the item at an index alone does not change that slot. -/
theorem slot_mqttStep_of_leaves (b : MqttBroker) (s : CMqttConfHandler) (c : MqttCall)
    (index : Nat) (h : leavesItem index s c = true) :
    slot (mqttStep b s c) index = slot s index := by
  cases c with
  | getAdkMode => rfl
  | setAdkMode m =>
    simp only [leavesItem, decide_eq_true_eq] at h
    simp only [mqttStep, setAdkMode, if_pos h]
  | getIndexList => rfl
  | getItem i =>
    simp only [mqttStep, getItem]
    split_ifs
    · rfl
    · split <;> rfl
  | setItem i cfg =>
    simp only [leavesItem, decide_eq_true_eq] at h
    simp only [mqttStep, setItem]
    split_ifs
    · rfl
    · rfl
    · rfl
    · simp only [slot, getD_set]
      rw [if_neg (fun hc => h hc.1)]
  | deleteItem i =>
    simp only [leavesItem, decide_eq_true_eq] at h
    simp only [mqttStep, deleteItem]
    split_ifs
    · rfl
    · split
      · rfl
      · simp only [slot, getD_set]
        rw [if_neg (fun hc => h hc.1)]

theorem slot_mqttRun_of_leaves (b : MqttBroker) (index : Nat) (calls : List MqttCall)
    (s : CMqttConfHandler) (h : leavesItemAll b index s calls = true) :
    slot (mqttRun b s calls) index = slot s index := by
  induction calls generalizing s with
  | nil => rfl
  | cons c rest ih =>
    simp only [leavesItemAll, Bool.and_eq_true] at h
    have h1 := ih (mqttStep b s c) h.2
    have h2 := slot_mqttStep_of_leaves b s c index h.1
    exact h1.trans h2

theorem getItem_of_slot (s : CMqttConfHandler) (index : Nat) (cfg out : String)
    (hi : index < MAX_CONF_ITEM) (hslot : slot s index = some cfg) :
    getItem s index out = ⟨mqtt_conf_err_code_t.OK, cfg, s⟩ := by
  unfold getItem
  rw [if_neg (not_le.mpr hi)]
  simp only [hslot]

theorem getItem_ok_iff (s : CMqttConfHandler) (index : Nat) (out : String) :
    (getItem s index out).ret = mqtt_conf_err_code_t.OK
      ↔ (index < MAX_CONF_ITEM ∧ (slot s index).isSome = true) := by
  unfold getItem
  by_cases hi : MAX_CONF_ITEM ≤ index
  · rw [if_pos hi]
    simp only [reduceCtorEq, false_iff, not_and]
    intro h
    exact absurd hi (not_le.mpr h)
  · rw [if_neg hi]
    cases hs : slot s index with
    | none => simp
    | some cfg => simp [not_le.mp hi]

/-! ## Claims on the MQTT configuration handler -/

/-- C7: for every reachable handler, index and configuration string: if setItem returns
OK (which it only does for an index in 0..9) and the calls made afterwards contain no
setItem or deleteItem on that index and no setAdkMode that changes the mode, then getItem
on that index returns OK with exactly the configuration that was set. -/
theorem setItem_getItem_roundtrip (b : MqttBroker) (s : CMqttConfHandler)
    (hs : MqttReachable b s) (index : Nat) (cfg : String) (calls : List MqttCall)
    (out : String)
    (hset : (setItem b s index cfg).ret = mqtt_conf_err_code_t.OK)
    (hleave : leavesItemAll b index (setItem b s index cfg).state calls = true) :
    (getItem (mqttRun b (setItem b s index cfg).state calls) index out).ret
        = mqtt_conf_err_code_t.OK
    ∧ (getItem (mqttRun b (setItem b s index cfg).state calls) index out).out = cfg := by
  have hlen := mqttReachable_length b s hs
  have hrun := slot_mqttRun_of_leaves b index calls _ hleave
  have hi : index < MAX_CONF_ITEM := by
    by_contra hc
    simp [setItem, not_lt.mp hc] at hset
  have hslot : slot (setItem b s index cfg).state index = some cfg := by
    unfold setItem at hset ⊢
    rw [if_neg (not_le.mpr hi)] at hset ⊢
    split_ifs at hset ⊢ with h1 h2
    · exact absurd hset h2
    · simp only [slot, getD_set]
      rw [if_pos (And.intro trivial (hlen.symm ▸ hi))]
  rw [getItem_of_slot _ index cfg out hi (hrun.trans hslot)]
  exact ⟨rfl, rfl⟩

/-- C7 (witness): item 3 is set to "x=1" on a fresh handler, then item 4 is set and
deleted and the mode is set to the mode it already has; getItem 3 still returns "x=1". -/
theorem setItem_getItem_roundtrip_witness :
    (getItem (mqttRun exampleBroker
        (setItem exampleBroker (getMqttConfHandler true) 3 "x=1").state otherCalls) 3 "").ret
        = mqtt_conf_err_code_t.OK
    ∧ (getItem (mqttRun exampleBroker
        (setItem exampleBroker (getMqttConfHandler true) 3 "x=1").state otherCalls) 3 "").out
        = "x=1" :=
  setItem_getItem_roundtrip exampleBroker (getMqttConfHandler true)
    (MqttReachable.init true) 3 "x=1" otherCalls "" (by decide) (by decide)

/-- C8: setAdkMode resets the configuration exactly when the mode changes.  When the new
mode differs from the current one, the mode is changed, getIndexList returns the empty
list and no getItem returns OK; when it equals the current mode, the handler (every item,
and with them the index list) is unchanged. -/
theorem setAdkMode_resets_iff_changed (s : CMqttConfHandler) (m : Bool) :
    (m ≠ s.adk_mode →
        (setAdkMode s m).ret = mqtt_conf_err_code_t.OK
        ∧ (setAdkMode s m).state.adk_mode = m
        ∧ (∀ l, (getIndexList (setAdkMode s m).state l).out = [])
        ∧ (∀ i out, (getItem (setAdkMode s m).state i out).ret ≠ mqtt_conf_err_code_t.OK))
    ∧ (m = s.adk_mode →
        (setAdkMode s m).ret = mqtt_conf_err_code_t.OK
        ∧ (setAdkMode s m).state = s
        ∧ (∀ l, (getIndexList (setAdkMode s m).state l).out = (getIndexList s l).out)
        ∧ (∀ i out, (getItem (setAdkMode s m).state i out).ret = (getItem s i out).ret
            ∧ (getItem (setAdkMode s m).state i out).out = (getItem s i out).out)) := by
  constructor
  · intro h
    have hst : (setAdkMode s m).state
        = { adk_mode := m, items := List.replicate MAX_CONF_ITEM none } := by
      simp only [setAdkMode, if_neg h]
    have hslot : ∀ i, slot (setAdkMode s m).state i = none := by
      intro i
      rw [hst]
      exact getD_replicate_none MAX_CONF_ITEM i
    refine ⟨?_, ?_, ?_, ?_⟩
    · simp only [setAdkMode, if_neg h]
    · rw [hst]
    · intro l
      simp only [getIndexList, List.filter_eq_nil_iff]
      intro i _
      rw [hslot i]
      simp
    · intro i out hok
      have := ((getItem_ok_iff _ i out).mp hok).2
      rw [hslot i] at this
      simp at this
  · intro h
    have hst : (setAdkMode s m).state = s := by
      simp only [setAdkMode, if_pos h]
    refine ⟨?_, hst, ?_, ?_⟩
    · simp only [setAdkMode, if_pos h]
    · intro l
      rw [hst]
    · intro i out
      rw [hst]
      exact ⟨rfl, rfl⟩

/-- C8 (witness): on the handler in ADK mode that holds items 2 and 7, setAdkMode false
empties the index list, and setAdkMode true leaves the index list [2, 7]. -/
theorem setAdkMode_resets_iff_changed_witness :
    (getIndexList (setAdkMode exampleHandler false).state []).out = []
    ∧ (getIndexList (setAdkMode exampleHandler true).state []).out = [2, 7] :=
  ⟨((setAdkMode_resets_iff_changed exampleHandler false).1 (by decide)).2.2.1 [],
    (((setAdkMode_resets_iff_changed exampleHandler true).2 (by decide)).2.2.1 []).trans
      (by decide)⟩

/-- C9: whenever setItem does not return OK, the handler is exactly what it was before
the call, so every getItem result and the getIndexList result are unchanged. -/
theorem setItem_failure_keeps_configuration (b : MqttBroker) (s : CMqttConfHandler)
    (index : Nat) (config : String)
    (hfail : (setItem b s index config).ret ≠ mqtt_conf_err_code_t.OK) :
    (setItem b s index config).state = s
    ∧ (∀ i out, (getItem (setItem b s index config).state i out).ret = (getItem s i out).ret
        ∧ (getItem (setItem b s index config).state i out).out = (getItem s i out).out)
    ∧ (∀ l, (getIndexList (setItem b s index config).state l).out
        = (getIndexList s l).out) := by
  have hst : (setItem b s index config).state = s := by
    unfold setItem at hfail ⊢
    split_ifs at hfail ⊢
    · rfl
    · rfl
    · rfl
    · exact absurd rfl hfail
  refine ⟨hst, ?_, ?_⟩
  · intro i out
    rw [hst]
    exact ⟨rfl, rfl⟩
  · intro l
    rw [hst]

/-- C9 (witness): on the handler that holds items 2 and 7 (9 bytes in total), the broker
refuses "bad" for item 2 and a 12-byte string for item 3 exceeds the 16-byte maximum; in
both cases the handler is unchanged. -/
theorem setItem_failure_keeps_configuration_witness :
    (setItem exampleBroker exampleHandler 2 "bad").ret = mqtt_conf_err_code_t.UNKNOWN_ERROR
    ∧ (setItem exampleBroker exampleHandler 2 "bad").state = exampleHandler
    ∧ (setItem exampleBroker exampleHandler 3 "0123456789ab").ret
        = mqtt_conf_err_code_t.OUT_OF_MEMORY
    ∧ (setItem exampleBroker exampleHandler 3 "0123456789ab").state = exampleHandler :=
  ⟨by decide,
    (setItem_failure_keeps_configuration exampleBroker exampleHandler 2 "bad" (by decide)).1,
    by decide,
    (setItem_failure_keeps_configuration exampleBroker exampleHandler 3 "0123456789ab"
      (by decide)).1⟩

/-- C10: in every reachable handler, the list returned by getIndexList is sorted in
strictly increasing order, has at most MAX_CONF_ITEM = 10 entries, each entry is at most
9, and an index is in the list exactly when getItem on it returns OK, that is when an
item is set at it. -/
theorem getIndexList_sorted_exact (b : MqttBroker) (s : CMqttConfHandler)
    (hs : MqttReachable b s) (l : List Nat) :
    (getIndexList s l).ret = mqtt_conf_err_code_t.OK
    ∧ List.Sorted (fun x y => x < y) (getIndexList s l).out
    ∧ (getIndexList s l).out.length ≤ 10
    ∧ (∀ i ∈ (getIndexList s l).out, i ≤ 9)
    ∧ (∀ i out, i ∈ (getIndexList s l).out
        ↔ (getItem s i out).ret = mqtt_conf_err_code_t.OK) := by
  have hlen := mqttReachable_length b s hs
  simp only [MAX_CONF_ITEM] at hlen
  refine ⟨rfl, ?_, ?_, ?_, ?_⟩
  · exact List.Sorted.filter _ (List.sorted_lt_range _)
  · simp only [getIndexList]
    calc (List.filter (fun i => (slot s i).isSome) (List.range s.items.length)).length
        ≤ (List.range s.items.length).length := List.length_filter_le _ _
      _ = 10 := by rw [List.length_range, hlen]
  · intro i hi
    simp only [getIndexList, List.mem_filter, List.mem_range] at hi
    omega
  · intro i out
    rw [getItem_ok_iff]
    simp only [getIndexList, List.mem_filter, List.mem_range, MAX_CONF_ITEM, hlen]

/-- C10 (witness): after items 7 and 2 were set in that order, getIndexList returns
[2, 7], which is sorted. -/
theorem getIndexList_sorted_exact_witness :
    (getIndexList exampleHandler []).out = [2, 7]
    ∧ List.Sorted (fun x y => x < y) (getIndexList exampleHandler []).out :=
  ⟨by decide,
    (getIndexList_sorted_exact exampleBroker exampleHandler
      (mqttRun_reachable exampleBroker _ (MqttReachable.init true) exampleCalls) []).2.1⟩

end Connectivity
end Stla

/-! ## Claims on the persistence service -/

namespace Stla
namespace Persistence

theorem findKey_append (l1 l2 : List PclEntry) (ns k : Option String) :
    findKey (l1 ++ l2) ns k = (findKey l1 ns k).or (findKey l2 ns k) := by
  unfold findKey
  rw [List.find?_append]

theorem findKey_filter_not (entries : List PclEntry) (ns k : Option String) :
    findKey (entries.filter (fun x => !x.isKey ns k)) ns k = none := by
  unfold findKey
  rw [List.find?_eq_none]
  intro x hx
  have := (List.mem_filter.mp hx).2
  simpa using this

/-- Removing entries selected by any test keeps an absent key absent. -/
theorem findKey_filter_none (entries : List PclEntry) (p : PclEntry → Bool)
    (ns k : Option String) (h : findKey entries ns k = none) :
    findKey (entries.filter p) ns k = none := by
  unfold findKey at h ⊢
  rw [List.find?_eq_none] at h ⊢
  intro x hx
  exact h x (List.mem_filter.mp hx).1

/-- Storing data under some key keeps an absent key absent. -/
theorem findKey_storeData_none (entries : List PclEntry) (ns k ns2 k2 : Option String)
    (d : PclData) (h : findKey entries ns k = none) :
    findKey (storeData entries ns2 k2 d) ns k = none := by
  unfold findKey at h ⊢
  rw [List.find?_eq_none] at h ⊢
  intro x hx
  unfold storeData at hx
  obtain ⟨y, hy, rfl⟩ := List.mem_map.mp hx
  have hyk := h y hy
  by_cases hc : y.isKey ns2 k2 = true
  · simp only [hc, if_true]
    simpa [PclEntry.isKey] using hyk
  · simp only [hc]
    exact hyk

/-- A creation call either fails and leaves the service unchanged, or succeeds and appends
the new empty key. -/
theorem createKey_cases (l : PclLimits) (s : CPersistence) (ns key : Option String)
    (critical : Bool) (keyType : PclKeyType) :
    ((createKey l s ns key critical keyType).ret ≠ PCL_Error_t.PCL_ERROR_NONE
        ∧ (createKey l s ns key critical keyType).state = s)
    ∨ (∃ k, key = some k
        ∧ findKey s.entries ns key = none
        ∧ (createKey l s ns key critical keyType).ret = PCL_Error_t.PCL_ERROR_NONE
        ∧ (createKey l s ns key critical keyType).state.entries
            = s.entries ++ [⟨ns, k, critical, keyType, PclData.unwritten⟩]) := by
  unfold createKey
  cases key with
  | none => exact Or.inl ⟨fun h => PCL_Error_t.noConfusion h, rfl⟩
  | some k =>
    simp only
    split_ifs with h1 h2 h3 h4 h5
    · exact Or.inl ⟨fun h => PCL_Error_t.noConfusion h, rfl⟩
    · exact Or.inl ⟨fun h => PCL_Error_t.noConfusion h, rfl⟩
    · exact Or.inl ⟨fun h => PCL_Error_t.noConfusion h, rfl⟩
    · exact Or.inl ⟨fun h => PCL_Error_t.noConfusion h, rfl⟩
    · exact Or.inl ⟨fun h => PCL_Error_t.noConfusion h, rfl⟩
    · refine Or.inr ⟨k, rfl, ?_, rfl, rfl⟩
      cases hf : findKey s.entries ns (some k) with
      | none => rfl
      | some e => simp [hf] at h4

/-- A deletion call leaves the entries unchanged or removes the entries of its key. -/
theorem deleteKey_cases (l : PclLimits) (s : CPersistence) (ns key : Option String)
    (critical : Bool) :
    ((deleteKey l s ns key critical).ret ≠ PCL_Error_t.PCL_ERROR_NONE
        ∧ (deleteKey l s ns key critical).state = s)
    ∨ ((deleteKey l s ns key critical).ret = PCL_Error_t.PCL_ERROR_NONE
        ∧ (deleteKey l s ns key critical).state.entries
            = s.entries.filter (fun x => !x.isKey ns key)) := by
  unfold deleteKey
  cases findKey s.entries ns key with
  | none => exact Or.inl ⟨fun h => PCL_Error_t.noConfusion h, rfl⟩
  | some e =>
    simp only
    split_ifs
    · exact Or.inl ⟨fun h => PCL_Error_t.noConfusion h, rfl⟩
    · exact Or.inl ⟨fun h => PCL_Error_t.noConfusion h, rfl⟩
    · exact Or.inl ⟨fun h => PCL_Error_t.noConfusion h, rfl⟩
    · exact Or.inr ⟨rfl, rfl⟩

theorem readInt_absent (l : PclLimits) (s : CPersistence) (ns key : Option String)
    (value : Option Nat) (h : findKey s.entries ns key = none) :
    pcl_KeyReadInt l s ns key value = ⟨PCL_Error_t.PCL_ERROR_KEY_NOT_FOUND, value, s⟩ := by
  unfold pcl_KeyReadInt
  rw [h]

theorem writeInt_absent (l : PclLimits) (s : CPersistence) (ns key : Option String)
    (value : Nat) (h : findKey s.entries ns key = none) :
    pcl_KeyWriteInt l s ns key value = ⟨PCL_Error_t.PCL_ERROR_KEY_NOT_FOUND, (), s⟩ := by
  unfold pcl_KeyWriteInt
  rw [h]

/-- Removing the entries of a key that is absent removes nothing. -/
theorem filter_absent_key (entries : List PclEntry) (ns k : Option String)
    (h : findKey entries ns k = none) :
    entries.filter (fun x => !x.isKey ns k) = entries := by
  unfold findKey at h
  rw [List.find?_eq_none] at h
  rw [List.filter_eq_self]
  intro x hx
  simpa using h x hx

/-- C11: for every namespace and key name, from any state of the service: after
pcl_keyCreateInt succeeds and then pcl_keyDelete succeeds on that key, pcl_KeyReadInt on
it returns PCL_ERROR_KEY_NOT_FOUND (whatever the value pointer) and changes nothing; the
entries of the database are then those from before the creation. -/
theorem keyReadInt_after_create_delete (l : PclLimits) (s : CPersistence)
    (ns : Option String) (k : String) (value : Option Nat)
    (hcreate : (pcl_keyCreateInt l s ns (some k)).ret = PCL_Error_t.PCL_ERROR_NONE)
    (hdelete : (pcl_keyDelete l (pcl_keyCreateInt l s ns (some k)).state ns (some k)).ret
      = PCL_Error_t.PCL_ERROR_NONE) :
    (pcl_KeyReadInt l
        (pcl_keyDelete l (pcl_keyCreateInt l s ns (some k)).state ns (some k)).state
        ns (some k) value).ret = PCL_Error_t.PCL_ERROR_KEY_NOT_FOUND
    ∧ (pcl_KeyReadInt l
        (pcl_keyDelete l (pcl_keyCreateInt l s ns (some k)).state ns (some k)).state
        ns (some k) value).state
      = (pcl_keyDelete l (pcl_keyCreateInt l s ns (some k)).state ns (some k)).state
    ∧ (pcl_keyDelete l (pcl_keyCreateInt l s ns (some k)).state ns (some k)).state.entries
      = s.entries := by
  have hd := deleteKey_cases l (pcl_keyCreateInt l s ns (some k)).state ns (some k) false
  rcases hd with ⟨hne, _⟩ | ⟨_, hent⟩
  · exact absurd hdelete hne
  · have habs : findKey
        (pcl_keyDelete l (pcl_keyCreateInt l s ns (some k)).state ns (some k)).state.entries
        ns (some k) = none := by
      unfold pcl_keyDelete
      rw [hent]
      exact findKey_filter_not _ ns (some k)
    rw [readInt_absent l _ ns (some k) value habs]
    refine ⟨rfl, rfl, ?_⟩
    rcases createKey_cases l s ns (some k) false PclKeyType.intKey with
      ⟨hne, _⟩ | ⟨k2, hk2, hnone, _, hcent⟩
    · exact absurd hcreate hne
    · unfold pcl_keyDelete
      rw [hent]
      unfold pcl_keyCreateInt
      rw [hcent, List.filter_append, filter_absent_key _ ns (some k) hnone]
      have hk : k2 = k := (Option.some.inj hk2).symm
      subst hk
      simp [PclEntry.isKey]

/-- C11 (witness): in the shared namespace of an empty database, "k1" is created as an
int key and deleted; both calls succeed, and reading "k1" then fails with
PCL_ERROR_KEY_NOT_FOUND. -/
theorem keyReadInt_after_create_delete_witness :
    (pcl_keyCreateInt exampleLimits (emptyDatabase false) none (some "k1")).ret
      = PCL_Error_t.PCL_ERROR_NONE
    ∧ (pcl_KeyReadInt exampleLimits
        (pcl_keyDelete exampleLimits
          (pcl_keyCreateInt exampleLimits (emptyDatabase false) none (some "k1")).state
          none (some "k1")).state
        none (some "k1") (some 0)).ret = PCL_Error_t.PCL_ERROR_KEY_NOT_FOUND :=
  ⟨by decide,
    (keyReadInt_after_create_delete exampleLimits (emptyDatabase false) none "k1" (some 0)
      (by decide) (by decide)).1⟩

/-- An input that is not a successful creation of a key keeps that key absent. -/
theorem pclStep_keeps_absent (l : PclLimits) (s : CPersistence) (i : PclInput)
    (ns : Option String) (k : String)
    (habs : findKey s.entries ns (some k) = none)
    (hi : i.creates ns k = false ∨ (pclStep l s i).1 ≠ PCL_Error_t.PCL_ERROR_NONE) :
    findKey (pclStep l s i).2.entries ns (some k) = none := by
  have hcreate : ∀ (ns2 key2 : Option String) (critical : Bool) (keyType : PclKeyType),
      (decide (ns2 = ns ∧ key2 = some k) = false
        ∨ (createKey l s ns2 key2 critical keyType).ret ≠ PCL_Error_t.PCL_ERROR_NONE) →
      findKey (createKey l s ns2 key2 critical keyType).state.entries ns (some k) = none := by
    intro ns2 key2 critical keyType h
    rcases createKey_cases l s ns2 key2 critical keyType with ⟨_, hst⟩ | ⟨k2, hk2, _, hret, hent⟩
    · rw [hst]
      exact habs
    · rcases h with h | h
      · rw [hent, findKey_append, habs]
        simp only [Option.or, findKey, List.find?_cons, List.find?_nil]
        have hne : ¬ (ns2 = ns ∧ key2 = some k) := by simpa using h
        have hkey : PclEntry.isKey ⟨ns2, k2, critical, keyType, PclData.unwritten⟩ ns (some k)
            = false := by
          simp only [PclEntry.isKey, Bool.and_eq_false_iff, decide_eq_false_iff_not]
          by_cases h1 : ns2 = ns
          · right
            intro h2
            exact hne ⟨h1, hk2.trans h2⟩
          · left
            exact h1
        rw [hkey]
      · exact absurd hret h
  have hdelete : ∀ (ns2 key2 : Option String) (critical : Bool),
      findKey (deleteKey l s ns2 key2 critical).state.entries ns (some k) = none := by
    intro ns2 key2 critical
    rcases deleteKey_cases l s ns2 key2 critical with ⟨_, hst⟩ | ⟨_, hent⟩
    · rw [hst]
      exact habs
    · rw [hent]
      exact findKey_filter_none _ _ ns (some k) habs
  cases i with
  | pcl_keyCreateInt ns2 key2 => exact hcreate ns2 key2 false _ hi
  | pcl_keyCreateIntCritical ns2 key2 => exact hcreate ns2 key2 true _ hi
  | pcl_keyCreateByteArray ns2 key2 m => exact hcreate ns2 key2 false _ hi
  | pcl_keyCreateByteArrayCritical ns2 key2 m => exact hcreate ns2 key2 true _ hi
  | pcl_keyDelete ns2 key2 => exact hdelete ns2 key2 false
  | pcl_keyDeleteCritical ns2 key2 => exact hdelete ns2 key2 true
  | pcl_removeAppKeys ns2 =>
    simp only [pclStep, pcl_removeAppKeys]
    split_ifs
    · exact habs
    · exact habs
    · exact findKey_filter_none _ _ ns (some k) habs
  | pcl_KeyReadInt ns2 key2 v =>
    simp only [pclStep, pcl_KeyReadInt]
    split
    · exact habs
    · split
      · split_ifs <;> exact habs
      · exact habs
  | pcl_KeyWriteInt ns2 key2 v =>
    simp only [pclStep, pcl_KeyWriteInt]
    split
    · exact habs
    · split_ifs
      · exact habs
      · exact habs
      · exact findKey_storeData_none _ ns (some k) ns2 key2 _ habs
  | pcl_KeyReadByteArray ns2 key2 n b =>
    simp only [pclStep, pcl_KeyReadByteArray]
    split
    · exact habs
    · split
      · split_ifs <;> exact habs
      · exact habs
  | pcl_KeyWriteByteArray ns2 key2 n b =>
    simp only [pclStep, pcl_KeyWriteByteArray]
    split
    · exact habs
    · split
      · split_ifs
        · exact habs
        · exact habs
        · exact habs
        · exact findKey_storeData_none _ ns (some k) ns2 key2 _ habs
      · exact habs
      · exact habs
  | setDisabled d => exact habs

theorem pclRun_keeps_absent (l : PclLimits) (ns : Option String) (k : String)
    (inputs : List PclInput) (s : CPersistence)
    (habs : findKey s.entries ns (some k) = none)
    (hnever : neverCreated l ns k s inputs = true) :
    findKey (pclRun l s inputs).entries ns (some k) = none := by
  induction inputs generalizing s with
  | nil => exact habs
  | cons i rest ih =>
    simp only [neverCreated, Bool.and_eq_true, Bool.or_eq_true, Bool.not_eq_true',
      decide_eq_true_eq] at hnever
    exact ih (pclStep l s i).2 (pclStep_keeps_absent l s i ns k habs hnever.1) hnever.2

/-- C12: for every namespace and key name, after any sequence of inputs on an initially
empty database in which no creation call for that key succeeded, pcl_KeyReadInt and
pcl_KeyWriteInt on it return PCL_ERROR_KEY_NOT_FOUND and leave the service unchanged, so
no entry is created. -/
theorem key_never_created_not_found (l : PclLimits) (disabled : Bool)
    (inputs : List PclInput) (ns : Option String) (k : String) (value : Option Nat)
    (written : Nat)
    (hnever : neverCreated l ns k (emptyDatabase disabled) inputs = true) :
    ((pcl_KeyReadInt l (pclRun l (emptyDatabase disabled) inputs) ns (some k) value).ret
        = PCL_Error_t.PCL_ERROR_KEY_NOT_FOUND
      ∧ (pcl_KeyReadInt l (pclRun l (emptyDatabase disabled) inputs) ns (some k) value).state
        = pclRun l (emptyDatabase disabled) inputs)
    ∧ ((pcl_KeyWriteInt l (pclRun l (emptyDatabase disabled) inputs) ns (some k) written).ret
        = PCL_Error_t.PCL_ERROR_KEY_NOT_FOUND
      ∧ (pcl_KeyWriteInt l (pclRun l (emptyDatabase disabled) inputs) ns (some k) written).state
        = pclRun l (emptyDatabase disabled) inputs) := by
  have habs := pclRun_keeps_absent l ns k inputs (emptyDatabase disabled) rfl hnever
  rw [readInt_absent l _ ns (some k) value habs, writeInt_absent l _ ns (some k) written habs]
  exact ⟨⟨rfl, rfl⟩, ⟨rfl, rfl⟩⟩

/-- C12 (witness): after "k1" was created, written and deleted, and a creation of "k2"
was refused because the service was disabled, writing and reading "k2" fail with
PCL_ERROR_KEY_NOT_FOUND and the database still holds no entry. -/
theorem key_never_created_not_found_witness :
    (pcl_KeyWriteInt exampleLimits (pclRun exampleLimits (emptyDatabase false)
        [PclInput.pcl_keyCreateInt none (some "k1"),
         PclInput.pcl_KeyWriteInt none (some "k1") 7,
         PclInput.pcl_keyDelete none (some "k1"),
         PclInput.setDisabled true,
         PclInput.pcl_keyCreateInt none (some "k2")]) none (some "k2") 5).ret
      = PCL_Error_t.PCL_ERROR_KEY_NOT_FOUND
    ∧ (pcl_KeyWriteInt exampleLimits (pclRun exampleLimits (emptyDatabase false)
        [PclInput.pcl_keyCreateInt none (some "k1"),
         PclInput.pcl_KeyWriteInt none (some "k1") 7,
         PclInput.pcl_keyDelete none (some "k1"),
         PclInput.setDisabled true,
         PclInput.pcl_keyCreateInt none (some "k2")]) none (some "k2") 5).state.entries = [] :=
  ⟨(key_never_created_not_found exampleLimits false _ none "k2" (some 0) 5 (by decide)).2.1,
    (congrArg CPersistence.entries
      (key_never_created_not_found exampleLimits false _ none "k2" (some 0) 5
        (by decide)).2.2).trans (by decide)⟩

end Persistence
end Stla

/-! ## Claims on the position service -/

namespace Stla
namespace Positioning

theorem positioningRun_append {α : Type} (s : CPositioningService α)
    (a b : List (GnssUpdate α)) :
    positioningRun s (a ++ b) = positioningRun (positioningRun s a) b := by
  unfold positioningRun
  rw [List.foldl_append]

/-- Updates without 3D fix change neither the last valid position nor the time to first
fix. -/
theorem positioningRun_without_fix {α : Type} (later : List (GnssUpdate α))
    (s : CPositioningService α)
    (h : ∀ v ∈ later, v.position.fixStatus ≠ EGNSSFixStatus.GNSS_FIX_STATUS_3D) :
    (positioningRun s later).m_lastValidGnssPosition = s.m_lastValidGnssPosition
    ∧ (positioningRun s later).m_timeToFirstFix = s.m_timeToFirstFix := by
  induction later generalizing s with
  | nil => exact ⟨rfl, rfl⟩
  | cons v rest ih =>
    have hv : v.position.isValid = false := by
      simpa [TGNSSPosition.isValid] using h v (List.mem_cons_self v rest)
    have hstep : onGnssPosition s v = { s with m_gnssPosition := v.position } := by
      simp [onGnssPosition, hv]
    have hrest := ih (onGnssPosition s v) (fun w hw => h w (List.mem_cons_of_mem v hw))
    rw [hstep] at hrest
    have hrun : positioningRun s (v :: rest)
        = positioningRun { s with m_gnssPosition := v.position } rest := by
      unfold positioningRun
      rw [List.foldl_cons, hstep]
    rw [hrun]
    exact hrest

/-- C18: over any sequence of GNSS position updates since the start of the life cycle,
getLastValidGNSSPosition returns the most recent update with 3D fix, whatever updates
without 3D fix came after it; if no update had 3D fix, the returned position has status
NO FIX and getTimeToFirstFix returns 0. -/
theorem lastValidGNSSPosition_most_recent_fix {α : Type} (blank : α)
    (updates : List (GnssUpdate α)) :
    (∀ (earlier later : List (GnssUpdate α)) (u : GnssUpdate α),
        updates = earlier ++ u :: later →
        u.position.fixStatus = EGNSSFixStatus.GNSS_FIX_STATUS_3D →
        (∀ v ∈ later, v.position.fixStatus ≠ EGNSSFixStatus.GNSS_FIX_STATUS_3D) →
        getLastValidGNSSPosition (positioningRun (startPositioning blank) updates)
          = u.position)
    ∧ ((∀ v ∈ updates, v.position.fixStatus ≠ EGNSSFixStatus.GNSS_FIX_STATUS_3D) →
        (getLastValidGNSSPosition
            (positioningRun (startPositioning blank) updates)).fixStatus
          = EGNSSFixStatus.GNSS_FIX_STATUS_NO
        ∧ getTimeToFirstFix (positioningRun (startPositioning blank) updates) = 0) := by
  constructor
  · intro earlier later u hsplit hfix hlater
    have hvalid : u.position.isValid = true := by
      simp [TGNSSPosition.isValid, hfix]
    have hcons : earlier ++ u :: later = (earlier ++ [u]) ++ later := by simp
    rw [hsplit, hcons, positioningRun_append, positioningRun_append]
    unfold getLastValidGNSSPosition
    rw [(positioningRun_without_fix later _ hlater).1]
    simp [positioningRun, onGnssPosition, hvalid]
  · intro hnone
    have h := positioningRun_without_fix updates (startPositioning blank) hnone
    unfold getLastValidGNSSPosition getTimeToFirstFix
    rw [h.1, h.2]
    exact ⟨rfl, rfl⟩

/-- C18 (witness): after updates with 2D fix, 3D fix (time 2), 3D fix (time 3) and no fix
(time 4), the last valid position is the one of time 3; after a single update with 2D
fix, the last valid position has status NO FIX and the time to first fix is 0. -/
theorem lastValidGNSSPosition_most_recent_fix_witness :
    getLastValidGNSSPosition (positioningRun (startPositioning 0)
        [exampleUpdate 1 EGNSSFixStatus.GNSS_FIX_STATUS_2D,
         exampleUpdate 2 EGNSSFixStatus.GNSS_FIX_STATUS_3D,
         exampleUpdate 3 EGNSSFixStatus.GNSS_FIX_STATUS_3D,
         exampleUpdate 4 EGNSSFixStatus.GNSS_FIX_STATUS_NO])
      = ⟨3, EGNSSFixStatus.GNSS_FIX_STATUS_3D, 3⟩
    ∧ getTimeToFirstFix (positioningRun (startPositioning 0)
        [exampleUpdate 1 EGNSSFixStatus.GNSS_FIX_STATUS_2D]) = 0 :=
  ⟨(lastValidGNSSPosition_most_recent_fix 0 _).1
      [exampleUpdate 1 EGNSSFixStatus.GNSS_FIX_STATUS_2D,
       exampleUpdate 2 EGNSSFixStatus.GNSS_FIX_STATUS_3D]
      [exampleUpdate 4 EGNSSFixStatus.GNSS_FIX_STATUS_NO]
      (exampleUpdate 3 EGNSSFixStatus.GNSS_FIX_STATUS_3D) rfl rfl (by decide),
    ((lastValidGNSSPosition_most_recent_fix 0 _).2 (by decide)).2⟩

end Positioning
end Stla

/-! ## Claims on type identification -/

namespace Stla

/-- C13 (the code at the failing input): each of IMqttConfService, ILwM2MAppFwkService,
ISMSServiceMgrProvider, IWifiServiceProvider and ISupervision3rd is declared a subclass
of Poco::OSP::Service, and on an object that takes type() from the interface its isA
answers true for the interface's own type but false for typeid(Poco::OSP::Service). -/
theorem nameOnly_isA_rejects_Service :
    (isSubclassOf CppClass.IMqttConfService CppClass.Service = true
      ∧ Connectivity.IMqttConfService.isA Connectivity.IMqttConfService.object
          (typeid CppClass.IMqttConfService) = true
      ∧ Connectivity.IMqttConfService.isA Connectivity.IMqttConfService.object
          (typeid CppClass.Service) = false)
    ∧ (isSubclassOf CppClass.ILwM2MAppFwkService CppClass.Service = true
      ∧ Connectivity.ILwM2MAppFwkService.isA Connectivity.ILwM2MAppFwkService.object
          (typeid CppClass.ILwM2MAppFwkService) = true
      ∧ Connectivity.ILwM2MAppFwkService.isA Connectivity.ILwM2MAppFwkService.object
          (typeid CppClass.Service) = false)
    ∧ (isSubclassOf CppClass.ISMSServiceMgrProvider CppClass.Service = true
      ∧ Connectivity.ISMSServiceMgrProvider.isA Connectivity.ISMSServiceMgrProvider.object
          (typeid CppClass.ISMSServiceMgrProvider) = true
      ∧ Connectivity.ISMSServiceMgrProvider.isA Connectivity.ISMSServiceMgrProvider.object
          (typeid CppClass.Service) = false)
    ∧ (isSubclassOf CppClass.IWifiServiceProvider CppClass.Service = true
      ∧ Connectivity.IWifiServiceProvider.isA Connectivity.IWifiServiceProvider.object
          (typeid CppClass.IWifiServiceProvider) = true
      ∧ Connectivity.IWifiServiceProvider.isA Connectivity.IWifiServiceProvider.object
          (typeid CppClass.Service) = false)
    ∧ (isSubclassOf CppClass.ISupervision3rd CppClass.Service = true
      ∧ AppFwk.ISupervision3rd.isA AppFwk.ISupervision3rd.object
          (typeid CppClass.ISupervision3rd) = true
      ∧ AppFwk.ISupervision3rd.isA AppFwk.ISupervision3rd.object
          (typeid CppClass.Service) = false) := by
  decide

/-- C19: for IMqttConfService, ILwM2MAppFwkService, ISMSServiceMgrProvider,
IWifiServiceProvider and ISupervision3rd: type() returns the typeid of the interface; on
every object, isA(t) is true if and only if the name of t equals the name returned by
the object's type(), and false if and only if the names differ; on an object that takes
type() from the interface, isA(t) is true if and only if the name of t is the name of
the interface's typeid; and of two types with different names at most one is accepted.
The base class is not consulted. -/
theorem nameOnly_isA_iff_same_name (self : ServiceObject) (t u : std.type_info) :
    (Connectivity.IMqttConfService.object.type = typeid CppClass.IMqttConfService
      ∧ (Connectivity.IMqttConfService.isA self t = true ↔ t.name = self.type.name)
      ∧ (Connectivity.IMqttConfService.isA self t = false ↔ t.name ≠ self.type.name)
      ∧ (Connectivity.IMqttConfService.isA Connectivity.IMqttConfService.object t = true
          ↔ t.name = (typeid CppClass.IMqttConfService).name)
      ∧ (t.name ≠ u.name
          → ¬ (Connectivity.IMqttConfService.isA self t = true
              ∧ Connectivity.IMqttConfService.isA self u = true)))
    ∧ (Connectivity.ILwM2MAppFwkService.object.type = typeid CppClass.ILwM2MAppFwkService
      ∧ (Connectivity.ILwM2MAppFwkService.isA self t = true ↔ t.name = self.type.name)
      ∧ (Connectivity.ILwM2MAppFwkService.isA self t = false ↔ t.name ≠ self.type.name)
      ∧ (Connectivity.ILwM2MAppFwkService.isA Connectivity.ILwM2MAppFwkService.object t = true
          ↔ t.name = (typeid CppClass.ILwM2MAppFwkService).name)
      ∧ (t.name ≠ u.name
          → ¬ (Connectivity.ILwM2MAppFwkService.isA self t = true
              ∧ Connectivity.ILwM2MAppFwkService.isA self u = true)))
    ∧ (Connectivity.ISMSServiceMgrProvider.object.type = typeid CppClass.ISMSServiceMgrProvider
      ∧ (Connectivity.ISMSServiceMgrProvider.isA self t = true ↔ t.name = self.type.name)
      ∧ (Connectivity.ISMSServiceMgrProvider.isA self t = false ↔ t.name ≠ self.type.name)
      ∧ (Connectivity.ISMSServiceMgrProvider.isA
            Connectivity.ISMSServiceMgrProvider.object t = true
          ↔ t.name = (typeid CppClass.ISMSServiceMgrProvider).name)
      ∧ (t.name ≠ u.name
          → ¬ (Connectivity.ISMSServiceMgrProvider.isA self t = true
              ∧ Connectivity.ISMSServiceMgrProvider.isA self u = true)))
    ∧ (Connectivity.IWifiServiceProvider.object.type = typeid CppClass.IWifiServiceProvider
      ∧ (Connectivity.IWifiServiceProvider.isA self t = true ↔ t.name = self.type.name)
      ∧ (Connectivity.IWifiServiceProvider.isA self t = false ↔ t.name ≠ self.type.name)
      ∧ (Connectivity.IWifiServiceProvider.isA Connectivity.IWifiServiceProvider.object t = true
          ↔ t.name = (typeid CppClass.IWifiServiceProvider).name)
      ∧ (t.name ≠ u.name
          → ¬ (Connectivity.IWifiServiceProvider.isA self t = true
              ∧ Connectivity.IWifiServiceProvider.isA self u = true)))
    ∧ (AppFwk.ISupervision3rd.object.type = typeid CppClass.ISupervision3rd
      ∧ (AppFwk.ISupervision3rd.isA self t = true ↔ t.name = self.type.name)
      ∧ (AppFwk.ISupervision3rd.isA self t = false ↔ t.name ≠ self.type.name)
      ∧ (AppFwk.ISupervision3rd.isA AppFwk.ISupervision3rd.object t = true
          ↔ t.name = (typeid CppClass.ISupervision3rd).name)
      ∧ (t.name ≠ u.name
          → ¬ (AppFwk.ISupervision3rd.isA self t = true
              ∧ AppFwk.ISupervision3rd.isA self u = true))) := by
  simp only [Connectivity.IMqttConfService.isA, Connectivity.ILwM2MAppFwkService.isA,
    Connectivity.ISMSServiceMgrProvider.isA, Connectivity.IWifiServiceProvider.isA,
    AppFwk.ISupervision3rd.isA, Connectivity.IMqttConfService.object,
    Connectivity.ILwM2MAppFwkService.object, Connectivity.ISMSServiceMgrProvider.object,
    Connectivity.IWifiServiceProvider.object, AppFwk.ISupervision3rd.object,
    Connectivity.IMqttConfService.type, Connectivity.ILwM2MAppFwkService.type,
    Connectivity.ISMSServiceMgrProvider.type, Connectivity.IWifiServiceProvider.type,
    AppFwk.ISupervision3rd.type, decide_eq_true_eq, decide_eq_false_iff_not]
  have hsym : ∀ a b : String, a = b ↔ b = a := fun a b => ⟨Eq.symm, Eq.symm⟩
  have hne : ∀ a b : String, ¬ a = b ↔ b ≠ a :=
    fun a b => ⟨fun h e => h e.symm, fun h e => h e.symm⟩
  have hpair : t.name ≠ u.name → ¬ (self.type.name = t.name ∧ self.type.name = u.name) :=
    fun h hb => h (hb.1.symm.trans hb.2)
  have hone : (self.type.name = t.name ↔ t.name = self.type.name)
      ∧ (¬ self.type.name = t.name ↔ t.name ≠ self.type.name) := ⟨hsym _ _, hne _ _⟩
  exact ⟨⟨trivial, hone.1, hone.2, hsym _ _, hpair⟩,
    ⟨trivial, hone.1, hone.2, hsym _ _, hpair⟩,
    ⟨trivial, hone.1, hone.2, hsym _ _, hpair⟩,
    ⟨trivial, hone.1, hone.2, hsym _ _, hpair⟩,
    ⟨trivial, hone.1, hone.2, hsym _ _, hpair⟩⟩

/-- C19 (witness): on an IMqttConfService object, typeid(IMqttConfService) and
typeid(Poco::OSP::Service) have different names, so isA does not accept both; it accepts
the first and rejects the second. -/
theorem nameOnly_isA_iff_same_name_witness :
    (typeid CppClass.IMqttConfService).name ≠ (typeid CppClass.Service).name
    ∧ ¬ (Connectivity.IMqttConfService.isA Connectivity.IMqttConfService.object
          (typeid CppClass.IMqttConfService) = true
        ∧ Connectivity.IMqttConfService.isA Connectivity.IMqttConfService.object
          (typeid CppClass.Service) = true) :=
  ⟨by decide,
    (nameOnly_isA_iff_same_name Connectivity.IMqttConfService.object
      (typeid CppClass.IMqttConfService) (typeid CppClass.Service)).1.2.2.2.2 (by decide)⟩

/-- C20: for ILoggingService, IRemoteAccessService and ITCUInfoService, whatever the base
Service::isA answers: isA is true for the interface's own type, true whenever the base
Service::isA(t) is true, and false exactly when the name of t differs from the name of
the interface's type and the base isA rejects t. -/
theorem withBase_isA_own_or_base (Service_isA : std.type_info → Bool) (t : std.type_info) :
    (LoggingService.ILoggingService.isA Service_isA LoggingService.ILoggingService.type = true
      ∧ (Service_isA t = true → LoggingService.ILoggingService.isA Service_isA t = true)
      ∧ (LoggingService.ILoggingService.isA Service_isA t = false
        ↔ (t.name ≠ LoggingService.ILoggingService.type.name ∧ Service_isA t = false)))
    ∧ (RemoteAccessService.IRemoteAccessService.isA Service_isA
          RemoteAccessService.IRemoteAccessService.type = true
      ∧ (Service_isA t = true
        → RemoteAccessService.IRemoteAccessService.isA Service_isA t = true)
      ∧ (RemoteAccessService.IRemoteAccessService.isA Service_isA t = false
        ↔ (t.name ≠ RemoteAccessService.IRemoteAccessService.type.name
          ∧ Service_isA t = false)))
    ∧ (TCUInfoService.ITCUInfoService.isA Service_isA TCUInfoService.ITCUInfoService.type = true
      ∧ (Service_isA t = true → TCUInfoService.ITCUInfoService.isA Service_isA t = true)
      ∧ (TCUInfoService.ITCUInfoService.isA Service_isA t = false
        ↔ (t.name ≠ TCUInfoService.ITCUInfoService.type.name ∧ Service_isA t = false))) := by
  simp only [LoggingService.ILoggingService.isA, LoggingService.ILoggingService.type,
    RemoteAccessService.IRemoteAccessService.isA, RemoteAccessService.IRemoteAccessService.type,
    TCUInfoService.ITCUInfoService.isA, TCUInfoService.ITCUInfoService.type,
    Bool.or_eq_true, Bool.or_eq_false_iff, decide_eq_true_eq, decide_eq_false_iff_not]
  refine ⟨⟨Or.inl trivial, Or.inr, ?_⟩, ⟨Or.inl trivial, Or.inr, ?_⟩,
    ⟨Or.inl trivial, Or.inr, ?_⟩⟩
  · exact and_congr_left (fun _ => not_congr eq_comm)
  · exact and_congr_left (fun _ => not_congr eq_comm)
  · exact and_congr_left (fun _ => not_congr eq_comm)

/-- C20 (witness): with the library's Service::isA as the base, ILoggingService,
IRemoteAccessService and ITCUInfoService accept typeid(Poco::OSP::Service), and
ILoggingService rejects the unrelated typeid(IMqttConfService). -/
theorem withBase_isA_own_or_base_witness :
    LoggingService.ILoggingService.isA serviceIsA (typeid CppClass.Service) = true
    ∧ RemoteAccessService.IRemoteAccessService.isA serviceIsA (typeid CppClass.Service) = true
    ∧ TCUInfoService.ITCUInfoService.isA serviceIsA (typeid CppClass.Service) = true
    ∧ LoggingService.ILoggingService.isA serviceIsA (typeid CppClass.IMqttConfService)
        = false :=
  ⟨(withBase_isA_own_or_base serviceIsA (typeid CppClass.Service)).1.2.1 (by decide),
    (withBase_isA_own_or_base serviceIsA (typeid CppClass.Service)).2.1.2.1 (by decide),
    (withBase_isA_own_or_base serviceIsA (typeid CppClass.Service)).2.2.2.1 (by decide),
    (withBase_isA_own_or_base serviceIsA (typeid CppClass.IMqttConfService)).1.2.2.mpr
      ⟨by decide, by decide⟩⟩

/-! ## Claims on constants and enumerations -/

/-- C16: the service lookup keys of the early-init, data-storage and MQTT-configuration
contracts are "stla.appfwk.einitbundle.service", "stla.persistence.datastorage.service"
and "stla.connectivity.mqttconf.service.base". -/
theorem service_lookup_keys :
    AppFwk.AFWK_EARLY_INIT_SERVICE = "stla.appfwk.einitbundle.service"
    ∧ Persistence.DATA_STORAGE_SERVICE_NAME = "stla.persistence.datastorage.service"
    ∧ Connectivity.MQTT_CONF_SERVICE_NAME = "stla.connectivity.mqttconf.service.base" :=
  ⟨rfl, rfl, rfl⟩

/-- C17 (counterexample): the audio remote object is not on port 834 and the ecall remote
object is not on port 835. -/
theorem audio_port_is_not_834 :
    Xcall.portNumber Xcall.AUDIO_SRV_ROUTER_REMOTE_SERVICE_PORT ≠ some 834
    ∧ Xcall.portNumber Xcall.ECALL_SRV_ROUTER_REMOTE_SERVICE_PORT ≠ some 835
    ∧ ¬ (Xcall.AUDIO_SRV_ROUTER_REMOTE_SERVICE_PORT = "834"
        ∧ Xcall.ECALL_SRV_ROUTER_REMOTE_SERVICE_PORT = "835") := by
  decide

/-- C17 (amended): the audio and ecall remote objects are both addressed at 127.0.0.1,
the audio remote object on port 835 and the ecall remote object on port 834. -/
theorem remote_object_endpoints :
    Xcall.AUDIO_SRV_ROUTER_REMOTE_SERVICE_ADDRESS = "127.0.0.1"
    ∧ Xcall.ECALL_SRV_ROUTER_REMOTE_SERVICE_ADDRESS = "127.0.0.1"
    ∧ Xcall.AUDIO_SRV_ROUTER_REMOTE_SERVICE_PORT = "835"
    ∧ Xcall.portNumber Xcall.AUDIO_SRV_ROUTER_REMOTE_SERVICE_PORT = some 835
    ∧ Xcall.ECALL_SRV_ROUTER_REMOTE_SERVICE_PORT = "834"
    ∧ Xcall.portNumber Xcall.ECALL_SRV_ROUTER_REMOTE_SERVICE_PORT = some 834 := by
  decide

namespace AppFwk

/-- C14: ELCM_AppState has exactly the 3 enumerators Initializing, Idle, Normal with the
distinct values 0, 1, 2; ELCM_Reason has exactly the 6 enumerators None, Shutdown,
SuspendRam, Reboot, ServicesReady, ServicesNotReady with the distinct values 0..5;
SLCM_AppState_t is exactly a pair of the two (18 records, each determined by its state and
its reason); and the AppStateEvent payload and the ackAppState argument are such records,
so both carry the two fields together. -/
theorem appState_record_is_pair :
    (ELCM_AppState.all.map ELCM_AppState.toNat = [0, 1, 2]
      ∧ ELCM_AppState.all.Nodup ∧ (∀ a : ELCM_AppState, a ∈ ELCM_AppState.all))
    ∧ (ELCM_Reason.all.map ELCM_Reason.toNat = [0, 1, 2, 3, 4, 5]
      ∧ ELCM_Reason.all.Nodup ∧ (∀ r : ELCM_Reason, r ∈ ELCM_Reason.all))
    ∧ (SLCM_AppState_t.all.length = 18 ∧ SLCM_AppState_t.all.Nodup
      ∧ (∀ st : SLCM_AppState_t, st ∈ SLCM_AppState_t.all)
      ∧ (∀ st : SLCM_AppState_t, st = ⟨st.state, st.reason⟩)
      ∧ (∀ a b : SLCM_AppState_t, a = b ↔ (a.state = b.state ∧ a.reason = b.reason)))
    ∧ (∀ a b : SLCM_AppState_t, LcmEvent.AppStateEvent a = LcmEvent.AppStateEvent b
        ↔ (a.state = b.state ∧ a.reason = b.reason))
    ∧ (∀ a b : SLCM_AppState_t, LcmCall.ackAppState a = LcmCall.ackAppState b
        ↔ (a.state = b.state ∧ a.reason = b.reason)) := by
  have hpair : ∀ a b : SLCM_AppState_t, a = b ↔ (a.state = b.state ∧ a.reason = b.reason) := by
    intro a b
    cases a
    cases b
    simp
  refine ⟨⟨by decide, by decide, ?_⟩, ⟨by decide, by decide, ?_⟩,
    ⟨by decide, by decide, ?_, fun st => rfl, hpair⟩, ?_, ?_⟩
  · intro a
    cases a <;> decide
  · intro r
    cases r <;> decide
  · intro st
    obtain ⟨a, r⟩ := st
    cases a <;> cases r <;> decide
  · intro a b
    rw [← hpair]
    exact ⟨fun h => LcmEvent.AppStateEvent.inj h, fun h => congrArg _ h⟩
  · intro a b
    rw [← hpair]
    exact ⟨fun h => LcmCall.ackAppState.inj h, fun h => congrArg _ h⟩

/-- C15 (counterexample): E_LCM_NO_ERROR is an enumerator of ELCM_ErrorType whose name is
not one of the E_LCM_RET_* names. -/
theorem no_error_is_not_a_ret_code :
    ELCM_ErrorType.E_LCM_NO_ERROR ∈ ELCM_ErrorType.all
    ∧ isLcmRetName (ELCM_ErrorType.identifier ELCM_ErrorType.E_LCM_NO_ERROR) = false := by
  decide

/-- C15 (amended): ELCM_ErrorType is a closed set of 9 enumerators with the pairwise
distinct values 0..8; success is 0; busy (7), failure (1) and no permission (6) are three
different values; and every enumerator except the last one, E_LCM_NO_ERROR (8), is one of
the E_LCM_RET_* codes. -/
theorem errorType_closed_distinct :
    (ELCM_ErrorType.all.map ELCM_ErrorType.toNat = [0, 1, 2, 3, 4, 5, 6, 7, 8]
      ∧ ELCM_ErrorType.all.Nodup ∧ (∀ e : ELCM_ErrorType, e ∈ ELCM_ErrorType.all))
    ∧ (∀ a b : ELCM_ErrorType, a.toNat = b.toNat ↔ a = b)
    ∧ ELCM_ErrorType.E_LCM_RET_SUCCESS.toNat = 0
    ∧ (ELCM_ErrorType.E_LCM_RET_BUSY.toNat ≠ ELCM_ErrorType.E_LCM_RET_FAILURE.toNat
      ∧ ELCM_ErrorType.E_LCM_RET_BUSY.toNat ≠ ELCM_ErrorType.E_LCM_RET_NO_PERM.toNat
      ∧ ELCM_ErrorType.E_LCM_RET_FAILURE.toNat ≠ ELCM_ErrorType.E_LCM_RET_NO_PERM.toNat)
    ∧ (∀ e : ELCM_ErrorType, isLcmRetName e.identifier = true
        ↔ e ≠ ELCM_ErrorType.E_LCM_NO_ERROR) := by
  refine ⟨⟨by decide, by decide, ?_⟩, ?_, rfl, by decide, ?_⟩
  · intro e
    cases e <;> decide
  · intro a b
    cases a <;> cases b <;> decide
  · intro e
    cases e <;> decide

end AppFwk
end Stla

/-! ## Claims on the values of further enumerations -/

namespace Stla
namespace Connectivity

/-- C22: between mqtt_conf_err_code and e_lwm2m_appfwk_itf_err_code, the enumerators with
the same name are OK, METHOD_NOT_ALLOWED, OUT_OF_MEMORY, ID_INVALID and UNKNOWN_ERROR; of
these only OK has the same value in both (0), the others have 1 vs 2, 2 vs 3, 3 vs 9 and
7 vs 10. -/
theorem same_name_different_value :
    (∀ (a : mqtt_conf_err_code_t) (b : e_lwm2m_appfwk_itf_err_code_t),
        a.identifier = b.identifier → (a.toNat = b.toNat ↔ a.identifier = "OK"))
    ∧ (mqtt_conf_err_code_t.OK.toNat = 0 ∧ e_lwm2m_appfwk_itf_err_code_t.OK.toNat = 0)
    ∧ (mqtt_conf_err_code_t.METHOD_NOT_ALLOWED.toNat = 1
      ∧ e_lwm2m_appfwk_itf_err_code_t.METHOD_NOT_ALLOWED.toNat = 2)
    ∧ (mqtt_conf_err_code_t.OUT_OF_MEMORY.toNat = 2
      ∧ e_lwm2m_appfwk_itf_err_code_t.OUT_OF_MEMORY.toNat = 3)
    ∧ (mqtt_conf_err_code_t.ID_INVALID.toNat = 3
      ∧ e_lwm2m_appfwk_itf_err_code_t.ID_INVALID.toNat = 9)
    ∧ (mqtt_conf_err_code_t.UNKNOWN_ERROR.toNat = 7
      ∧ e_lwm2m_appfwk_itf_err_code_t.UNKNOWN_ERROR.toNat = 10) := by
  refine ⟨?_, ⟨rfl, rfl⟩, ⟨rfl, rfl⟩, ⟨rfl, rfl⟩, ⟨rfl, rfl⟩, ⟨rfl, rfl⟩⟩
  intro a b
  cases a <;> cases b <;> decide

/-- C22 (witness): METHOD_NOT_ALLOWED is named alike in both enumerations and has
different values, 1 and 2. -/
theorem same_name_different_value_witness :
    mqtt_conf_err_code_t.METHOD_NOT_ALLOWED.toNat
      ≠ e_lwm2m_appfwk_itf_err_code_t.METHOD_NOT_ALLOWED.toNat :=
  fun h => absurd
    ((same_name_different_value.1 mqtt_conf_err_code_t.METHOD_NOT_ALLOWED
      e_lwm2m_appfwk_itf_err_code_t.METHOD_NOT_ALLOWED rfl).mp h) (by decide)

/-- C25: the values of the enumerator names of enObjTypeSMS_t are not injective:
SMS_MGR_OT_WU, SMS_MGR_OT_GP, SMS_MGR_OT_RU and SMS_MGR_OT_MSG_REQ are all 0, so an
objType of 0 stands for these four names, while together with the service type of the
message (LC, application framework, device manager, assistance or emergency call) it
stands for one; MSG1 = 1, MSG2 = 2, STOP = 3, UNKNOWN = 4 and LAST = 5 are pairwise
distinct and non-zero. -/
theorem objType_values_not_injective :
    (enObjTypeSMS_t.SMS_MGR_OT_WU.toNat = 0 ∧ enObjTypeSMS_t.SMS_MGR_OT_GP.toNat = 0
      ∧ enObjTypeSMS_t.SMS_MGR_OT_RU.toNat = 0 ∧ enObjTypeSMS_t.SMS_MGR_OT_MSG_REQ.toNat = 0)
    ∧ ¬ Function.Injective enObjTypeSMS_t.toNat
    ∧ objTypeNamesOf 0
        = [.SMS_MGR_OT_WU, .SMS_MGR_OT_GP, .SMS_MGR_OT_RU, .SMS_MGR_OT_MSG_REQ]
    ∧ (objTypeNamesFor .SMS_MGR_SRV_LC 0 = [.SMS_MGR_OT_WU]
      ∧ objTypeNamesFor .SMS_MGR_SRV_APPFWK 0 = [.SMS_MGR_OT_GP]
      ∧ objTypeNamesFor .SMS_MGR_SRV_DM 0 = [.SMS_MGR_OT_RU]
      ∧ objTypeNamesFor .SMS_MGR_SRV_ACALL 0 = [.SMS_MGR_OT_MSG_REQ]
      ∧ objTypeNamesFor .SMS_MGR_SRV_ECALL 0 = [.SMS_MGR_OT_MSG_REQ])
    ∧ ([enObjTypeSMS_t.SMS_MGR_OT_MSG1, .SMS_MGR_OT_MSG2, .SMS_MGR_OT_STOP,
          .SMS_MGR_OT_UNKNOWN, .SMS_MGR_OT_LAST].map enObjTypeSMS_t.toNat = [1, 2, 3, 4, 5])
    ∧ (∀ n : enObjTypeSMS_t, n.toNat ≠ 0 → ∀ m : enObjTypeSMS_t, m.toNat = n.toNat → m = n) := by
  refine ⟨⟨rfl, rfl, rfl, rfl⟩, ?_, by decide, by decide, by decide, ?_⟩
  · intro h
    have : enObjTypeSMS_t.SMS_MGR_OT_WU = enObjTypeSMS_t.SMS_MGR_OT_GP := h rfl
    cases this
  · intro n hn m
    cases n <;> cases m <;> revert hn <;> decide

/-- C25 (witness): SMS_MGR_OT_STOP has the non-zero value 3, and the only name with that
value is SMS_MGR_OT_STOP. -/
theorem objType_values_not_injective_witness :
    ∀ m : enObjTypeSMS_t, m.toNat = enObjTypeSMS_t.SMS_MGR_OT_STOP.toNat
      → m = enObjTypeSMS_t.SMS_MGR_OT_STOP :=
  objType_values_not_injective.2.2.2.2.2 enObjTypeSMS_t.SMS_MGR_OT_STOP (by decide)

end Connectivity

namespace AppFwk

/-- C26: in lcm_LifecycleState_t the declared states have the values EMERGENCY = 0,
NOMINAL = 1, UPDATE = 3 and BEFORE_SLEEP = 4; the sentinel E_LCM_ST_LAST is 5 and
strictly greater than every declared state; no enumerator has the value 2; and the range
check 0 <= v < E_LCM_ST_LAST accepts 2. -/
theorem lifecycleState_gap_at_two :
    lcm_LifecycleState_t.declaredStates.map lcm_LifecycleState_t.toNat = [0, 1, 3, 4]
    ∧ lcm_LifecycleState_t.E_LCM_ST_LAST.toNat = 5
    ∧ (∀ s ∈ lcm_LifecycleState_t.declaredStates,
        s.toNat < lcm_LifecycleState_t.E_LCM_ST_LAST.toNat)
    ∧ (∀ s : lcm_LifecycleState_t,
        s ∈ lcm_LifecycleState_t.declaredStates ∨ s = lcm_LifecycleState_t.E_LCM_ST_LAST)
    ∧ (∀ s : lcm_LifecycleState_t, s.toNat ≠ 2)
    ∧ lifecycleStateInRange 2 = true := by
  refine ⟨rfl, rfl, by decide, ?_, ?_, by decide⟩
  · intro s
    cases s <;> decide
  · intro s
    cases s <;> decide

end AppFwk

namespace Persistence

/-- C27: every enumerator of dss_ErrorCode_t is strictly negative; the nine codes are the
pairwise distinct values -656, -111, -32, -22, -17, -16, -12, -2, -1, all within int32_t;
so a result r >= 0 is never an error code, and a result that is an error code is
negative. -/
theorem dss_error_codes_negative :
    dss_ErrorCode_t.all.map dss_ErrorCode_t.toInt
      = [-656, -111, -32, -22, -17, -16, -12, -2, -1]
    ∧ (dss_ErrorCode_t.all.map dss_ErrorCode_t.toInt).Nodup
    ∧ (∀ e : dss_ErrorCode_t, e ∈ dss_ErrorCode_t.all)
    ∧ (∀ e : dss_ErrorCode_t, e.toInt < 0 ∧ -2 ^ 31 ≤ e.toInt)
    ∧ (∀ r : Int, 0 ≤ r → ∀ e : dss_ErrorCode_t, r ≠ e.toInt)
    ∧ (∀ r : Int, 0 ≤ r → isDssError r = false)
    ∧ (∀ r : Int, isDssError r = true → r < 0) := by
  have hneg : ∀ e : dss_ErrorCode_t, e.toInt < 0 ∧ -2 ^ 31 ≤ e.toInt := by
    intro e
    cases e <;> decide
  have herr : ∀ r : Int, isDssError r = true → r < 0 := by
    intro r hr
    simp only [isDssError, List.any_eq_true, decide_eq_true_eq] at hr
    obtain ⟨e, _, he⟩ := hr
    rw [← he]
    exact (hneg e).1
  refine ⟨rfl, by decide, ?_, hneg, ?_, ?_, herr⟩
  · intro e
    cases e <;> decide
  · intro r hr e he
    have := (hneg e).1
    omega
  · intro r hr
    cases h : isDssError r with
    | false => rfl
    | true =>
      have := herr r h
      omega

/-- C27 (witness): the result 0 is not an error code, and the result -22 (DSS_EINVAL) is
one and is negative. -/
theorem dss_error_codes_negative_witness :
    isDssError 0 = false ∧ isDssError (-22) = true ∧ (-22 : Int) < 0 :=
  ⟨dss_error_codes_negative.2.2.2.2.2.1 0 (by decide), by decide,
    dss_error_codes_negative.2.2.2.2.2.2 (-22) (by decide)⟩

end Persistence
end Stla

namespace Stla
namespace AppFwk

/-- C26 (witness): E_LCM_ST_BEFORE_SLEEP is a declared state, and its value 4 is below
the sentinel. -/
theorem lifecycleState_gap_at_two_witness :
    lcm_LifecycleState_t.E_LCM_ST_BEFORE_SLEEP.toNat
      < lcm_LifecycleState_t.E_LCM_ST_LAST.toNat :=
  lifecycleState_gap_at_two.2.2.1 lcm_LifecycleState_t.E_LCM_ST_BEFORE_SLEEP (by decide)

end AppFwk

namespace Xcall

/-- C23: a default-constructed EcallDescription, whatever the memory behind the string
literal, has startedAt = 0, a VIN of length 17 and reason = 4294967295 = 2^32 - 1, which
is EcallReason::UnknownReason (-1) converted to the unsigned 32-bit field; this reason
differs from NotTriggered (0), ManualTriggered (1) and AutomaticTriggered (2), and is
UnknownReason again when reinterpreted as a signed 32-bit value. -/
theorem default_EcallDescription (beyond : Nat → Nat) :
    (EcallDescription.EcallDescription beyond).startedAt = 0
    ∧ (EcallDescription.EcallDescription beyond).VIN.length = 17
    ∧ (EcallDescription.EcallDescription beyond).reason = 4294967295
    ∧ (EcallDescription.EcallDescription beyond).reason = 2 ^ 32 - 1
    ∧ (EcallDescription.EcallDescription beyond).reason
        = toUInt32 EcallReason.UnknownReason.toInt
    ∧ ((EcallDescription.EcallDescription beyond).reason
          ≠ toUInt32 EcallReason.NotTriggered.toInt
      ∧ (EcallDescription.EcallDescription beyond).reason
          ≠ toUInt32 EcallReason.ManualTriggered.toInt
      ∧ (EcallDescription.EcallDescription beyond).reason
          ≠ toUInt32 EcallReason.AutomaticTriggered.toInt)
    ∧ (toUInt32 EcallReason.NotTriggered.toInt = 0
      ∧ toUInt32 EcallReason.ManualTriggered.toInt = 1
      ∧ toUInt32 EcallReason.AutomaticTriggered.toInt = 2)
    ∧ toInt32 (EcallDescription.EcallDescription beyond).reason
        = EcallReason.UnknownReason.toInt := by
  have hr : (EcallDescription.EcallDescription beyond).reason = toUInt32 (-1) := rfl
  rw [hr]
  refine ⟨rfl, ?_, ?_, ?_, ?_, ⟨?_, ?_, ?_⟩, ⟨?_, ?_, ?_⟩, ?_⟩
  · simp [EcallDescription.EcallDescription, stringOfBuffer]
  all_goals decide

end Xcall

namespace Positioning

theorem validityBit_eq_two_pow (f : EEnhancedPositionValidityBits) :
    f.toNat = 2 ^ f.bitIndex := by
  cases f <;> decide

theorem bitIndex_injective (f g : EEnhancedPositionValidityBits)
    (h : f.bitIndex = g.bitIndex) : f = g := by
  cases f <;> cases g <;> first | rfl | (exfalso; revert h; decide)

/-- A flag's check on a mask reads the bit of the flag. -/
theorem and_validityBit_ne_zero (m : Nat) (f : EEnhancedPositionValidityBits) :
    m &&& f.toNat ≠ 0 ↔ m.testBit f.bitIndex = true := by
  rw [validityBit_eq_two_pow, Nat.and_two_pow]
  cases h : m.testBit f.bitIndex <;> simp

theorem testBit_foldl_or (flags : List EEnhancedPositionValidityBits) (acc : Nat)
    (f : EEnhancedPositionValidityBits) :
    (flags.foldl (fun m g => m ||| g.toNat) acc).testBit f.bitIndex = true
      ↔ (acc.testBit f.bitIndex = true ∨ f ∈ flags) := by
  induction flags generalizing acc with
  | nil => simp
  | cons g rest ih =>
    rw [List.foldl_cons, ih, Nat.testBit_or, validityBit_eq_two_pow g, Nat.testBit_two_pow]
    simp only [Bool.or_eq_true, decide_eq_true_eq, List.mem_cons]
    constructor
    · rintro ((h | h) | h)
      · exact Or.inl h
      · exact Or.inr (Or.inl (bitIndex_injective g f h).symm)
      · exact Or.inr (Or.inr h)
    · rintro (h | h | h)
      · exact Or.inl (Or.inl h)
      · exact Or.inl (Or.inr (by rw [h]))
      · exact Or.inr h

theorem foldl_or_lt (flags : List EEnhancedPositionValidityBits) (acc : Nat)
    (h : acc < 2 ^ 32) : flags.foldl (fun m g => m ||| g.toNat) acc < 2 ^ 32 := by
  induction flags generalizing acc with
  | nil => exact h
  | cons g rest ih =>
    rw [List.foldl_cons]
    apply ih
    apply Nat.or_lt_two_pow h
    cases g <;> decide

/-- C24: the six EEnhancedPositionValidityBits values are 0x1, 0x2, 0x10, 0x40, 0x40000000
and 0x80000000; each is a single bit below bit 32, they are pairwise disjoint under
bitwise AND, and for every collection of flags and every flag f, the bitwise OR of the
collection AND f is non-zero if and only if f is in the collection; the mask fits in 32
bits and decodes back to exactly the flags of the collection. -/
theorem validityBits_decode (flags : List EEnhancedPositionValidityBits)
    (f : EEnhancedPositionValidityBits) :
    EEnhancedPositionValidityBits.all.map EEnhancedPositionValidityBits.toNat
      = [0x1, 0x2, 0x10, 0x40, 0x40000000, 0x80000000]
    ∧ (∀ g : EEnhancedPositionValidityBits, g ∈ EEnhancedPositionValidityBits.all)
    ∧ (f.toNat = 2 ^ f.bitIndex ∧ f.bitIndex < 32 ∧ f.toNat < 2 ^ 32)
    ∧ (∀ g : EEnhancedPositionValidityBits, f.toNat &&& g.toNat = 0 ↔ f ≠ g)
    ∧ (validityMask flags &&& f.toNat ≠ 0 ↔ f ∈ flags)
    ∧ validityMask flags < 2 ^ 32
    ∧ (f ∈ decodeValidity (validityMask flags) ↔ f ∈ flags) := by
  have hall : ∀ g : EEnhancedPositionValidityBits, g ∈ EEnhancedPositionValidityBits.all := by
    intro g
    cases g <;> decide
  have hmask : validityMask flags &&& f.toNat ≠ 0 ↔ f ∈ flags := by
    rw [and_validityBit_ne_zero]
    unfold validityMask
    rw [testBit_foldl_or]
    simp
  refine ⟨rfl, hall, ⟨validityBit_eq_two_pow f, ?_, ?_⟩, ?_, hmask,
    foldl_or_lt flags 0 (by decide), ?_⟩
  · cases f <;> decide
  · cases f <;> decide
  · intro g
    cases f <;> cases g <;> decide
  · unfold decodeValidity isValidityBitSet
    rw [List.mem_filter, decide_eq_true_eq]
    exact ⟨fun h => hmask.mp h.2, fun h => ⟨hall f, hmask.mpr h⟩⟩

end Positioning
end Stla

/-! ## Claims on the declarations of the catalogue -/

namespace Stla
namespace Catalogue

/-- C21 (counterexample): IMqttConfService::isA is a member function of the catalogue
that is neither pure virtual nor empty: its body returns a value, on an IMqttConfService
object true for the type of IMqttConfService and false for the type of
Poco::OSP::Service; and
EcallInfoProvider::getEcallState is declared without "= 0" and without a body. -/
theorem isA_has_a_body :
    (⟨"IMqttConfService", "isA", 245, MemberKind.returnsValue⟩ : MemberFunction)
        ∈ memberFunctions
    ∧ MemberFunction.isPureOrTrivial ⟨"IMqttConfService", "isA", 245, MemberKind.returnsValue⟩
        = false
    ∧ Connectivity.IMqttConfService.isA Connectivity.IMqttConfService.object
        (typeid CppClass.IMqttConfService) = true
    ∧ Connectivity.IMqttConfService.isA Connectivity.IMqttConfService.object
        (typeid CppClass.Service) = false
    ∧ (⟨"EcallInfoProvider", "getEcallState", 124, MemberKind.declaredOnly⟩ : MemberFunction)
        ∈ memberFunctions
    ∧ MemberFunction.isPureOrTrivial
        ⟨"EcallInfoProvider", "getEcallState", 124, MemberKind.declaredOnly⟩ = false := by
  decide

set_option maxRecDepth 100000 in
/-- C21 (amended): of the 206 member functions declared in the catalogue, 153 are pure
virtual and 29 are constructors or destructors that do nothing (empty body, or
defaulted); the 24 others are the inline type() and isA() of the eight service interfaces
and DiagClientDtcConfirmationNotify::data(), whose bodies return a value, the
constructors of EcallDescription and DiagClientDtcConfirmationNotify, which initialise
members, and the five methods of EcallInfoProvider, which are declared non-pure without
a body. -/
theorem members_pure_or_trivial_except :
    memberFunctions.length = 206
    ∧ (memberFunctions.filter (fun m => decide (m.kind = MemberKind.pureVirtual))).length = 153
    ∧ (memberFunctions.filter (fun m => decide (m.kind = MemberKind.emptyBody))).length = 28
    ∧ (memberFunctions.filter (fun m => decide (m.kind = MemberKind.defaulted))).length = 1
    ∧ memberFunctions.filter (fun m => !m.isPureOrTrivial) = nonTrivialMembers
    ∧ nonTrivialMembers.length = 24
    ∧ (nonTrivialMembers.filter (fun m => decide (m.kind = MemberKind.returnsValue))).length
        = 17
    ∧ (nonTrivialMembers.filter
        (fun m => decide (m.kind = MemberKind.initialisesMembers))).length = 2
    ∧ (nonTrivialMembers.filter (fun m => decide (m.kind = MemberKind.declaredOnly))).length
        = 5 := by
  decide

end Catalogue
end Stla
